import Mathlib

/-!
# Convolution algorithm search and dispatch (src/ocl/convolutionocl.cpp)

A shallow embedding of the orchestration layer of `convolutionocl.cpp`:
the three `Find*Algorithm` searches, the three `Convolution*` dispatchers and
`ConvolutionBackwardBias`.  The accelerator handle, the strategy constructors,
the unfold and matrix-multiply primitives and the workspace-size functions are
collaborators that live outside this file of the repository; they enter the
model through `Env` (an oracle record) and through the `Handle` state, whose
command log records every buffer creation, kernel construction and launch.

Conventions
* C++ `int` values are `Int`; products of `int`s wrap to 32 bits (`imul`).
* A pointer is an `Option`: `none` is `nullptr`.
* Device times are exact rationals.
* An out-of-range vector read ends the run with `Abort.undefined`.
-/

namespace mlopen

/-! ## Machine integers -/

/-- Two's-complement wrap of an integer to the range of a 32-bit `int`. -/
def wrap32 (v : Int) : Int := (v + 2147483648) % 4294967296 - 2147483648

/-- Product of two `int`s. -/
def imul (a b : Int) : Int := wrap32 (a * b)

/-- Conversion of an `int` to `size_t` (64 bit). -/
def toSizeT (v : Int) : Nat := (v % 18446744073709551616).toNat

/-! ## Status codes and exceptions -/

/-- The status codes named in this file. -/
inductive mlopenStatus_t
  | mlopenStatusBadParm
  | mlopenStatusUnknownError
deriving DecidableEq, Repr

/-- What a `MLOPEN_THROW` site passes: `MLOPEN_THROW(status)`,
`MLOPEN_THROW(status, msg)` or `MLOPEN_THROW(msg)`.  `status = none` records a
throw site that passes a message only. -/
structure Exception where
  status : Option mlopenStatus_t
  message : String
deriving DecidableEq, Repr

/-- Ways a call ends without returning normally. -/
inductive Abort
  | thrown (e : Exception)
  | undefined (site : String)
  | missingKernel (algorithm : String) (network_config : String)
deriving DecidableEq, Repr

deriving instance DecidableEq for Except

/-! ## Buffers, tensors, kernels -/

/-- Device memory: a buffer owned by the caller, or the n-th buffer created
through `handle.Create`. -/
inductive Buffer
  | caller (id : Nat)
  | created (n : Nat)
deriving DecidableEq, Repr

/-- `Data_t` / `ConstData_t`: a possibly-null device pointer. -/
abbrev Data_t := Option Buffer

/-- Tensor descriptor: dimension lengths, strides and the data-type code. -/
structure TensorDescriptor where
  lens : List Int
  strides : List Int
  type : Nat
deriving DecidableEq, Repr

/-- `TensorDescriptor::GetSize`: the rank. -/
def TensorDescriptor.GetSize (d : TensorDescriptor) : Nat := d.lens.length

/-- `TensorDescriptor::GetType`. -/
def TensorDescriptor.GetType (d : TensorDescriptor) : Nat := d.type

/-- `GetLengths()[i]`: `none` when the index is out of range. -/
def TensorDescriptor.GetLength (d : TensorDescriptor) (i : Nat) : Option Int := d.lens.get? i

/-- Modelled from the spec: `GetElementSize` (tensor.hpp is not part of the
sources) is the element count of the tensor, the product of its lengths. -/
def TensorDescriptor.GetElementSize (d : TensorDescriptor) : Int := d.lens.foldl imul 1

/-- `sizeof(desc.GetType())`: the size of the data-type enumeration object. -/
def sizeof_GetType : Nat := 4

/-- Modelled from the spec: `tie4` (util.hpp is not part of the sources) binds
the four lengths N, C, H, W of a tensor whose shape is fixed at 4D; on any
other rank it has no defined result. -/
def tie4 (v : List Int) : Option (Int × Int × Int × Int) :=
  match v with
  | [a, b, c, d] => some (a, b, c, d)
  | _ => none

/-- A compiled, launchable kernel as returned by `handle.GetKernel`. -/
structure KernelInvoke where
  program_name : String
  kernel_name : String
  vld : List Nat
  vgd : List Nat
  parms : String
deriving DecidableEq, Repr

/-- `KernelInvoke::GetName`. -/
def KernelInvoke.GetName (k : KernelInvoke) : String := k.kernel_name

/-- The tuple `mlo_kernel_info`: get<0> kernel name, get<1> kernel file,
get<2> compiler options, get<3> global work size, get<4> local work size. -/
structure mlo_kernel_info where
  kernel_name : String
  kernel_file : String
  comp_options : String
  g_wk : List Nat
  l_wk : List Nat
deriving DecidableEq, Repr

/-- The convolution descriptor: padding, strides (u, v) and upscale factors. -/
structure ConvolutionDescriptor where
  pad_h : Int
  pad_w : Int
  u : Int
  v : Int
  upscalex : Int
  upscaley : Int
deriving DecidableEq, Repr

/-- The three strategy-constructor classes used in this file. -/
inductive ConstructFamily
  | direct2D
  | winograd
  | BwdWrW2D
deriving DecidableEq, Repr

/-- The settings a strategy constructor has received through its constructor
argument and its setters; a field is `none` when its setter was not called. -/
structure ConstructParams where
  family : ConstructFamily
  direction : Int
  doSearch : Option Bool := none
  saveSearchRequest : Option Bool := none
  generalCompOptions : Option String := none
  stream : Bool := false
  outputDesc : Option TensorDescriptor := none
  inputDesc : Option TensorDescriptor := none
  weightDesc : Option TensorDescriptor := none
  convDescr : Option ConvolutionDescriptor := none
deriving DecidableEq, Repr

/-- What a strategy constructor reports after `mloConstruct`. -/
structure Constructed where
  result : Int
  kernelFile : String
  kernelName : String
  compilerOptions : String
  localWkSize : List Nat
  globalWkSize : List Nat
  kernelsInfo : List mlo_kernel_info
deriving DecidableEq, Repr

/-- A matrix-multiply geometry, identified by the name and key it is stored
under. -/
structure GemmGeometry where
  algorithm : String
  network_config : String
deriving DecidableEq, Repr

/-! ## The accelerator handle -/

/-- Commands issued to the accelerator context, in order. -/
inductive Event
  | Create (bytes : Nat) (buf : Buffer)
  | Compile (algorithm : String) (network_config : String) (k : KernelInvoke)
  | Launch (k : KernelInvoke) (ints : List Int) (bufs : List Data_t)
  | Im2Col (src : Data_t) (in_offset : Nat) (dims : List Int) (dst : Data_t)
  | FindSolution (a : Data_t) (b : Data_t) (c : Data_t)
  | RunGemm (gg : GemmGeometry) (a : Data_t) (b : Data_t) (c : Data_t)
      (a_offset : Int) (b_offset : Int) (c_offset : Int)
deriving DecidableEq, Repr

/-- Modelled from the spec: the accelerator context of §6 (handle.hpp is not
part of the sources): a profiling toggle, the device timer, the kernel cache
keyed by (algorithm name, fingerprint), and the log of commands issued. -/
structure Handle where
  profiling : Bool
  kernel_time : ℚ
  cache : List ((String × String) × KernelInvoke)
  created : Nat
  log : List Event
deriving DecidableEq

/-- The collaborators of this file, as an oracle record.  `mloConstruct` and
`mloBuildConf_Key` are functions of the settings a constructor object has
received; `getCompiledInParameters` also depends on whether `mloConstruct` has
run on the object; `elapsed n` is the device time of the command issued when
the log held n commands. -/
structure Env where
  MLOPEN_USE_TINYGEMM : Bool
  mloConstruct : ConstructParams → Constructed
  mloBuildConf_Key : ConstructParams → String
  getCompiledInParameters : ConstructParams → Bool → Int × Int × Int × Int × Int × Int
  elapsed : Nat → ℚ
  ForwardGetWorkSpaceSize : ConvolutionDescriptor → TensorDescriptor → TensorDescriptor → Nat
  BackwardWeightsGetWorkSpaceSizeGEMM :
    ConvolutionDescriptor → TensorDescriptor → TensorDescriptor → Nat
  BackwardWeightsGetWorkSpaceSizeDirect :
    ConvolutionDescriptor → TensorDescriptor → TensorDescriptor → TensorDescriptor → Nat
  gemmConfigFwd : TensorDescriptor → TensorDescriptor → TensorDescriptor → String
  gemmConfigBwdWeights : TensorDescriptor → TensorDescriptor → TensorDescriptor → String
  FwdAlgoResolver : String → Int
  BwdDataAlgoResolver : String → Int
  BwdWeightsAlgoResolver : String → Int
  mlopenConvolutionBwdWeightsAlgoGEMM : Int
  mlopenConvolutionBwdWeightsAlgoDirect : Int

/-- Modelled from the spec: `IsProfilingEnabled`. -/
def Handle.IsProfilingEnabled (h : Handle) : Bool := h.profiling

/-- Modelled from the spec: `EnableProfiling(bool)` sets the toggle. -/
def Handle.EnableProfiling (h : Handle) (enable : Bool) : Handle :=
  { h with profiling := enable }

/-- Modelled from the spec: `ResetDeviceTimer`. -/
def Handle.ResetKernelTime (h : Handle) : Handle := { h with kernel_time := 0 }

/-- Modelled from the spec: `GetLastKernelTimeMicros`. -/
def Handle.GetKernelTime (h : Handle) : ℚ := h.kernel_time

/-- Modelled from the spec: `AccumulateKernelTime(extra)` adds to the timer. -/
def Handle.AccumKernelTime (h : Handle) (t : ℚ) : Handle :=
  { h with kernel_time := h.kernel_time + t }

/-- Modelled from the spec: `CreateDeviceBuffer(bytes)` returns a fresh
buffer. -/
def Handle.Create (h : Handle) (bytes : Nat) : Buffer × Handle :=
  (Buffer.created h.created,
   { h with created := h.created + 1,
            log := h.log ++ [Event.Create bytes (Buffer.created h.created)] })

/-- Lookup in the kernel cache. -/
def Handle.find (h : Handle) (algorithm network_config : String) : Option KernelInvoke :=
  (h.cache.find? (fun e => decide (e.1 = (algorithm, network_config)))).map Prod.snd

/-- Modelled from the spec: `GetOrCreateKernel(name, key, spec...)` (§4.4):
at most one plan per (name, key) pair is kept; a call with a pair already
present returns the cached plan without reconstruction. -/
def Handle.GetKernel (h : Handle) (algorithm network_config program_name kernel_name : String)
    (vld vgd : List Nat) (parms : String) : KernelInvoke × Handle :=
  match h.find algorithm network_config with
  | some k => (k, h)
  | none =>
    let k : KernelInvoke := ⟨program_name, kernel_name, vld, vgd, parms⟩
    (k, { h with cache := h.cache ++ [((algorithm, network_config), k)],
                 log := h.log ++ [Event.Compile algorithm network_config k] })

/-- A command that runs on the device: it is appended to the log and, with
profiling enabled, the timer takes the device time of that command. -/
def Handle.run (env : Env) (h : Handle) (e : Event) : Handle :=
  { h with kernel_time := if h.profiling then env.elapsed h.log.length else h.kernel_time,
           log := h.log ++ [e] }

/-- Invocation of a kernel with scalar and buffer arguments. -/
def Handle.Launch (env : Env) (h : Handle) (k : KernelInvoke) (ints : List Int)
    (bufs : List Data_t) : Handle :=
  h.run env (Event.Launch k ints bufs)

/-- Modelled from the spec: the unfold primitive of §6; it writes the unfolded
matrix to `dst` and returns the elapsed device time. -/
def Im2ColGPU (env : Env) (h : Handle) (src : Data_t) (in_offset : Nat) (dims : List Int)
    (dst : Data_t) : ℚ × Handle :=
  let h1 := h.run env (Event.Im2Col src in_offset dims dst)
  (h1.GetKernelTime, h1)

/-- Modelled from the spec: `FindBestGemmPlan` of §6. -/
def GemmGeometry.FindSolution (h : Handle) (a b c : Data_t) : Handle :=
  { h with log := h.log ++ [Event.FindSolution a b c] }

/-- Modelled from the spec: `RunGemm` of §6. -/
def GemmGeometry.RunGemm (env : Env) (gg : GemmGeometry) (h : Handle) (a b c : Data_t)
    (a_offset b_offset c_offset : Int) : Handle :=
  h.run env (Event.RunGemm gg a b c a_offset b_offset c_offset)

/-! ## Performance records and their ranking -/

/-- `PerfField`: algorithm name, measured time, workspace bytes. -/
structure PerfField where
  name : String
  time : ℚ
  workspace : Nat
deriving DecidableEq

/-- Modelled from the spec: `PerfField::operator<` (convolution.hpp is not part
of the sources): ascending by measured time, ties broken by the lower
workspace requirement (§3). -/
def PerfField.lt (a b : PerfField) : Bool :=
  decide (a.time < b.time) || (decide (a.time = b.time) && decide (a.workspace < b.workspace))

/-- The relation "b is not ranked strictly before a". -/
def PerfField.le (a b : PerfField) : Prop := PerfField.lt b a = false

instance : DecidableRel PerfField.le := fun a b =>
  inferInstanceAs (Decidable (PerfField.lt b a = false))

/-- `std::sort(begin(perf_db), end(perf_db))` with `PerfField::operator<`.  The
ranges sorted in this file hold at most three records (two in the
backward-weights search); on ranges that short the library sorts by straight
insertion, moving a record only past records it is strictly less than, so the
outcome is the ordered arrangement that keeps equivalent records in push
order. -/
def std_sort (perf_db : List PerfField) : List PerfField :=
  perf_db.insertionSort PerfField.le

/-- One entry of the caller's `perfResults` array: the algorithm field (the
three per-direction algorithm members share storage), time and memory. -/
structure mlopenConvAlgoPerf_t where
  algo : Int
  time : ℚ
  memory : Nat
deriving DecidableEq

/-! ## AutoEnableProfiling -/

/-- The guard object `AutoEnableProfiling`: it remembers the previous state of
the profiling toggle. -/
structure AutoEnableProfiling where
  prev_state : Bool
deriving DecidableEq

/-- Constructor of the guard: save the toggle, enable profiling. -/
def AutoEnableProfiling.ctor (h : Handle) : AutoEnableProfiling × Handle :=
  (⟨h.IsProfilingEnabled⟩, h.EnableProfiling true)

/-- Destructor of the guard: restore the toggle, reset the timer. -/
def AutoEnableProfiling.dtor (g : AutoEnableProfiling) (h : Handle) : Handle :=
  (h.EnableProfiling g.prev_state).ResetKernelTime

/-! ## Kernel construction helpers -/

/-- `ConvolutionDescriptor::FindFwdWinogradKernel`: returns 0 with the
compiled-in parameters and the kernel, or -1. -/
def FindFwdWinogradKernel (env : Env) (cd : ConvolutionDescriptor) (handle : Handle)
    (xDesc wDesc yDesc : TensorDescriptor) :
    Int × Option ((Int × Int × Int × Int × Int × Int) × KernelInvoke) × Handle :=
  let construct_params : ConstructParams :=
    { family := ConstructFamily.winograd, direction := 1, stream := true,
      outputDesc := some yDesc, inputDesc := some xDesc, weightDesc := some wDesc,
      convDescr := some cd }
  let c := env.mloConstruct construct_params
  if c.result ≠ -1 then
    let network_config := env.mloBuildConf_Key construct_params
    let r := handle.GetKernel "mlopenConvolutionFwdAlgoWinograd" network_config
      c.kernelFile c.kernelName c.localWkSize c.globalWkSize c.compilerOptions
    (0, some (env.getCompiledInParameters construct_params true, r.1), r.2)
  else
    (-1, none, handle)

/-- `ConvolutionDescriptor::FindDirectKernel`: appends the kernel(s) of the
Direct strategy to `kernels` and returns 0. -/
def FindDirectKernel (env : Env) (cd : ConvolutionDescriptor) (handle : Handle)
    (xDesc wDesc yDesc : TensorDescriptor) (kernels : List KernelInvoke)
    (exhaustiveSearch : Bool) (direction : Int) :
    Except Abort Int × List KernelInvoke × Handle :=
  let construct_params : ConstructParams :=
    { family := ConstructFamily.direct2D, direction := direction,
      doSearch := some exhaustiveSearch, saveSearchRequest := some true,
      generalCompOptions := some "", stream := true,
      outputDesc := some yDesc, inputDesc := some xDesc, weightDesc := some wDesc,
      convDescr := some cd }
  let c := env.mloConstruct construct_params
  let network_config := env.mloBuildConf_Key construct_params
  let algorithm :=
    if direction = 1 then "mlopenConvolutionFwdAlgoDirect"
    else "mlopenConvolutionBwdDataAlgoDirect"
  -- if not 11x11
  if c.kernelFile ≠ "MLOpenConvFwd_LxL_11.cl" then
    let r := handle.GetKernel algorithm network_config
      c.kernelFile c.kernelName c.localWkSize c.globalWkSize c.compilerOptions
    (Except.ok 0, kernels ++ [r.1], r.2)
  else
    match c.kernelsInfo with
    | [] => (Except.error (Abort.undefined "bwd_wrw_info[0]"), kernels, handle)
    | [bwd_wrw] =>
      let r := handle.GetKernel algorithm network_config
        bwd_wrw.kernel_file bwd_wrw.kernel_name bwd_wrw.l_wk bwd_wrw.g_wk bwd_wrw.comp_options
      (Except.ok 0, kernels ++ [r.1], r.2)
    | bwd_wrw_main :: bwd_wrw_red :: _ =>
      let r1 := handle.GetKernel algorithm network_config
        bwd_wrw_main.kernel_file bwd_wrw_main.kernel_name bwd_wrw_main.l_wk bwd_wrw_main.g_wk
        bwd_wrw_main.comp_options
      -- second kernel hash
      let network_config2 := network_config ++ "x1"
      let r2 := r1.2.GetKernel (algorithm ++ "_pass2") network_config2
        bwd_wrw_red.kernel_file bwd_wrw_red.kernel_name bwd_wrw_red.l_wk bwd_wrw_red.g_wk
        bwd_wrw_red.comp_options
      (Except.ok 0, kernels ++ [r1.1] ++ [r2.1], r2.2)

/-- The loop `for(auto &k : kernel_direct)` of the searches: launch every
kernel against (a, b, out) and add up the times read after each launch. -/
def runDirectKernels (env : Env) (a b out : Data_t) :
    List KernelInvoke → ℚ → Handle → ℚ × Handle
  | [], time_direct, handle => (time_direct, handle)
  | k :: ks, time_direct, handle =>
    let h1 := handle.Launch env k [0] [a, b, out]
    runDirectKernels env a b out ks (time_direct + h1.GetKernelTime) h1

/-! ## Results written back to the caller -/

/-- What a search leaves behind: how it ended, the handle, and the caller's two
out-parameters. -/
structure FindResult where
  outcome : Except Abort Unit
  handle : Handle
  returnedAlgoCount : Option Int
  perfResults : Option (List mlopenConvAlgoPerf_t)
deriving DecidableEq

/-- The loop `for(int i = 0; i < *returnedAlgoCount; i++)` that fills
`perfResults[i]` from `perf_db[i]`; `none` when an index leaves either array. -/
def copyPerfResults (resolver : String → Int) (perf_db : List PerfField) :
    Nat → Nat → List mlopenConvAlgoPerf_t → Option (List mlopenConvAlgoPerf_t)
  | 0, _, perfResults => some perfResults
  | n + 1, i, perfResults =>
    match perf_db.get? i with
    | none => none
    | some r =>
      if i < perfResults.length then
        copyPerfResults resolver perf_db n (i + 1)
          (perfResults.set i ⟨resolver r.name, r.time, r.workspace⟩)
      else none

/-! ## FindConvFwdAlgorithm -/

/-- The GEMM candidate of `FindConvFwdAlgorithm` (the block under
`#if MLOPEN_USE_TINYGEMM`): the records pushed and the handle afterwards. -/
def FindConvFwdAlgorithm_gemm (env : Env) (cd : ConvolutionDescriptor) (h0 : Handle)
    (xDesc : TensorDescriptor) (x : Data_t) (wDesc : TensorDescriptor) (w : Data_t)
    (yDesc : TensorDescriptor) (tmp_y workSpace : Data_t) (workSpaceSize : Nat)
    (in_n in_c in_h in_w wei_h wei_w out_h out_w : Int) : List PerfField × Handle :=
  let workspace_req := env.ForwardGetWorkSpaceSize cd wDesc yDesc
  let gg : GemmGeometry :=
    ⟨"mlopenConvolutionFwdAlgoGEMM", env.gemmConfigFwd xDesc wDesc yDesc⟩
  if env.MLOPEN_USE_TINYGEMM then
    -- 1x1 does not require im2col or workspace
    if wei_h = 1 ∧ wei_w = 1 then
      let h1 := GemmGeometry.FindSolution h0 x w tmp_y
      let h2 := gg.RunGemm env h1 x w tmp_y 0 0 0
      let time_gemm := (in_n : ℚ) * h2.GetKernelTime
      ([⟨"mlopenConvolutionFwdAlgoGEMM", time_gemm, 0⟩], h2)
    -- if not 1x1
    else if workSpace ≠ none ∧ workSpaceSize ≥ workspace_req then
      let im := Im2ColGPU env h0 x 0
        [in_c, in_h, in_w, wei_h, wei_w, out_h, out_w, cd.pad_h, cd.pad_w, cd.v, cd.u]
        workSpace
      let time_im2col := im.1
      let h1 := GemmGeometry.FindSolution im.2 workSpace w tmp_y
      let h2 := gg.RunGemm env h1 workSpace w tmp_y 0 0 0
      let time_gemm := (in_n : ℚ) * (time_im2col + h2.GetKernelTime)
      ([⟨"mlopenConvolutionFwdAlgoGEMM", time_gemm, workspace_req⟩], h2)
    else ([], h0)
  else ([], h0)

/-- The Winograd candidate of `FindConvFwdAlgorithm`, continuing from the
records and handle `g` left by the GEMM candidate. -/
def FindConvFwdAlgorithm_winograd (env : Env) (cd : ConvolutionDescriptor)
    (g : List PerfField × Handle)
    (xDesc : TensorDescriptor) (x : Data_t) (wDesc : TensorDescriptor) (w : Data_t)
    (yDesc : TensorDescriptor) (tmp_y : Data_t) : List PerfField × Handle :=
  match FindFwdWinogradKernel env cd g.2 xDesc wDesc yDesc with
  | (0, some ((N, C, H, W, K, n_groups), kernel_wino), h3) =>
    -- Execute the winograd kernel
    let h4 := h3.Launch env kernel_wino [N, C, H, W, K, n_groups, 0, 0] [x, w, tmp_y, none]
    (g.1 ++ [⟨"mlopenConvolutionFwdAlgoWinograd", h4.GetKernelTime, 0⟩], h4)
  | (_, _, h3) => (g.1, h3)

/-- The Direct candidate of `FindConvFwdAlgorithm`, continuing from the records
and handle `wino` left by the Winograd candidate. -/
def FindConvFwdAlgorithm_direct (env : Env) (cd : ConvolutionDescriptor)
    (wino : List PerfField × Handle)
    (xDesc : TensorDescriptor) (x : Data_t) (wDesc : TensorDescriptor) (w : Data_t)
    (yDesc : TensorDescriptor) (tmp_y : Data_t) (exhaustiveSearch : Bool) :
    Except Abort (List PerfField) × Handle :=
  match FindDirectKernel env cd wino.2 xDesc wDesc yDesc [] exhaustiveSearch 1 with
  | (Except.error a, _, h5) => (Except.error a, h5)
  | (Except.ok rc, kernel_direct, h5) =>
    if rc = 0 then
      -- Execute the direct kernel
      let d := runDirectKernels env x w tmp_y kernel_direct 0 h5
      (Except.ok (wino.1 ++ [⟨"mlopenConvolutionFwdAlgoDirect", d.1, 0⟩]), d.2)
    else (Except.ok wino.1, h5)

/-- The candidate phase of `FindConvFwdAlgorithm` (after the guard is set up):
throwaway output, then the GEMM, Winograd and Direct candidates in this order;
returns `perf_db`. -/
def FindConvFwdAlgorithm_candidates (env : Env) (cd : ConvolutionDescriptor) (handle : Handle)
    (xDesc : TensorDescriptor) (x : Data_t) (wDesc : TensorDescriptor) (w : Data_t)
    (yDesc : TensorDescriptor) (workSpace : Data_t) (workSpaceSize : Nat)
    (exhaustiveSearch : Bool) : Except Abort (List PerfField) × Handle :=
  -- create a dummy buffer for use as output for the kernel calls
  let cr := handle.Create
    ((toSizeT yDesc.GetElementSize * sizeof_GetType) % 18446744073709551616)
  let tmp_y : Data_t := some cr.1
  let h0 := cr.2
  match tie4 xDesc.lens, tie4 wDesc.lens, tie4 yDesc.lens with
  | some (in_n, in_c, in_h, in_w), some (_, _, wei_h, wei_w), some (_, _, out_h, out_w) =>
    let g := FindConvFwdAlgorithm_gemm env cd h0 xDesc x wDesc w yDesc tmp_y workSpace
      workSpaceSize in_n in_c in_h in_w wei_h wei_w out_h out_w
    let wino := FindConvFwdAlgorithm_winograd env cd g xDesc x wDesc w yDesc tmp_y
    FindConvFwdAlgorithm_direct env cd wino xDesc x wDesc w yDesc tmp_y exhaustiveSearch
  | _, _, _ => (Except.error (Abort.undefined "tie4"), h0)

/-- The tail shared by the forward and backward-data searches: set
`*returnedAlgoCount`, copy the leading records out. -/
def updatePerfResults (resolver : String → Int) (perf_db : List PerfField)
    (requestAlgoCount : Int) (perfResults : List mlopenConvAlgoPerf_t) :
    Int × Option (List mlopenConvAlgoPerf_t) :=
  let returnedAlgoCount := min requestAlgoCount (perf_db.length : Int)
  (returnedAlgoCount, copyPerfResults resolver perf_db returnedAlgoCount.toNat 0 perfResults)

/-- `ConvolutionDescriptor::FindConvFwdAlgorithm`. -/
def FindConvFwdAlgorithm (env : Env) (cd : ConvolutionDescriptor) (handle : Handle)
    (xDesc : TensorDescriptor) (x : Data_t) (wDesc : TensorDescriptor) (w : Data_t)
    (yDesc : TensorDescriptor) (y : Data_t) (requestAlgoCount : Int)
    (returnedAlgoCount : Option Int) (perfResults : Option (List mlopenConvAlgoPerf_t))
    (workSpace : Data_t) (workSpaceSize : Nat) (exhaustiveSearch : Bool) : FindResult :=
  if x = none ∨ w = none ∨ y = none then
    ⟨Except.error (Abort.thrown ⟨some mlopenStatus_t.mlopenStatusBadParm, "Buffers cannot be NULL"⟩),
      handle, returnedAlgoCount, perfResults⟩
  else if returnedAlgoCount = none then
    ⟨Except.error (Abort.thrown
        ⟨some mlopenStatus_t.mlopenStatusBadParm, "returnedAlgoCount cannot be nullptr"⟩),
      handle, returnedAlgoCount, perfResults⟩
  else
    match perfResults with
    | none =>
      ⟨Except.error (Abort.thrown
          ⟨some mlopenStatus_t.mlopenStatusBadParm, "perfResults cannot be nullptr"⟩),
        handle, returnedAlgoCount, perfResults⟩
    | some results =>
      if requestAlgoCount < 1 then
        ⟨Except.error (Abort.thrown
            ⟨some mlopenStatus_t.mlopenStatusBadParm, "requestAlgoCount cannot be < 1"⟩),
          handle, returnedAlgoCount, perfResults⟩
      else
        let guard := AutoEnableProfiling.ctor handle
        let enableProfiling := guard.1
        match FindConvFwdAlgorithm_candidates env cd guard.2 xDesc x wDesc w yDesc
            workSpace workSpaceSize exhaustiveSearch with
        | (Except.error (Abort.undefined site), h) =>
          ⟨Except.error (Abort.undefined site), h, returnedAlgoCount, perfResults⟩
        | (Except.error a, h) =>
          ⟨Except.error a, enableProfiling.dtor h, returnedAlgoCount, perfResults⟩
        | (Except.ok perf_db, h) =>
          if perf_db.isEmpty then
            ⟨Except.error (Abort.thrown
                ⟨none, "Fwd Convolution cannot be executed due to incorrect params"⟩),
              enableProfiling.dtor h, returnedAlgoCount, perfResults⟩
          else
            -- sort the perf_db
            let sorted := std_sort perf_db
            -- update perfResults
            let u := updatePerfResults env.FwdAlgoResolver sorted requestAlgoCount results
            match u.2 with
            | none =>
              ⟨Except.error (Abort.undefined "perfResults[i]"), h, some u.1, perfResults⟩
            | some written =>
              ⟨Except.ok (), enableProfiling.dtor h, some u.1, some written⟩

/-! ## ConvolutionForward -/

/-- `mlopenConvFwdAlgorithm_t`. -/
inductive mlopenConvFwdAlgorithm_t
  | mlopenConvolutionFwdAlgoGEMM
  | mlopenConvolutionFwdAlgoDirect
  | mlopenConvolutionFwdAlgoFFT
  | mlopenConvolutionFwdAlgoWinograd
deriving DecidableEq, Repr

/-- `MLOPEN_THROW(mlopenStatusBadParm)`. -/
def throwBadParm : Abort := Abort.thrown ⟨some mlopenStatus_t.mlopenStatusBadParm, ""⟩

/-- `i * a * b * c` in `int` arithmetic. -/
def offset4 (i a b c : Int) : Int := imul (imul (imul i a) b) c

/-- One iteration of the per-sample loop of the GEMM branch of
`ConvolutionForward`; the state is (time_0, t1, handle). -/
def ConvolutionForward_gemmStep (env : Env) (cd : ConvolutionDescriptor) (gg : GemmGeometry)
    (x w y workSpace : Data_t) (in_n in_c in_h in_w wei_n wei_h wei_w out_h out_w : Int)
    (st : ℚ × ℚ × Handle) (i : Nat) : ℚ × ℚ × Handle :=
  let time_0 := st.1
  let t1 := st.2.1
  let handle := st.2.2
  let out_offset := offset4 i wei_n out_h out_w
  if wei_h ≠ 1 ∧ wei_w ≠ 1 then
    let in_offset := toSizeT (offset4 i in_c in_h in_w)
    let im := Im2ColGPU env handle x in_offset
      [in_c, in_h, in_w, wei_h, wei_w, out_h, out_w, cd.pad_h, cd.pad_w, cd.v, cd.u] workSpace
    let t1a := if im.2.IsProfilingEnabled then im.2.GetKernelTime else t1
    let h2 := gg.RunGemm env im.2 workSpace w y 0 0 out_offset
    -- Update times for both the kernels
    if h2.IsProfilingEnabled then
      let h3 := if (i : Int) = in_n - 1 then h2.AccumKernelTime (t1a + time_0)
                else h2.AccumKernelTime t1a
      (time_0 + h3.GetKernelTime, t1a, h3)
    else (time_0, t1a, h2)
  else if wei_h = 1 ∧ wei_w = 1 then
    let in_offset := offset4 i in_c in_h in_w
    let h2 := gg.RunGemm env handle x w y in_offset 0 out_offset
    if h2.IsProfilingEnabled then
      let h3 := if (i : Int) = in_n - 1 then h2.AccumKernelTime time_0 else h2
      (time_0 + h3.GetKernelTime, t1, h3)
    else (time_0, t1, h2)
  else (time_0, t1, handle)

/-- `ConvolutionDescriptor::ConvolutionForward`. -/
def ConvolutionForward (env : Env) (cd : ConvolutionDescriptor) (handle : Handle)
    (xDesc : TensorDescriptor) (x : Data_t) (wDesc : TensorDescriptor) (w : Data_t)
    (algo : mlopenConvFwdAlgorithm_t) (yDesc : TensorDescriptor) (y : Data_t)
    (workSpace : Data_t) (workSpaceSize : Nat) : Except Abort Unit × Handle :=
  if x = none ∨ w = none ∨ y = none then (Except.error throwBadParm, handle)
  else if xDesc.GetSize ≠ yDesc.GetSize ∨ xDesc.GetSize ≠ wDesc.GetSize then
    (Except.error throwBadParm, handle)
  else if xDesc.GetType ≠ yDesc.GetType ∨ xDesc.GetType ≠ wDesc.GetType then
    (Except.error throwBadParm, handle)
  else
    match xDesc.GetLength 1, wDesc.GetLength 1 with
    | some x_c, some w_c =>
      if x_c ≠ w_c then (Except.error throwBadParm, handle)
      else if xDesc.GetSize < 3 then (Except.error throwBadParm, handle)
      else
        match algo with
        | mlopenConvFwdAlgorithm_t.mlopenConvolutionFwdAlgoDirect =>
          let construct_params : ConstructParams :=
            { family := ConstructFamily.direct2D, direction := 1,
              outputDesc := some yDesc, inputDesc := some xDesc, weightDesc := some wDesc,
              convDescr := some cd, stream := true }
          let network_config := env.mloBuildConf_Key construct_params
          let algorithm_name := "mlopenConvolutionFwdAlgoDirect"
          match handle.find algorithm_name network_config with
          | none => (Except.error (Abort.missingKernel algorithm_name network_config), handle)
          | some kernel =>
            -- if not 11x11
            if kernel.GetName ≠ "MLOpenCvFwd11x11" then
              (Except.ok (), handle.Launch env kernel [0] [x, w, y])
            else
              let bwd_wrw_info := (env.mloConstruct construct_params).kernelsInfo
              if bwd_wrw_info.length = 1 then
                (Except.ok (), handle.Launch env kernel [0] [x, w, y])
              else
                let network_config2 := network_config ++ "x1"
                match handle.find (algorithm_name ++ "_pass2") network_config2 with
                | none =>
                  (Except.error (Abort.missingKernel (algorithm_name ++ "_pass2")
                    network_config2), handle)
                | some kernel2 =>
                  let h1 := handle.ResetKernelTime
                  let h2 := h1.Launch env kernel [0] [x, w, y]
                  let time0 := h2.GetKernelTime
                  let h3 := h2.Launch env kernel2 [0] [x, w, y]
                  (Except.ok (), h3.AccumKernelTime time0)
        | mlopenConvFwdAlgorithm_t.mlopenConvolutionFwdAlgoWinograd =>
          let construct_params : ConstructParams :=
            { family := ConstructFamily.winograd, direction := 1,
              outputDesc := some yDesc, inputDesc := some xDesc, weightDesc := some wDesc,
              stream := true }
          let network_config := env.mloBuildConf_Key construct_params
          let algorithm_name := "mlopenConvolutionFwdAlgoWinograd"
          match handle.find algorithm_name network_config with
          | none => (Except.error (Abort.missingKernel algorithm_name network_config), handle)
          | some kernel =>
            match env.getCompiledInParameters construct_params false with
            | (N, C, H, W, K, n_groups) =>
              (Except.ok (),
                handle.Launch env kernel [N, C, H, W, K, n_groups, 0, 0] [x, w, y, none])
        | mlopenConvFwdAlgorithm_t.mlopenConvolutionFwdAlgoGEMM =>
          match tie4 xDesc.lens, tie4 wDesc.lens, tie4 yDesc.lens with
          | some (in_n, in_c, in_h, in_w), some (wei_n, _, wei_h, wei_w),
            some (_, _, out_h, out_w) =>
            if (wei_h ≠ 1 ∧ wei_w ≠ 1) ∧
                (workSpace = none ∨ workSpaceSize < env.ForwardGetWorkSpaceSize cd wDesc yDesc) then
              (Except.error (Abort.thrown ⟨none, "Workspace is required"⟩), handle)
            else if env.MLOPEN_USE_TINYGEMM then
              let gg : GemmGeometry :=
                ⟨"mlopenConvolutionFwdAlgoGEMM", env.gemmConfigFwd xDesc wDesc yDesc⟩
              let r := (List.range in_n.toNat).foldl
                (ConvolutionForward_gemmStep env cd gg x w y workSpace
                  in_n in_c in_h in_w wei_n wei_h wei_w out_h out_w) (0, 0, handle)
              (Except.ok (), r.2.2)
            else (Except.error (Abort.thrown ⟨none, "GEMM is not supported"⟩), handle)
          | _, _, _ => (Except.error (Abort.undefined "tie4"), handle)
        | mlopenConvFwdAlgorithm_t.mlopenConvolutionFwdAlgoFFT => (Except.ok (), handle)
    | _, _ => (Except.error (Abort.undefined "GetLengths()[1]"), handle)

/-! ## Backward data -/

/-- The candidate phase of `FindConvBwdDataAlgorithm` (after the guard is set
up): the Direct candidate only. -/
def FindConvBwdDataAlgorithm_candidates (env : Env) (cd : ConvolutionDescriptor)
    (handle : Handle) (tmp_dx : Data_t)
    (dyDesc : TensorDescriptor) (dy : Data_t) (wDesc : TensorDescriptor) (w : Data_t)
    (dxDesc : TensorDescriptor) (exhaustiveSearch : Bool) :
    Except Abort (List PerfField) × Handle :=
  match FindDirectKernel env cd handle dxDesc wDesc dyDesc [] exhaustiveSearch 0 with
  | (Except.error a, _, h) => (Except.error a, h)
  | (Except.ok rc, kernel_direct, h) =>
    if rc = 0 then
      let d := runDirectKernels env dy w tmp_dx kernel_direct 0 h
      (Except.ok [⟨"mlopenConvolutionBwdDataAlgoDirect", d.1, 0⟩], d.2)
    else
      (Except.error (Abort.thrown ⟨some mlopenStatus_t.mlopenStatusUnknownError,
        "Backward Data Algo cannot be executed"⟩), h)

/-- `ConvolutionDescriptor::FindConvBwdDataAlgorithm`. -/
def FindConvBwdDataAlgorithm (env : Env) (cd : ConvolutionDescriptor) (handle : Handle)
    (dyDesc : TensorDescriptor) (dy : Data_t) (wDesc : TensorDescriptor) (w : Data_t)
    (dxDesc : TensorDescriptor) (dx : Data_t) (requestAlgoCount : Int)
    (returnedAlgoCount : Option Int) (perfResults : Option (List mlopenConvAlgoPerf_t))
    (exhaustiveSearch : Bool) : FindResult :=
  if dx = none ∨ w = none ∨ dy = none then
    ⟨Except.error (Abort.thrown ⟨some mlopenStatus_t.mlopenStatusBadParm, "Buffers cannot be NULL"⟩),
      handle, returnedAlgoCount, perfResults⟩
  else if returnedAlgoCount = none then
    ⟨Except.error (Abort.thrown
        ⟨some mlopenStatus_t.mlopenStatusBadParm, "returnedAlgoCount cannot be nullptr"⟩),
      handle, returnedAlgoCount, perfResults⟩
  else
    match perfResults with
    | none =>
      ⟨Except.error (Abort.thrown
          ⟨some mlopenStatus_t.mlopenStatusBadParm, "perfResults cannot be nullptr"⟩),
        handle, returnedAlgoCount, perfResults⟩
    | some results =>
      if requestAlgoCount < 1 then
        ⟨Except.error (Abort.thrown
            ⟨some mlopenStatus_t.mlopenStatusBadParm, "requestAlgoCount cannot be < 1"⟩),
          handle, returnedAlgoCount, perfResults⟩
      else
        -- create a dummy buffer for use as output for the kernel calls
        let cr := handle.Create
          ((toSizeT dxDesc.GetElementSize * sizeof_GetType) % 18446744073709551616)
        let guard := AutoEnableProfiling.ctor cr.2
        let enableProfiling := guard.1
        match FindConvBwdDataAlgorithm_candidates env cd guard.2 (some cr.1)
            dyDesc dy wDesc w dxDesc exhaustiveSearch with
        | (Except.error (Abort.undefined site), h) =>
          ⟨Except.error (Abort.undefined site), h, returnedAlgoCount, perfResults⟩
        | (Except.error a, h) =>
          ⟨Except.error a, enableProfiling.dtor h, returnedAlgoCount, perfResults⟩
        | (Except.ok perf_db, h) =>
          -- sorting not required because we implement only one algorithm
          let u := updatePerfResults env.BwdDataAlgoResolver perf_db requestAlgoCount results
          match u.2 with
          | none =>
            ⟨Except.error (Abort.undefined "perfResults[i]"), h, some u.1, perfResults⟩
          | some written =>
            ⟨Except.ok (), enableProfiling.dtor h, some u.1, some written⟩

/-- `ConvolutionDescriptor::ConvolutionBackwardData`. -/
def ConvolutionBackwardData (env : Env) (handle : Handle)
    (dyDesc : TensorDescriptor) (dy : Data_t) (wDesc : TensorDescriptor) (w : Data_t)
    (dxDesc : TensorDescriptor) (dx : Data_t) : Except Abort Unit × Handle :=
  if dx = none ∨ w = none ∨ dy = none then (Except.error throwBadParm, handle)
  else if dyDesc.GetSize ≠ dxDesc.GetSize ∨ dyDesc.GetSize ≠ wDesc.GetSize then
    (Except.error throwBadParm, handle)
  else if dyDesc.GetType ≠ dxDesc.GetType ∨ dyDesc.GetType ≠ wDesc.GetType then
    (Except.error throwBadParm, handle)
  else
    match dyDesc.GetLength 1, wDesc.GetLength 0 with
    | some dy_c, some w_k =>
      if dy_c ≠ w_k then (Except.error throwBadParm, handle)
      else if dyDesc.GetSize < 3 then (Except.error throwBadParm, handle)
      else
        let construct_params : ConstructParams :=
          { family := ConstructFamily.direct2D, direction := 0,
            outputDesc := some dyDesc, inputDesc := some dxDesc, weightDesc := some wDesc,
            stream := true }
        let network_config := env.mloBuildConf_Key construct_params
        match handle.find "mlopenConvolutionBwdDataAlgoDirect" network_config with
        | none =>
          (Except.error (Abort.missingKernel "mlopenConvolutionBwdDataAlgoDirect"
            network_config), handle)
        | some kernel => (Except.ok (), handle.Launch env kernel [0] [dy, w, dx])
    | _, _ => (Except.error (Abort.undefined "GetLengths()[i]"), handle)

/-! ## Backward weights -/

/-- `mlopenConvBwdWeightsAlgorithm_t`. -/
inductive mlopenConvBwdWeightsAlgorithm_t
  | mlopenConvolutionBwdWeightsAlgoGEMM
  | mlopenConvolutionBwdWeightsAlgoDirect
deriving DecidableEq, Repr

/-- The condition guarding the Direct strategy of the backward-weights paths:
`wei_w >= wei_h && !(in_h * in_w > (8 * 1024) && wei_w == wei_h && wei_w == 1)`. -/
def bwdWeightsDirectGuard (in_h in_w wei_h wei_w : Int) : Bool :=
  decide (wei_w ≥ wei_h) &&
    !(decide (imul in_h in_w > imul 8 1024) && decide (wei_w = wei_h) && decide (wei_w = 1))

/-- The GEMM candidate of `FindConvBwdWeightsAlgorithm` (the block under
`#if MLOPEN_USE_TINYGEMM`): the records pushed and the handle afterwards. -/
def FindConvBwdWeightsAlgorithm_gemm (env : Env) (cd : ConvolutionDescriptor) (handle : Handle)
    (tmp_dw : Data_t) (dyDesc : TensorDescriptor) (dy : Data_t) (xDesc : TensorDescriptor)
    (x : Data_t) (dwDesc : TensorDescriptor) (workSpace : Data_t) (workSpaceSize : Nat)
    (in_n in_c in_h in_w wei_h wei_w out_h out_w : Int) : List PerfField × Handle :=
  let gg : GemmGeometry :=
    ⟨"mlopenConvolutionBwdWeightsAlgoGEMM", env.gemmConfigBwdWeights dyDesc xDesc dwDesc⟩
  let workspace_req := env.BackwardWeightsGetWorkSpaceSizeGEMM cd dyDesc dwDesc
  if env.MLOPEN_USE_TINYGEMM then
    -- 1x1 does not require im2col or workspace
    if wei_h = 1 ∧ wei_w = 1 then
      let h1 := GemmGeometry.FindSolution handle x dy tmp_dw
      let h2 := gg.RunGemm env h1 x dy tmp_dw 0 0 0
      let time_gemm := (in_n : ℚ) * h2.GetKernelTime
      ([⟨"mlopenConvolutionBwdWeightsAlgoGEMM", time_gemm, 0⟩], h2)
    -- if not 1x1
    else if workSpace ≠ none ∧ workSpaceSize ≥ workspace_req then
      let im := Im2ColGPU env handle x 0
        [in_c, in_h, in_w, wei_h, wei_w, out_h, out_w, cd.pad_h, cd.pad_w, cd.v, cd.u]
        workSpace
      let time_im2col := im.1
      let h1 := GemmGeometry.FindSolution im.2 workSpace dy tmp_dw
      let h2 := gg.RunGemm env h1 workSpace dy tmp_dw 0 0 0
      let time_gemm := (in_n : ℚ) * (time_im2col + h2.GetKernelTime)
      ([⟨"mlopenConvolutionBwdWeightsAlgoGEMM", time_gemm, workspace_req⟩], h2)
    else ([], handle)
  else ([], handle)

/-- The Direct candidate of `FindConvBwdWeightsAlgorithm`, continuing from the
records and handle `g` left by the GEMM candidate.  The kernels are constructed
through `GetKernel`; their invocations are commented out in the source, so no
launch is issued and the time read is whatever the timer holds. -/
def FindConvBwdWeightsAlgorithm_direct (env : Env) (cd : ConvolutionDescriptor)
    (g : List PerfField × Handle) (dyDesc xDesc dwDesc : TensorDescriptor)
    (workSpace : Data_t) (workSpaceSize : Nat) (in_h in_w wei_h wei_w : Int) :
    Except Abort (List PerfField) × Handle :=
  if bwdWeightsDirectGuard in_h in_w wei_h wei_w then
    let construct_params : ConstructParams :=
      { family := ConstructFamily.BwdWrW2D, direction := 0, doSearch := some false,
        stream := true, outputDesc := some dyDesc, inputDesc := some xDesc,
        weightDesc := some dwDesc, convDescr := some cd }
    let c := env.mloConstruct construct_params
    let network_config := env.mloBuildConf_Key construct_params
    let bwd_wrw_info := c.kernelsInfo
    if bwd_wrw_info.length = 1 then
      match bwd_wrw_info with
      | bwd_wrw :: _ =>
        let r := g.2.GetKernel "mlopenConvolutionBwdWeightsAlgoDirect_Main" network_config
          bwd_wrw.kernel_file bwd_wrw.kernel_name bwd_wrw.l_wk bwd_wrw.g_wk bwd_wrw.comp_options
        let time_direct := r.2.GetKernelTime
        (Except.ok (g.1 ++ [⟨"mlopenConvolutionBwdWeightsAlgoDirect", time_direct, 0⟩]), r.2)
      | [] => (Except.error (Abort.undefined "bwd_wrw_info[0]"), g.2)
    else
      let workspace_req := env.BackwardWeightsGetWorkSpaceSizeDirect cd dyDesc xDesc dwDesc
      if workSpace ≠ none ∧ workSpaceSize ≥ workspace_req then
        match bwd_wrw_info with
        | bwd_wrw_main :: bwd_wrw_red :: _ =>
          let r1 := g.2.GetKernel "mlopenConvolutionBwdWeightsAlgoDirect_Main" network_config
            bwd_wrw_main.kernel_file bwd_wrw_main.kernel_name bwd_wrw_main.l_wk
            bwd_wrw_main.g_wk bwd_wrw_main.comp_options
          let time_direct1 := 0 + r1.2.GetKernelTime
          -- second kernel hash
          let network_config2 := network_config ++ "x1"
          -- reduction kernel
          let r2 := r1.2.GetKernel "mlopenConvolutionBwdWeightsAlgoDirect_Red" network_config2
            bwd_wrw_red.kernel_file bwd_wrw_red.kernel_name bwd_wrw_red.l_wk
            bwd_wrw_red.g_wk bwd_wrw_red.comp_options
          let time_direct := time_direct1 + r2.2.GetKernelTime
          (Except.ok (g.1 ++
            [⟨"mlopenConvolutionBwdWeightsAlgoDirect", time_direct, workspace_req⟩]), r2.2)
        | _ => (Except.error (Abort.undefined "bwd_wrw_info[i]"), g.2)
      else (Except.ok g.1, g.2)
  else (Except.ok g.1, g.2)

/-- The candidate phase of `FindConvBwdWeightsAlgorithm` (after the guard is
set up): the GEMM and Direct candidates in this order; returns `perf_db`. -/
def FindConvBwdWeightsAlgorithm_candidates (env : Env) (cd : ConvolutionDescriptor)
    (handle : Handle) (tmp_dw : Data_t)
    (dyDesc : TensorDescriptor) (dy : Data_t) (xDesc : TensorDescriptor) (x : Data_t)
    (dwDesc : TensorDescriptor) (workSpace : Data_t) (workSpaceSize : Nat) :
    Except Abort (List PerfField) × Handle :=
  match tie4 xDesc.lens, tie4 dwDesc.lens, tie4 dyDesc.lens with
  | some (in_n, in_c, in_h, in_w), some (_, _, wei_h, wei_w), some (_, _, out_h, out_w) =>
    let g := FindConvBwdWeightsAlgorithm_gemm env cd handle tmp_dw dyDesc dy xDesc x dwDesc
      workSpace workSpaceSize in_n in_c in_h in_w wei_h wei_w out_h out_w
    FindConvBwdWeightsAlgorithm_direct env cd g dyDesc xDesc dwDesc workSpace workSpaceSize
      in_h in_w wei_h wei_w
  | _, _, _ => (Except.error (Abort.undefined "tie4"), handle)

/-- `ConvolutionDescriptor::FindConvBwdWeightsAlgorithm`. -/
def FindConvBwdWeightsAlgorithm (env : Env) (cd : ConvolutionDescriptor) (handle : Handle)
    (dyDesc : TensorDescriptor) (dy : Data_t) (xDesc : TensorDescriptor) (x : Data_t)
    (dwDesc : TensorDescriptor) (dw : Data_t) (requestAlgoCount : Int)
    (returnedAlgoCount : Option Int) (perfResults : Option (List mlopenConvAlgoPerf_t))
    (workSpace : Data_t) (workSpaceSize : Nat) : FindResult :=
  if x = none ∨ dw = none ∨ dy = none then
    ⟨Except.error (Abort.thrown ⟨some mlopenStatus_t.mlopenStatusBadParm, "Buffers cannot be NULL"⟩),
      handle, returnedAlgoCount, perfResults⟩
  else if returnedAlgoCount = none then
    ⟨Except.error (Abort.thrown
        ⟨some mlopenStatus_t.mlopenStatusBadParm, "returnedAlgoCount cannot be nullptr"⟩),
      handle, returnedAlgoCount, perfResults⟩
  else
    match perfResults with
    | none =>
      ⟨Except.error (Abort.thrown
          ⟨some mlopenStatus_t.mlopenStatusBadParm, "perfResults cannot be nullptr"⟩),
        handle, returnedAlgoCount, perfResults⟩
    | some results =>
      if requestAlgoCount < 1 then
        ⟨Except.error (Abort.thrown
            ⟨some mlopenStatus_t.mlopenStatusBadParm, "requestAlgoCount cannot be < 1"⟩),
          handle, returnedAlgoCount, perfResults⟩
      else
        -- create a dummy buffer for use as output for the kernel calls
        let cr := handle.Create
          ((toSizeT dwDesc.GetElementSize * sizeof_GetType) % 18446744073709551616)
        let guard := AutoEnableProfiling.ctor cr.2
        let enableProfiling := guard.1
        match FindConvBwdWeightsAlgorithm_candidates env cd guard.2 (some cr.1)
            dyDesc dy xDesc x dwDesc workSpace workSpaceSize with
        | (Except.error (Abort.undefined site), h) =>
          ⟨Except.error (Abort.undefined site), h, returnedAlgoCount, perfResults⟩
        | (Except.error a, h) =>
          ⟨Except.error a, enableProfiling.dtor h, returnedAlgoCount, perfResults⟩
        | (Except.ok perf_db, h) =>
          if perf_db.isEmpty then
            ⟨Except.error (Abort.thrown
                ⟨none, "Bwd Weights Convolution cannot be executed due to incorrect params"⟩),
              enableProfiling.dtor h, returnedAlgoCount, perfResults⟩
          else
            -- sort the perf_db (the copy-out loop is commented out in the source)
            let sorted := std_sort perf_db
            let count := min requestAlgoCount (sorted.length : Int)
            let algo0 :=
              if env.MLOPEN_USE_TINYGEMM then env.mlopenConvolutionBwdWeightsAlgoGEMM
              else env.mlopenConvolutionBwdWeightsAlgoDirect
            match results with
            | [] => ⟨Except.error (Abort.undefined "perfResults[0]"), h, some count, perfResults⟩
            | r0 :: rest =>
              ⟨Except.ok (), enableProfiling.dtor h, some count,
                some ({ r0 with algo := algo0 } :: rest)⟩

/-- One iteration of the per-sample loop of the GEMM branch of
`ConvolutionBackwardWeights`; the state is (time_0, t1, handle). -/
def ConvolutionBackwardWeights_gemmStep (env : Env) (cd : ConvolutionDescriptor)
    (gg : GemmGeometry) (dy x dw workSpace : Data_t)
    (in_n in_c in_h in_w wei_n wei_h wei_w out_h out_w : Int)
    (st : ℚ × ℚ × Handle) (i : Nat) : ℚ × ℚ × Handle :=
  let time_0 := st.1
  let t1 := st.2.1
  let handle := st.2.2
  let out_offset := offset4 i wei_n out_h out_w
  if wei_h ≠ 1 ∧ wei_w ≠ 1 then
    let in_offset := toSizeT (offset4 i in_c in_h in_w)
    let im := Im2ColGPU env handle x in_offset
      [in_c, in_h, in_w, wei_h, wei_w, out_h, out_w, cd.pad_h, cd.pad_w, cd.v, cd.u] workSpace
    let t1a := if im.2.IsProfilingEnabled then im.2.GetKernelTime else t1
    let h2 := gg.RunGemm env im.2 workSpace dy dw 0 out_offset 0
    -- Update times for both the kernels
    if h2.IsProfilingEnabled then
      let h3 := if (i : Int) = in_n - 1 then h2.AccumKernelTime (t1a + time_0)
                else h2.AccumKernelTime t1a
      (time_0 + h3.GetKernelTime, t1a, h3)
    else (time_0, t1a, h2)
  else if wei_h = 1 ∧ wei_w = 1 then
    let in_offset := offset4 i in_c in_h in_w
    let h2 := gg.RunGemm env handle x dy dw in_offset out_offset 0
    if h2.IsProfilingEnabled then
      let h3 := if (i : Int) = in_n - 1 then h2.AccumKernelTime time_0 else h2
      (time_0 + h3.GetKernelTime, t1, h3)
    else (time_0, t1, h2)
  else (time_0, t1, handle)

/-- `ConvolutionDescriptor::ConvolutionBackwardWeights`. -/
def ConvolutionBackwardWeights (env : Env) (cd : ConvolutionDescriptor) (handle : Handle)
    (dyDesc : TensorDescriptor) (dy : Data_t) (xDesc : TensorDescriptor) (x : Data_t)
    (algo : mlopenConvBwdWeightsAlgorithm_t) (dwDesc : TensorDescriptor) (dw : Data_t)
    (workSpace : Data_t) (workSpaceSize : Nat) : Except Abort Unit × Handle :=
  if x = none ∨ dw = none ∨ dy = none then (Except.error throwBadParm, handle)
  else if dyDesc.GetSize ≠ dwDesc.GetSize ∨ dyDesc.GetSize ≠ xDesc.GetSize then
    (Except.error throwBadParm, handle)
  else if dyDesc.GetType ≠ dwDesc.GetType ∨ dyDesc.GetType ≠ xDesc.GetType then
    (Except.error throwBadParm, handle)
  else
    match dyDesc.GetLength 0, xDesc.GetLength 0 with
    | some dy_n, some x_n =>
      if dy_n ≠ x_n then (Except.error throwBadParm, handle)
      else if dyDesc.GetSize < 3 then (Except.error throwBadParm, handle)
      else
        match tie4 xDesc.lens, tie4 dwDesc.lens, tie4 dyDesc.lens with
        | some (in_n, in_c, in_h, in_w), some (wei_n, _, wei_h, wei_w),
          some (_, _, out_h, out_w) =>
          match algo with
          | mlopenConvBwdWeightsAlgorithm_t.mlopenConvolutionBwdWeightsAlgoGEMM =>
            if (wei_h ≠ 1 ∧ wei_w ≠ 1) ∧
                (workSpace = none ∨
                  workSpaceSize < env.BackwardWeightsGetWorkSpaceSizeGEMM cd dyDesc dwDesc) then
              (Except.error (Abort.thrown ⟨none, "Workspace is required"⟩), handle)
            else if env.MLOPEN_USE_TINYGEMM then
              let gg : GemmGeometry :=
                ⟨"mlopenConvolutionBwdWeightsAlgoGEMM",
                  env.gemmConfigBwdWeights dyDesc xDesc dwDesc⟩
              let h0 := handle.ResetKernelTime
              let r := (List.range in_n.toNat).foldl
                (ConvolutionBackwardWeights_gemmStep env cd gg dy x dw workSpace
                  in_n in_c in_h in_w wei_n wei_h wei_w out_h out_w) (0, 0, h0)
              (Except.ok (), r.2.2)
            else (Except.error (Abort.thrown ⟨none, "GEMM is not supported"⟩), handle)
          | mlopenConvBwdWeightsAlgorithm_t.mlopenConvolutionBwdWeightsAlgoDirect =>
            if bwdWeightsDirectGuard in_h in_w wei_h wei_w then
              let construct_params : ConstructParams :=
                { family := ConstructFamily.BwdWrW2D, direction := 0,
                  outputDesc := some dyDesc, inputDesc := some xDesc,
                  weightDesc := some dwDesc }
              let c := env.mloConstruct construct_params
              let network_config := env.mloBuildConf_Key construct_params
              let bwd_wrw_info := c.kernelsInfo
              let h0 := handle.ResetKernelTime
              -- main kernel
              if bwd_wrw_info.length = 1 then
                match h0.find "mlopenConvolutionBwdWeightsAlgoDirect_Main" network_config with
                | none =>
                  (Except.error (Abort.missingKernel
                    "mlopenConvolutionBwdWeightsAlgoDirect_Main" network_config), h0)
                | some kernel => (Except.ok (), h0.Launch env kernel [0] [dy, x, dw])
              else if workSpace = none ∨
                  workSpaceSize < env.BackwardWeightsGetWorkSpaceSizeDirect cd dyDesc xDesc dwDesc
              then (Except.error (Abort.thrown ⟨none, "Workspace is requried"⟩), h0)
              else
                match h0.find "mlopenConvolutionBwdWeightsAlgoDirect_Main" network_config with
                | none =>
                  (Except.error (Abort.missingKernel
                    "mlopenConvolutionBwdWeightsAlgoDirect_Main" network_config), h0)
                | some kernel =>
                  let h1 := h0.Launch env kernel [0] [dy, x, workSpace]
                  let time0 := h1.GetKernelTime
                  -- second kernel hash
                  let network_config2 := network_config ++ "x1"
                  -- reduction kernel
                  match h1.find "mlopenConvolutionBwdWeightsAlgoDirect_Red" network_config2 with
                  | none =>
                    (Except.error (Abort.missingKernel
                      "mlopenConvolutionBwdWeightsAlgoDirect_Red" network_config2), h1)
                  | some kernel2 =>
                    let h2 := h1.Launch env kernel2 [] [workSpace, dw]
                    (Except.ok (), h2.AccumKernelTime time0)
            else (Except.ok (), handle)
        | _, _, _ => (Except.error (Abort.undefined "tie4"), handle)
    | _, _ => (Except.error (Abort.undefined "GetLengths()[0]"), handle)

/-! ## ConvolutionBackwardBias -/

/-- Strings appended to the compiler flags: `" -DNAME=" + std::to_string(v)`. -/
def flag (name : String) (v : String) : String := " -D" ++ name ++ "=" ++ v

/-- `ConvolutionBackwardBias`. -/
def ConvolutionBackwardBias (env : Env) (handle : Handle)
    (dyDesc : TensorDescriptor) (dy : Data_t) (dbDesc : TensorDescriptor) (db : Data_t) :
    Except Abort Unit × Handle :=
  if dy = none ∨ db = none then (Except.error throwBadParm, handle)
  else
    match dyDesc.GetLength 1, dbDesc.GetLength 1 with
    | some dy_c, some db_c =>
      if dy_c ≠ db_c then (Except.error throwBadParm, handle)
      else
        match tie4 dyDesc.lens, tie4 dyDesc.strides with
        | some (out_n, out_c, out_h, out_w), some (stride_n, stride_c, _, _) =>
          let program_name := "MLOpenConvBwdBias.cl"
          let kernel_name := "MLOpenConvBwdB"
          let lcl_grp_size0 : Nat := 256
          let lcl_grp_size1 : Nat := 1
          let local_mem_sz : Nat := 256
          let map_size : Nat := toSizeT (imul out_w out_h)
          let read_unit : Nat := 4
          let map_size_aligned : Nat :=
            ((map_size + (read_unit - 1)) % 18446744073709551616) / read_unit
          let off_pix : Nat := map_size - (map_size / read_unit) * read_unit
          let params :=
            flag "MLO_CONVBWD_GROUP_SZ0" (toString lcl_grp_size0) ++
            flag "MLO_CONVBWD_GROUP_SZ1" (toString lcl_grp_size1) ++
            flag "MLO_CONVBWDB_LCL_MEMSZ" (toString local_mem_sz) ++
            flag "MLO_CONVBWDB_UNITSIZE" (toString read_unit) ++
            flag "MLO_OUT_WIDTH" (toString out_w) ++
            flag "MLO_OUT_HEIGHT" (toString out_h) ++
            flag "MLO_OUT_BATCH_SZ" (toString out_n) ++
            flag "MLO_OUT_CHANNEL_STRIDE" (toString stride_c) ++
            flag "MLO_OUT_BATCH_STRIDE" (toString stride_n) ++
            flag "MLO_WK_SIZE" (toString map_size_aligned) ++
            flag "MLO_N_PIX_OFF" (toString off_pix)
          let vld : List Nat := [lcl_grp_size0, 1, 1]
          let vgd : List Nat := [lcl_grp_size0, toSizeT out_c, 1]
          let r := handle.GetKernel "mlopenConvolutionBwdBias" "" program_name kernel_name
            vld vgd params
          (Except.ok (), r.2.Launch env r.1 [] [dy, db])
        | _, _ => (Except.error (Abort.undefined "tie4"), handle)
    | _, _ => (Except.error (Abort.undefined "GetLengths()[1]"), handle)

/-! ## Reading the results -/

/-- The entry written for a record. -/
def toPerf (resolver : String → Int) (r : PerfField) : mlopenConvAlgoPerf_t :=
  ⟨resolver r.name, r.time, r.workspace⟩

/-- The contract of the copy-out: `out` begins with the entries of the `n`
leading records of an arrangement `S` of the accumulated records `R` that is
ordered by measured time, the rest of the caller's array is as it was, and no
record left out is faster than a record returned. -/
def RankedPrefix (resolver : String → Int) (R : List PerfField) (n : Nat)
    (results out : List mlopenConvAlgoPerf_t) : Prop :=
  ∃ S : List PerfField, S.Perm R ∧ S.Pairwise (fun a b => a.time ≤ b.time) ∧
    out.take n = (S.take n).map (toPerf resolver) ∧ out.drop n = results.drop n ∧
    (out.take n).Pairwise (fun p q => p.time ≤ q.time) ∧
    ∀ a ∈ S.take n, ∀ b ∈ S.drop n, a.time ≤ b.time

/-! ## Sample inputs -/

/-- A kernel description with the given name. -/
def sampleKernelInfo (n : String) : mlo_kernel_info := ⟨n, n ++ ".cl", "", [64, 1, 1], [64, 1, 1]⟩

/-- A build with the matrix-multiply primitive, a Winograd constructor that
declines, single-kernel Direct strategies, and the n-th command taking n + 1
time units. -/
def sampleEnv : Env :=
  { MLOPEN_USE_TINYGEMM := true
    mloConstruct := fun p =>
      ⟨if p.family = ConstructFamily.winograd then -1 else 0, "MLOpenConvDirUni.cl",
        "MLOpenConvUni", "", [64, 1, 1], [64, 1, 1], [sampleKernelInfo "main"]⟩
    mloBuildConf_Key := fun _ => "key"
    getCompiledInParameters := fun _ _ => (0, 0, 0, 0, 0, 0)
    elapsed := fun n => (n : ℚ) + 1
    ForwardGetWorkSpaceSize := fun _ _ _ => 100
    BackwardWeightsGetWorkSpaceSizeGEMM := fun _ _ _ => 100
    BackwardWeightsGetWorkSpaceSizeDirect := fun _ _ _ _ => 100
    gemmConfigFwd := fun _ _ _ => "g"
    gemmConfigBwdWeights := fun _ _ _ => "g"
    FwdAlgoResolver := fun s =>
      if s = "mlopenConvolutionFwdAlgoGEMM" then 0
      else if s = "mlopenConvolutionFwdAlgoDirect" then 1 else 3
    BwdDataAlgoResolver := fun _ => 0
    BwdWeightsAlgoResolver := fun s =>
      if s = "mlopenConvolutionBwdWeightsAlgoGEMM" then 0 else 1
    mlopenConvolutionBwdWeightsAlgoGEMM := 0
    mlopenConvolutionBwdWeightsAlgoDirect := 1 }

/-- A fresh handle: profiling off, timer at 7, nothing cached or issued. -/
def sampleHandle : Handle := ⟨false, 7, [], 0, []⟩

/-- Padding 1, stride 1, no upscaling. -/
def sampleConv : ConvolutionDescriptor := ⟨1, 1, 1, 1, 1, 1⟩

/-- Input NCHW = (1,3,32,32). -/
def sampleX : TensorDescriptor := ⟨[1, 3, 32, 32], [3072, 1024, 32, 1], 1⟩

/-- Filter (8,3,3,3). -/
def sampleW : TensorDescriptor := ⟨[8, 3, 3, 3], [27, 9, 3, 1], 1⟩

/-- Output (1,8,32,32). -/
def sampleY : TensorDescriptor := ⟨[1, 8, 32, 32], [8192, 1024, 32, 1], 1⟩

/-- The caller's n-th device buffer. -/
def buf (n : Nat) : Data_t := some (Buffer.caller n)

/-- A caller's array of two entries with recognisable contents. -/
def sampleResults : List mlopenConvAlgoPerf_t := [⟨9, 9, 9⟩, ⟨9, 9, 9⟩]

/-- A filter (8,3,3,1): taller than wide. -/
def sampleTallW : TensorDescriptor := ⟨[8, 3, 3, 1], [9, 3, 1, 1], 1⟩

/-- A tensor of rank 1. -/
def sampleRank1 : TensorDescriptor := ⟨[5], [1], 1⟩

/-- A filter gradient (16,3,3,3): 16 output channels. -/
def sampleDw16 : TensorDescriptor := ⟨[16, 3, 3, 3], [27, 9, 3, 1], 1⟩

/-- A filter (8,3,1,3): one row, three columns. -/
def sampleWideW : TensorDescriptor := ⟨[8, 3, 1, 3], [9, 3, 3, 1], 1⟩

/-- Input (2,3,4,4). -/
def sample1x1X : TensorDescriptor := ⟨[2, 3, 4, 4], [48, 16, 4, 1], 1⟩

/-- A 1x1 filter (8,3,1,1). -/
def sample1x1W : TensorDescriptor := ⟨[8, 3, 1, 1], [3, 1, 1, 1], 1⟩

/-- Output (2,8,4,4). -/
def sample1x1Y : TensorDescriptor := ⟨[2, 8, 4, 4], [128, 16, 4, 1], 1⟩

/-- The sample build, with a backward-weights Direct constructor that reports
two kernels (main and reduction). -/
def sampleEnvTwoStage : Env :=
  { sampleEnv with
    mloConstruct := fun _ =>
      ⟨0, "MLOpenConvBwdWrW.cl", "MLOpenCvBwdWrW", "", [64, 1, 1], [64, 1, 1],
        [sampleKernelInfo "main", sampleKernelInfo "red"]⟩ }

/-- The settings `ConvolutionBackwardWeights` gives the Direct constructor. -/
def bwdWeightsExecParams (dyDesc xDesc dwDesc : TensorDescriptor) : ConstructParams :=
  { family := ConstructFamily.BwdWrW2D, direction := 0,
    outputDesc := some dyDesc, inputDesc := some xDesc, weightDesc := some dwDesc }

/-- A tensor of rank 0. -/
def sampleRank0 : TensorDescriptor := ⟨[], [], 1⟩

/-- Output gradient (1,8,32,16): half as wide as `sampleY`. -/
def sampleY16 : TensorDescriptor := ⟨[1, 8, 32, 16], [4096, 512, 16, 1], 1⟩

/-- Bias gradient (1,8,1,1). -/
def sampleBias : TensorDescriptor := ⟨[1, 8, 1, 1], [8, 1, 1, 1], 1⟩

/-- The compiler flags `ConvolutionBackwardBias` builds (lines 927-937), for
given values of the output shape, strides, work size and pixel offset. -/
def bwdBiasParams (out_n out_h out_w stride_n stride_c : Int) (wk_size n_pix_off : Nat) :
    String :=
  flag "MLO_CONVBWD_GROUP_SZ0" (toString (256 : Nat)) ++
  flag "MLO_CONVBWD_GROUP_SZ1" (toString (1 : Nat)) ++
  flag "MLO_CONVBWDB_LCL_MEMSZ" (toString (256 : Nat)) ++
  flag "MLO_CONVBWDB_UNITSIZE" (toString (4 : Nat)) ++
  flag "MLO_OUT_WIDTH" (toString out_w) ++
  flag "MLO_OUT_HEIGHT" (toString out_h) ++
  flag "MLO_OUT_BATCH_SZ" (toString out_n) ++
  flag "MLO_OUT_CHANNEL_STRIDE" (toString stride_c) ++
  flag "MLO_OUT_BATCH_STRIDE" (toString stride_n) ++
  flag "MLO_WK_SIZE" (toString wk_size) ++
  flag "MLO_N_PIX_OFF" (toString n_pix_off)

/-- The launch descriptor `ConvolutionBackwardBias` builds (lines 914-940). -/
def bwdBiasPlan (out_n out_c out_h out_w stride_n stride_c : Int) (wk_size n_pix_off : Nat) :
    KernelInvoke :=
  ⟨"MLOpenConvBwdBias.cl", "MLOpenConvBwdB", [256, 1, 1], [256, out_c.toNat, 1],
    bwdBiasParams out_n out_h out_w stride_n stride_c wk_size n_pix_off⟩

/-- Output gradient (1,8,5,3): a 5x3 map. -/
def sampleY5x3 : TensorDescriptor := ⟨[1, 8, 5, 3], [120, 15, 3, 1], 1⟩

/-- The plan `ConvolutionBackwardBias` requests for `sampleY5x3`. -/
def samplePlan5x3 : KernelInvoke :=
  ⟨"MLOpenConvBwdBias.cl", "MLOpenConvBwdB", [256, 1, 1], [256, 8, 1],
    " -DMLO_CONVBWD_GROUP_SZ0=256 -DMLO_CONVBWD_GROUP_SZ1=1 -DMLO_CONVBWDB_LCL_MEMSZ=256" ++
    " -DMLO_CONVBWDB_UNITSIZE=4 -DMLO_OUT_WIDTH=3 -DMLO_OUT_HEIGHT=5 -DMLO_OUT_BATCH_SZ=1" ++
    " -DMLO_OUT_CHANNEL_STRIDE=15 -DMLO_OUT_BATCH_STRIDE=120 -DMLO_WK_SIZE=4" ++
    " -DMLO_N_PIX_OFF=3"⟩

/-- Output gradient (1,4,5,3): four channels. -/
def sampleY4ch : TensorDescriptor := ⟨[1, 4, 5, 3], [60, 15, 3, 1], 1⟩

/-- Bias gradient (1,4,1,1). -/
def sampleBias4 : TensorDescriptor := ⟨[1, 4, 1, 1], [4, 1, 1, 1], 1⟩

/-- The sample build with a fingerprint that tells the direction and whether
padding and stride are the constructor's initial values (taken here as padding
0, stride 1) or were set to something else. -/
def sampleEnvKeyed : Env :=
  { sampleEnv with
    mloBuildConf_Key := fun p =>
      match p.convDescr with
      | some cd =>
        if cd.pad_h = 0 ∧ cd.pad_w = 0 ∧ cd.u = 1 ∧ cd.v = 1 then
          (if p.direction = 1 then "fwd-pad0-stride1" else "bwd-pad0-stride1")
        else (if p.direction = 1 then "fwd-custom" else "bwd-custom")
      | none => if p.direction = 1 then "fwd-pad0-stride1" else "bwd-pad0-stride1" }

/-- Padding 2, stride 2. -/
def sampleConvStride2 : ConvolutionDescriptor := ⟨2, 2, 2, 2, 1, 1⟩

/-- The sample handle with profiling switched on. -/
def sampleHandleProfiling : Handle := ⟨true, 7, [], 0, []⟩

/-- The settings `FindDirectKernel` gives the Direct constructor (lines 82-94). -/
def directFindParams (cd : ConvolutionDescriptor) (xDesc wDesc yDesc : TensorDescriptor)
    (exhaustiveSearch : Bool) (direction : Int) : ConstructParams :=
  { family := ConstructFamily.direct2D, direction := direction,
    doSearch := some exhaustiveSearch, saveSearchRequest := some true,
    generalCompOptions := some "", stream := true,
    outputDesc := some yDesc, inputDesc := some xDesc, weightDesc := some wDesc,
    convDescr := some cd }

/-- Buffers handed to a device command. -/
def Event.bufs : Event → List Data_t
  | Event.Launch _ _ bufs => bufs
  | Event.Im2Col src _ _ dst => [src, dst]
  | Event.FindSolution a b c => [a, b, c]
  | Event.RunGemm _ a b c _ _ _ => [a, b, c]
  | Event.Create _ _ => []
  | Event.Compile _ _ _ => []

/-- The buffer a device command issued by a search writes to: the kernels the
searches launch take (input, input, output, ...); the unfold writes its
destination; the matrix multiply writes its third operand. -/
def Event.target : Event → Option Data_t
  | Event.Launch _ _ bufs => bufs.get? 2
  | Event.Im2Col _ _ _ dst => some dst
  | Event.FindSolution _ _ c => some c
  | Event.RunGemm _ _ _ c _ _ _ => some c
  | Event.Create _ _ => none
  | Event.Compile _ _ _ => none

/-- Whether a command is an unfold. -/
def Event.isIm2Col : Event → Bool
  | Event.Im2Col _ _ _ _ => true
  | _ => false

/-- A command a search may issue while benchmarking with inputs `a`, `b`, the
throwaway output `tmp` and the caller's workspace `ws`: it is handed no buffer
other than these (or a null pointer), and it writes to `tmp`, or it is the
unfold and writes to `ws`, or it writes nothing. -/
def BenchCommand (a b tmp ws : Data_t) (e : Event) : Prop :=
  (∀ d ∈ e.bufs, d = a ∨ d = b ∨ d = tmp ∨ d = ws ∨ d = none) ∧
  (e.target = none ∨ e.target = some tmp ∨ (e.isIm2Col = true ∧ e.target = some ws))

/-- Handle `h1` is `h` after more commands, all satisfying `P`, with the
profiling toggle untouched. -/
def Issued (P : Event → Prop) (h h1 : Handle) : Prop :=
  h1.profiling = h.profiling ∧ ∃ evs : List Event, h1.log = h.log ++ evs ∧ ∀ e ∈ evs, P e

/-- What a search leaves of the profiling guard, provided it did not run into
an undefined read: the toggle is as before the call; when the call got past
parameter validation (`valid`), the timer has been reset; when it did not, the
handle is untouched. -/
def GuardRestored (handle : Handle) (valid : Prop) (res : FindResult) : Prop :=
  (∀ site, res.outcome ≠ Except.error (Abort.undefined site)) →
    res.handle.profiling = handle.profiling ∧
    (valid → res.handle.kernel_time = 0) ∧
    (¬ valid → res.handle = handle)

/-- What benchmarking leaves in the command log of a search called on `handle`
with the caller's output buffer `out` and workspace `ws`: first the creation of
the throwaway buffer of `bytes` bytes, then commands none of which is handed
`out`, and each of which writes to the throwaway buffer, or is the unfold and
writes to `ws`, or writes nothing. -/
def SearchLog (handle : Handle) (res : FindResult) (out ws : Data_t) (bytes : Nat) : Prop :=
  ∃ evs : List Event,
    res.handle.log = handle.log ++ Event.Create bytes (Buffer.created handle.created) :: evs ∧
    ∀ e ∈ evs, out ∉ e.bufs ∧
      (e.target = none ∨ e.target = some (some (Buffer.created handle.created)) ∨
        (e.isIm2Col = true ∧ e.target = some ws))

/-- The commands one iteration of the GEMM loop of `ConvolutionForward` issues
for sample `i` when the filter is 1x1 (one matrix multiply on `x`) or has no
dimension equal to 1 (the unfold into the workspace, then one matrix multiply
on the workspace); the multiply writes `y` at offset `i * K * out_h * out_w`. -/
def ConvolutionForward_gemmCommands (cd : ConvolutionDescriptor) (gg : GemmGeometry)
    (x w y workSpace : Data_t) (in_c in_h in_w wei_n wei_h wei_w out_h out_w : Int)
    (i : Nat) : List Event :=
  if wei_h = 1 ∧ wei_w = 1 then
    [Event.RunGemm gg x w y (offset4 i in_c in_h in_w) 0 (offset4 i wei_n out_h out_w)]
  else
    [Event.Im2Col x (toSizeT (offset4 i in_c in_h in_w))
       [in_c, in_h, in_w, wei_h, wei_w, out_h, out_w, cd.pad_h, cd.pad_w, cd.v, cd.u] workSpace,
     Event.RunGemm gg workSpace w y 0 0 (offset4 i wei_n out_h out_w)]

/-- The commands one iteration of the GEMM loop of `ConvolutionBackwardWeights`
issues for sample `i` when the filter is 1x1 or has no dimension equal to 1;
the multiply writes `dw`. -/
def ConvolutionBackwardWeights_gemmCommands (cd : ConvolutionDescriptor) (gg : GemmGeometry)
    (dy x dw workSpace : Data_t) (in_c in_h in_w wei_n wei_h wei_w out_h out_w : Int)
    (i : Nat) : List Event :=
  if wei_h = 1 ∧ wei_w = 1 then
    [Event.RunGemm gg x dy dw (offset4 i in_c in_h in_w) (offset4 i wei_n out_h out_w) 0]
  else
    [Event.Im2Col x (toSizeT (offset4 i in_c in_h in_w))
       [in_c, in_h, in_w, wei_h, wei_w, out_h, out_w, cd.pad_h, cd.pad_w, cd.v, cd.u] workSpace,
     Event.RunGemm gg workSpace dy dw 0 (offset4 i wei_n out_h out_w) 0]

/-- Output (1,8,32,34) of the 3x1 filter `sampleTallW` on `sampleX` with
padding 1 and stride 1. -/
def sampleYTall : TensorDescriptor := ⟨[1, 8, 32, 34], [8704, 1088, 34, 1], 1⟩

/-- The settings `FindFwdWinogradKernel` gives the Winograd constructor
(lines 35-43). -/
def winogradFindParams (cd : ConvolutionDescriptor) (xDesc wDesc yDesc : TensorDescriptor) :
    ConstructParams :=
  { family := ConstructFamily.winograd, direction := 1, stream := true,
    outputDesc := some yDesc, inputDesc := some xDesc, weightDesc := some wDesc,
    convDescr := some cd }

/-- The settings `FindConvBwdWeightsAlgorithm` gives the Direct constructor
(lines 655-661). -/
def bwdWeightsFindParams (cd : ConvolutionDescriptor) (dyDesc xDesc dwDesc : TensorDescriptor) :
    ConstructParams :=
  { family := ConstructFamily.BwdWrW2D, direction := 0, doSearch := some false,
    stream := true, outputDesc := some dyDesc, inputDesc := some xDesc,
    weightDesc := some dwDesc, convDescr := some cd }

/-- The strategies that push a record in a forward search, in push order: GEMM
when the build has the matrix multiply and the filter is 1x1 or the caller's
workspace is non-null and large enough; Winograd when its constructor accepts
the problem; Direct always. -/
def FindConvFwdAlgorithm_recorded (env : Env) (cd : ConvolutionDescriptor)
    (xDesc wDesc yDesc : TensorDescriptor) (workSpace : Data_t) (workSpaceSize : Nat)
    (wei_h wei_w : Int) : List String :=
  (if env.MLOPEN_USE_TINYGEMM = true ∧ ((wei_h = 1 ∧ wei_w = 1) ∨
      (workSpace ≠ none ∧ workSpaceSize ≥ env.ForwardGetWorkSpaceSize cd wDesc yDesc))
    then ["mlopenConvolutionFwdAlgoGEMM"] else []) ++
  (if (env.mloConstruct (winogradFindParams cd xDesc wDesc yDesc)).result ≠ -1
    then ["mlopenConvolutionFwdAlgoWinograd"] else []) ++
  ["mlopenConvolutionFwdAlgoDirect"]

/-- The strategies that push a record in a backward-weights search, in push
order: GEMM as in the forward search; Direct when the shape guard holds and
the constructor reports one kernel or the caller's workspace is non-null and
large enough. -/
def FindConvBwdWeightsAlgorithm_recorded (env : Env) (cd : ConvolutionDescriptor)
    (dyDesc xDesc dwDesc : TensorDescriptor) (workSpace : Data_t) (workSpaceSize : Nat)
    (in_h in_w wei_h wei_w : Int) : List String :=
  (if env.MLOPEN_USE_TINYGEMM = true ∧ ((wei_h = 1 ∧ wei_w = 1) ∨
      (workSpace ≠ none ∧
        workSpaceSize ≥ env.BackwardWeightsGetWorkSpaceSizeGEMM cd dyDesc dwDesc))
    then ["mlopenConvolutionBwdWeightsAlgoGEMM"] else []) ++
  (if bwdWeightsDirectGuard in_h in_w wei_h wei_w = true ∧
      ((env.mloConstruct (bwdWeightsFindParams cd dyDesc xDesc dwDesc)).kernelsInfo.length = 1 ∨
        (workSpace ≠ none ∧
          workSpaceSize ≥ env.BackwardWeightsGetWorkSpaceSizeDirect cd dyDesc xDesc dwDesc))
    then ["mlopenConvolutionBwdWeightsAlgoDirect"] else [])

/-- Output gradient (1,4,6,6): four channels, a 6x6 map. -/
def sampleY6x6 : TensorDescriptor := ⟨[1, 4, 6, 6], [144, 36, 6, 1], 1⟩

/-- The plan `ConvolutionBackwardBias` requests for `sampleY4ch`. -/
def samplePlan4ch : KernelInvoke :=
  ⟨"MLOpenConvBwdBias.cl", "MLOpenConvBwdB", [256, 1, 1], [256, 4, 1],
    " -DMLO_CONVBWD_GROUP_SZ0=256 -DMLO_CONVBWD_GROUP_SZ1=1 -DMLO_CONVBWDB_LCL_MEMSZ=256" ++
    " -DMLO_CONVBWDB_UNITSIZE=4 -DMLO_OUT_WIDTH=3 -DMLO_OUT_HEIGHT=5 -DMLO_OUT_BATCH_SZ=1" ++
    " -DMLO_OUT_CHANNEL_STRIDE=15 -DMLO_OUT_BATCH_STRIDE=60 -DMLO_WK_SIZE=4" ++
    " -DMLO_N_PIX_OFF=3"⟩

/-- The plan `ConvolutionBackwardBias` requests for `sampleY6x6`. -/
def samplePlan6x6 : KernelInvoke :=
  ⟨"MLOpenConvBwdBias.cl", "MLOpenConvBwdB", [256, 1, 1], [256, 4, 1],
    " -DMLO_CONVBWD_GROUP_SZ0=256 -DMLO_CONVBWD_GROUP_SZ1=1 -DMLO_CONVBWDB_LCL_MEMSZ=256" ++
    " -DMLO_CONVBWDB_UNITSIZE=4 -DMLO_OUT_WIDTH=6 -DMLO_OUT_HEIGHT=6 -DMLO_OUT_BATCH_SZ=1" ++
    " -DMLO_OUT_CHANNEL_STRIDE=36 -DMLO_OUT_BATCH_STRIDE=144 -DMLO_WK_SIZE=9" ++
    " -DMLO_N_PIX_OFF=0"⟩

/-- The handle a first `ConvolutionBackwardBias` call on `sampleY5x3` leaves:
one plan cached under ("mlopenConvolutionBwdBias", ""). -/
def sampleHandleWarm : Handle :=
  ⟨false, 7, [(("mlopenConvolutionBwdBias", ""), samplePlan5x3)], 0,
    [Event.Compile "mlopenConvolutionBwdBias" "" samplePlan5x3,
     Event.Launch samplePlan5x3 [] [buf 0, buf 1]]⟩

/-! # Theorems -/

/-! ## The comparator and the sort -/

theorem perf_le_iff (a b : PerfField) :
    PerfField.le a b ↔ a.time < b.time ∨ (a.time = b.time ∧ a.workspace ≤ b.workspace) := by
  unfold PerfField.le PerfField.lt
  rcases lt_trichotomy a.time b.time with h | h | h
  · simp [h, not_lt.mpr h.le, h.ne']
  · simp [h]
  · simp [h, not_lt.mpr h.le, h.ne']

theorem perf_le_total (a b : PerfField) : PerfField.le a b ∨ PerfField.le b a := by
  rw [perf_le_iff, perf_le_iff]
  rcases lt_trichotomy a.time b.time with h | h | h
  · exact Or.inl (Or.inl h)
  · rcases le_total a.workspace b.workspace with hw | hw
    · exact Or.inl (Or.inr ⟨h, hw⟩)
    · exact Or.inr (Or.inr ⟨h.symm, hw⟩)
  · exact Or.inr (Or.inl h)

theorem perf_le_trans {a b c : PerfField} (hab : PerfField.le a b) (hbc : PerfField.le b c) :
    PerfField.le a c := by
  rw [perf_le_iff] at *
  rcases hab with h1 | ⟨h1, w1⟩ <;> rcases hbc with h2 | ⟨h2, w2⟩
  · exact Or.inl (lt_trans h1 h2)
  · exact Or.inl (h2 ▸ h1)
  · exact Or.inl (h1 ▸ h2)
  · exact Or.inr ⟨h1.trans h2, le_trans w1 w2⟩

theorem perf_le_time {a b : PerfField} (h : PerfField.le a b) : a.time ≤ b.time := by
  rw [perf_le_iff] at h
  rcases h with h | ⟨h, _⟩
  · exact h.le
  · exact h.le

instance : IsTotal PerfField PerfField.le := ⟨perf_le_total⟩
instance : IsTrans PerfField PerfField.le := ⟨fun _ _ _ => perf_le_trans⟩

theorem std_sort_perm (l : List PerfField) : (std_sort l).Perm l :=
  List.perm_insertionSort _ l

theorem std_sort_sorted (l : List PerfField) : (std_sort l).Pairwise PerfField.le :=
  List.sorted_insertionSort _ l

theorem std_sort_length (l : List PerfField) : (std_sort l).length = l.length :=
  List.length_insertionSort _ l

/-! ## The copy-out loop -/

theorem copyPerfResults_append (resolver : String → Int) :
    ∀ (n : Nat) (pre : List mlopenConvAlgoPerf_t) (dpre : List PerfField)
      (arr : List mlopenConvAlgoPerf_t) (db : List PerfField),
      dpre.length = pre.length → n ≤ db.length → n ≤ arr.length →
      copyPerfResults resolver (dpre ++ db) n pre.length (pre ++ arr)
        = some (pre ++ (db.take n).map (toPerf resolver) ++ arr.drop n) := by
  intro n
  induction n with
  | zero => intro pre dpre arr db _ _ _; simp [copyPerfResults]
  | succ n ih =>
    intro pre dpre arr db hlen hdb harr
    cases db with
    | nil => simp at hdb
    | cons r db =>
      cases arr with
      | nil => simp at harr
      | cons a arr =>
        have hget : (dpre ++ r :: db).get? pre.length = some r := by
          rw [← hlen, List.get?_eq_getElem?, List.getElem?_append_right (le_refl _)]; simp
        have h1 := ih (pre ++ [toPerf resolver r]) (dpre ++ [r]) arr db (by simp [hlen])
          (by simpa using hdb) (by simpa using harr)
        simp only [List.length_append, List.length_singleton, List.append_assoc,
          List.singleton_append] at h1
        unfold copyPerfResults
        rw [hget]
        simp only [List.length_append, List.length_cons]
        rw [if_pos (by omega)]
        have hset2 : (pre ++ a :: arr).set pre.length ⟨resolver r.name, r.time, r.workspace⟩
            = pre ++ toPerf resolver r :: arr := by
          simp [toPerf]
        rw [hset2, h1]
        simp

theorem copyPerfResults_eq (resolver : String → Int) (db : List PerfField) (n : Nat)
    (arr : List mlopenConvAlgoPerf_t) (hdb : n ≤ db.length) (harr : n ≤ arr.length) :
    copyPerfResults resolver db n 0 arr
      = some ((db.take n).map (toPerf resolver) ++ arr.drop n) := by
  simpa using copyPerfResults_append resolver n [] [] arr db rfl hdb harr

theorem updatePerfResults_eq (resolver : String → Int) (S : List PerfField)
    (requestAlgoCount : Int) (results : List mlopenConvAlgoPerf_t)
    (hcap : (min requestAlgoCount (S.length : Int)).toNat ≤ results.length) :
    updatePerfResults resolver S requestAlgoCount results =
      (min requestAlgoCount (S.length : Int),
        some (((S.take (min requestAlgoCount (S.length : Int)).toNat).map (toPerf resolver))
          ++ results.drop (min requestAlgoCount (S.length : Int)).toNat)) := by
  unfold updatePerfResults
  have hn : (min requestAlgoCount (S.length : Int)).toNat ≤ S.length := by omega
  simp only [copyPerfResults_eq resolver S _ results hn hcap]

theorem rankedPrefix_of_sorted (resolver : String → Int) (R S : List PerfField) (n : Nat)
    (results : List mlopenConvAlgoPerf_t) (hperm : S.Perm R)
    (hsorted : S.Pairwise (fun a b => a.time ≤ b.time)) (hn : n ≤ S.length) :
    RankedPrefix resolver R n results ((S.take n).map (toPerf resolver) ++ results.drop n) := by
  have hl : ((S.take n).map (toPerf resolver)).length = n := by
    simp [List.length_take, hn]
  refine ⟨S, hperm, hsorted, ?_, ?_, ?_, ?_⟩
  · rw [List.take_left' hl]
  · rw [List.drop_left' hl]
  · rw [List.take_left' hl]
    exact List.Pairwise.map _ (fun a b h => h) (hsorted.sublist (List.take_sublist _ _))
  · intro a ha b hb
    exact List.Sorted.rel_of_mem_take_of_mem_drop hsorted ha hb

/-! ## The forward search after the candidate phase -/

theorem FindConvFwdAlgorithm_ok (env : Env) (cd : ConvolutionDescriptor)
    (handle : Handle) (xDesc : TensorDescriptor) (x : Data_t) (wDesc : TensorDescriptor)
    (w : Data_t) (yDesc : TensorDescriptor) (y : Data_t) (requestAlgoCount : Int)
    (cnt : Int) (results : List mlopenConvAlgoPerf_t) (workSpace : Data_t)
    (workSpaceSize : Nat) (exhaustiveSearch : Bool) (R : List PerfField) (h1 : Handle)
    (hx : x ≠ none) (hw : w ≠ none) (hy : y ≠ none) (hreq : 1 ≤ requestAlgoCount)
    (hR : FindConvFwdAlgorithm_candidates env cd (AutoEnableProfiling.ctor handle).2
        xDesc x wDesc w yDesc workSpace workSpaceSize exhaustiveSearch = (Except.ok R, h1))
    (hne : R ≠ [])
    (hcap : (min requestAlgoCount (R.length : Int)).toNat ≤ results.length) :
    FindConvFwdAlgorithm env cd handle xDesc x wDesc w yDesc y requestAlgoCount
      (some cnt) (some results) workSpace workSpaceSize exhaustiveSearch
      = ⟨Except.ok (), (AutoEnableProfiling.ctor handle).1.dtor h1,
          some (min requestAlgoCount (R.length : Int)),
          some (((std_sort R).take (min requestAlgoCount (R.length : Int)).toNat).map
            (toPerf env.FwdAlgoResolver)
            ++ results.drop (min requestAlgoCount (R.length : Int)).toNat)⟩ := by
  have hlen := std_sort_length R
  have hcap2 : (min requestAlgoCount ((std_sort R).length : Int)).toNat ≤ results.length := by
    rw [hlen]; exact hcap
  have hu := updatePerfResults_eq env.FwdAlgoResolver (std_sort R) requestAlgoCount results
    hcap2
  rw [hlen] at hu
  have hemp : R.isEmpty = false := by
    cases R with
    | nil => exact absurd rfl hne
    | cons a l => rfl
  unfold FindConvFwdAlgorithm
  simp only [hx, hw, hy, or_self, if_false, not_lt.mpr hreq, hR, hemp, hu]
  simp

/-- C1: a call of FindConvFwdAlgorithm that passes validation and accumulates
the non-empty record list R returns normally, sets *returnedAlgoCount to
min(requestAlgoCount, |R|), and fills perfResults[0 .. returnedAlgoCount) with
the resolved algorithm id, time and workspace of the leading records of R
arranged by measured time: times non-decreasing, every entry from a distinct
record of R, no record left out strictly faster than one returned; the rest of
the caller's array is untouched. -/
theorem FindConvFwdAlgorithm_returns_ranked_prefix (env : Env) (cd : ConvolutionDescriptor)
    (handle : Handle) (xDesc : TensorDescriptor) (x : Data_t) (wDesc : TensorDescriptor)
    (w : Data_t) (yDesc : TensorDescriptor) (y : Data_t) (requestAlgoCount : Int)
    (cnt : Int) (results : List mlopenConvAlgoPerf_t) (workSpace : Data_t)
    (workSpaceSize : Nat) (exhaustiveSearch : Bool) (R : List PerfField) (h1 : Handle)
    (hx : x ≠ none) (hw : w ≠ none) (hy : y ≠ none) (hreq : 1 ≤ requestAlgoCount)
    (hR : FindConvFwdAlgorithm_candidates env cd (AutoEnableProfiling.ctor handle).2
        xDesc x wDesc w yDesc workSpace workSpaceSize exhaustiveSearch = (Except.ok R, h1))
    (hne : R ≠ [])
    (hcap : (min requestAlgoCount (R.length : Int)).toNat ≤ results.length) :
    (FindConvFwdAlgorithm env cd handle xDesc x wDesc w yDesc y requestAlgoCount (some cnt)
      (some results) workSpace workSpaceSize exhaustiveSearch).outcome = Except.ok () ∧
    (FindConvFwdAlgorithm env cd handle xDesc x wDesc w yDesc y requestAlgoCount (some cnt)
      (some results) workSpace workSpaceSize exhaustiveSearch).returnedAlgoCount
      = some (min requestAlgoCount (R.length : Int)) ∧
    ∃ out : List mlopenConvAlgoPerf_t,
      (FindConvFwdAlgorithm env cd handle xDesc x wDesc w yDesc y requestAlgoCount (some cnt)
        (some results) workSpace workSpaceSize exhaustiveSearch).perfResults = some out ∧
      RankedPrefix env.FwdAlgoResolver R (min requestAlgoCount (R.length : Int)).toNat
        results out := by
  have hres := FindConvFwdAlgorithm_ok env cd handle xDesc x wDesc w yDesc y requestAlgoCount
    cnt results workSpace workSpaceSize exhaustiveSearch R h1 hx hw hy hreq hR hne hcap
  have hsorted : (std_sort R).Pairwise (fun a b => a.time ≤ b.time) :=
    (std_sort_sorted R).imp (fun h => perf_le_time h)
  have hn : (min requestAlgoCount (R.length : Int)).toNat ≤ (std_sort R).length := by
    rw [std_sort_length]; omega
  rw [hres]
  exact ⟨rfl, rfl, _, rfl,
    rankedPrefix_of_sorted env.FwdAlgoResolver R (std_sort R) _ results (std_sort_perm R)
      hsorted hn⟩

theorem sample_fwd_candidates :
    (FindConvFwdAlgorithm_candidates sampleEnv sampleConv
      (AutoEnableProfiling.ctor sampleHandle).2 sampleX (buf 0) sampleW (buf 1) sampleY
      (buf 3) 200 false).1
    = Except.ok [⟨"mlopenConvolutionFwdAlgoGEMM", 6, 100⟩,
        ⟨"mlopenConvolutionFwdAlgoDirect", 6, 0⟩] := by
  simp [FindConvFwdAlgorithm_candidates, FindConvFwdAlgorithm_gemm,
    FindConvFwdAlgorithm_winograd, FindConvFwdAlgorithm_direct, sampleEnv, sampleConv,
    sampleHandle, sampleX, sampleW, sampleY, buf, tie4, AutoEnableProfiling.ctor,
    Handle.EnableProfiling, Handle.Create, Im2ColGPU, Handle.run, GemmGeometry.FindSolution,
    GemmGeometry.RunGemm, Handle.GetKernelTime, FindFwdWinogradKernel, FindDirectKernel,
    Handle.GetKernel, Handle.find, runDirectKernels, Handle.Launch, sampleKernelInfo]
  norm_num

/-- Witness for C1: the sample 3x3 problem with a workspace of 200 bytes and
two records requested. -/
theorem FindConvFwdAlgorithm_returns_ranked_prefix_witness :
    (FindConvFwdAlgorithm sampleEnv sampleConv sampleHandle sampleX (buf 0) sampleW (buf 1)
      sampleY (buf 2) 2 (some 0) (some sampleResults) (buf 3) 200 false).outcome
      = Except.ok () ∧
    (FindConvFwdAlgorithm sampleEnv sampleConv sampleHandle sampleX (buf 0) sampleW (buf 1)
      sampleY (buf 2) 2 (some 0) (some sampleResults) (buf 3) 200 false).returnedAlgoCount
      = some 2 ∧
    ∃ out : List mlopenConvAlgoPerf_t,
      (FindConvFwdAlgorithm sampleEnv sampleConv sampleHandle sampleX (buf 0) sampleW (buf 1)
        sampleY (buf 2) 2 (some 0) (some sampleResults) (buf 3) 200 false).perfResults
        = some out ∧
      RankedPrefix sampleEnv.FwdAlgoResolver
        [⟨"mlopenConvolutionFwdAlgoGEMM", 6, 100⟩, ⟨"mlopenConvolutionFwdAlgoDirect", 6, 0⟩]
        2 sampleResults out := by
  simpa using FindConvFwdAlgorithm_returns_ranked_prefix sampleEnv sampleConv sampleHandle
    sampleX (buf 0) sampleW (buf 1) sampleY (buf 2) 2 0 sampleResults (buf 3) 200 false
    [⟨"mlopenConvolutionFwdAlgoGEMM", 6, 100⟩, ⟨"mlopenConvolutionFwdAlgoDirect", 6, 0⟩]
    _ (by simp [buf]) (by simp [buf]) (by simp [buf]) (by norm_num)
    (Prod.ext sample_fwd_candidates rfl) (by simp) (by simp [sampleResults])

/-! ## The backward-weights search writes a fixed algorithm -/

/-- C2 (failing input): a backward-weights search for a 3x3 filter with a null
workspace in a build with the matrix-multiply primitive accumulates the single
record (Direct, 7, 0), yet returns normally with *returnedAlgoCount = 1 and
perfResults[0] holding the GEMM identifier, which differs from the identifier
of the Direct record; the time and memory fields of perfResults[0] and the
whole of perfResults[1] keep the caller's previous contents. -/
theorem FindConvBwdWeightsAlgorithm_reports_unrecorded_algorithm :
    (FindConvBwdWeightsAlgorithm_candidates sampleEnv sampleConv
      (AutoEnableProfiling.ctor (sampleHandle.Create 864).2).2 (some (Buffer.created 0))
      sampleY (buf 0) sampleX (buf 1) sampleW none 0).1
      = Except.ok [⟨"mlopenConvolutionBwdWeightsAlgoDirect", 7, 0⟩] ∧
    (FindConvBwdWeightsAlgorithm sampleEnv sampleConv sampleHandle sampleY (buf 0) sampleX
      (buf 1) sampleW (buf 2) 2 (some 0) (some sampleResults) none 0).outcome = Except.ok () ∧
    (FindConvBwdWeightsAlgorithm sampleEnv sampleConv sampleHandle sampleY (buf 0) sampleX
      (buf 1) sampleW (buf 2) 2 (some 0) (some sampleResults) none 0).returnedAlgoCount
      = some 1 ∧
    (FindConvBwdWeightsAlgorithm sampleEnv sampleConv sampleHandle sampleY (buf 0) sampleX
      (buf 1) sampleW (buf 2) 2 (some 0) (some sampleResults) none 0).perfResults
      = some [⟨sampleEnv.mlopenConvolutionBwdWeightsAlgoGEMM, 9, 9⟩, ⟨9, 9, 9⟩] ∧
    sampleEnv.mlopenConvolutionBwdWeightsAlgoGEMM
      ≠ sampleEnv.BwdWeightsAlgoResolver "mlopenConvolutionBwdWeightsAlgoDirect" := by
  refine ⟨?_, ?_, ?_, ?_, ?_⟩
  · simp [FindConvBwdWeightsAlgorithm_candidates, FindConvBwdWeightsAlgorithm_gemm,
      FindConvBwdWeightsAlgorithm_direct, bwdWeightsDirectGuard, imul, wrap32,
      sampleEnv, sampleConv,
      sampleHandle, sampleX, sampleW, sampleY, buf, tie4, AutoEnableProfiling.ctor,
      Handle.EnableProfiling, Handle.Create, Handle.GetKernelTime,
      Handle.GetKernel, Handle.find, sampleKernelInfo]
  all_goals
    simp [FindConvBwdWeightsAlgorithm, FindConvBwdWeightsAlgorithm_candidates,
      FindConvBwdWeightsAlgorithm_gemm, std_sort, sampleResults,
      FindConvBwdWeightsAlgorithm_direct, bwdWeightsDirectGuard, imul, wrap32,
      sampleEnv, sampleConv, AutoEnableProfiling.dtor,
      sampleHandle, sampleX, sampleW, sampleY, buf, tie4, AutoEnableProfiling.ctor,
      Handle.EnableProfiling, Handle.Create, Handle.GetKernelTime,
      Handle.GetKernel, Handle.find, sampleKernelInfo]

/-! ## Ties in the ranking -/

theorem std_sort_ties (l : List PerfField) :
    (std_sort l).Pairwise (fun a b => a.time = b.time → a.workspace ≤ b.workspace) := by
  refine (std_sort_sorted l).imp ?_
  intro a b h heq
  rw [perf_le_iff] at h
  rcases h with h | ⟨_, h⟩
  · exact absurd heq h.ne
  · exact h

theorem std_sort_stable (l : List PerfField) (t : ℚ) (ws : Nat) :
    (std_sort l).filter (fun r => decide (r.time = t ∧ r.workspace = ws))
      = l.filter (fun r => decide (r.time = t ∧ r.workspace = ws)) := by
  have hpair : (l.filter (fun r => decide (r.time = t ∧ r.workspace = ws))).Pairwise
      PerfField.le := by
    rw [List.pairwise_iff_forall_sublist]
    intro a b hab
    have ha : a ∈ l.filter (fun r => decide (r.time = t ∧ r.workspace = ws)) :=
      hab.subset (by simp)
    have hb : b ∈ l.filter (fun r => decide (r.time = t ∧ r.workspace = ws)) :=
      hab.subset (by simp)
    simp only [List.mem_filter, decide_eq_true_eq] at ha hb
    rw [perf_le_iff]
    exact Or.inr ⟨ha.2.1.trans hb.2.1.symm, (ha.2.2.trans hb.2.2.symm).le⟩
  have hsub : List.Sublist (l.filter (fun r => decide (r.time = t ∧ r.workspace = ws)))
      (std_sort l) :=
    List.sublist_insertionSort hpair (List.filter_sublist l)
  have hsub2 := hsub.filter (fun r => decide (r.time = t ∧ r.workspace = ws))
  rw [List.filter_filter] at hsub2
  simp only [Bool.and_self] at hsub2
  have hperm := (std_sort_perm l).filter (fun r => decide (r.time = t ∧ r.workspace = ws))
  exact (hsub2.eq_of_length hperm.length_eq.symm).symm

theorem FindDirectKernel_rc (env : Env) (cd : ConvolutionDescriptor) (handle : Handle)
    (xDesc wDesc yDesc : TensorDescriptor) (kernels : List KernelInvoke)
    (exhaustiveSearch : Bool) (direction : Int) (rc : Int)
    (h : (FindDirectKernel env cd handle xDesc wDesc yDesc kernels exhaustiveSearch
      direction).1 = Except.ok rc) : rc = 0 := by
  unfold FindDirectKernel at h
  simp only at h
  split at h
  · simpa using h.symm
  · split at h
    · simp at h
    · simpa using h.symm
    · simpa using h.symm

theorem FindConvFwdAlgorithm_gemm_records (env : Env) (cd : ConvolutionDescriptor)
    (h0 : Handle) (xDesc : TensorDescriptor) (x : Data_t) (wDesc : TensorDescriptor)
    (w : Data_t) (yDesc : TensorDescriptor) (tmp_y workSpace : Data_t) (workSpaceSize : Nat)
    (in_n in_c in_h in_w wei_h wei_w out_h out_w : Int) :
    (FindConvFwdAlgorithm_gemm env cd h0 xDesc x wDesc w yDesc tmp_y workSpace workSpaceSize
      in_n in_c in_h in_w wei_h wei_w out_h out_w).1 = [] ∨
    ∃ t ws, (FindConvFwdAlgorithm_gemm env cd h0 xDesc x wDesc w yDesc tmp_y workSpace
      workSpaceSize in_n in_c in_h in_w wei_h wei_w out_h out_w).1
      = [⟨"mlopenConvolutionFwdAlgoGEMM", t, ws⟩] := by
  unfold FindConvFwdAlgorithm_gemm
  simp only
  split
  · split
    · exact Or.inr ⟨_, _, rfl⟩
    · split
      · exact Or.inr ⟨_, _, rfl⟩
      · exact Or.inl rfl
  · exact Or.inl rfl

theorem FindConvFwdAlgorithm_winograd_records (env : Env) (cd : ConvolutionDescriptor)
    (g : List PerfField × Handle) (xDesc : TensorDescriptor) (x : Data_t)
    (wDesc : TensorDescriptor) (w : Data_t) (yDesc : TensorDescriptor) (tmp_y : Data_t) :
    (FindConvFwdAlgorithm_winograd env cd g xDesc x wDesc w yDesc tmp_y).1 = g.1 ∨
    ∃ t, (FindConvFwdAlgorithm_winograd env cd g xDesc x wDesc w yDesc tmp_y).1
      = g.1 ++ [⟨"mlopenConvolutionFwdAlgoWinograd", t, 0⟩] := by
  unfold FindConvFwdAlgorithm_winograd
  split
  · exact Or.inr ⟨_, rfl⟩
  · exact Or.inl rfl

theorem FindConvFwdAlgorithm_direct_records (env : Env) (cd : ConvolutionDescriptor)
    (wino : List PerfField × Handle) (xDesc : TensorDescriptor) (x : Data_t)
    (wDesc : TensorDescriptor) (w : Data_t) (yDesc : TensorDescriptor) (tmp_y : Data_t)
    (exhaustiveSearch : Bool) (R : List PerfField) (h1 : Handle)
    (hR : FindConvFwdAlgorithm_direct env cd wino xDesc x wDesc w yDesc tmp_y exhaustiveSearch
      = (Except.ok R, h1)) :
    ∃ t, R = wino.1 ++ [⟨"mlopenConvolutionFwdAlgoDirect", t, 0⟩] := by
  unfold FindConvFwdAlgorithm_direct at hR
  split at hR
  · simp at hR
  · rename_i rc kernel_direct h5 heq
    have hrc : rc = 0 :=
      FindDirectKernel_rc env cd wino.2 xDesc wDesc yDesc [] exhaustiveSearch 1 rc
        (by rw [heq])
    subst hrc
    simp only [if_true, Prod.mk.injEq, Except.ok.injEq] at hR
    exact ⟨_, hR.1.symm⟩

theorem FindConvFwdAlgorithm_candidates_order (env : Env) (cd : ConvolutionDescriptor)
    (handle : Handle) (xDesc : TensorDescriptor) (x : Data_t) (wDesc : TensorDescriptor)
    (w : Data_t) (yDesc : TensorDescriptor) (workSpace : Data_t) (workSpaceSize : Nat)
    (exhaustiveSearch : Bool) (R : List PerfField) (h1 : Handle)
    (hR : FindConvFwdAlgorithm_candidates env cd handle xDesc x wDesc w yDesc workSpace
      workSpaceSize exhaustiveSearch = (Except.ok R, h1)) :
    List.Sublist (R.map PerfField.name)
      ["mlopenConvolutionFwdAlgoGEMM", "mlopenConvolutionFwdAlgoWinograd",
        "mlopenConvolutionFwdAlgoDirect"] := by
  unfold FindConvFwdAlgorithm_candidates at hR
  simp only at hR
  split at hR
  · rename_i in_n in_c in_h in_w a b wei_h wei_w c d out_h out_w hx hw hy
    obtain ⟨t, ht⟩ := FindConvFwdAlgorithm_direct_records _ _ _ _ _ _ _ _ _ _ _ _ hR
    rw [ht]
    rcases FindConvFwdAlgorithm_winograd_records env cd
      (FindConvFwdAlgorithm_gemm env cd
        (handle.Create (toSizeT yDesc.GetElementSize * sizeof_GetType % 18446744073709551616)).2
        xDesc x wDesc w yDesc
        (some (handle.Create
          (toSizeT yDesc.GetElementSize * sizeof_GetType % 18446744073709551616)).1)
        workSpace workSpaceSize in_n in_c in_h in_w wei_h wei_w out_h out_w)
      xDesc x wDesc w yDesc
      (some (handle.Create
        (toSizeT yDesc.GetElementSize * sizeof_GetType % 18446744073709551616)).1)
      with hwn | ⟨tw, hwn⟩ <;>
    rcases FindConvFwdAlgorithm_gemm_records env cd
      (handle.Create (toSizeT yDesc.GetElementSize * sizeof_GetType % 18446744073709551616)).2
      xDesc x wDesc w yDesc
      (some (handle.Create
        (toSizeT yDesc.GetElementSize * sizeof_GetType % 18446744073709551616)).1)
      workSpace workSpaceSize in_n in_c in_h in_w wei_h wei_w out_h out_w
      with hg | ⟨tg, wsg, hg⟩ <;>
    rw [hwn, hg] <;> simp
  · simp at hR


/-- C3: in the ranking produced by the sort of perf_db (forward and
backward-weights searches alike), of two records with equal measured time the
one with the lower workspace requirement comes first, and records equal in
both time and workspace keep the order in which they were pushed; the forward
search pushes GEMM before Winograd before Direct, and what it writes out is
the leading part of that ranking. -/
theorem perf_db_ties_by_workspace_then_insertion (env : Env) (cd : ConvolutionDescriptor)
    (handle : Handle) (xDesc : TensorDescriptor) (x : Data_t) (wDesc : TensorDescriptor)
    (w : Data_t) (yDesc : TensorDescriptor) (y : Data_t) (requestAlgoCount : Int)
    (cnt : Int) (results : List mlopenConvAlgoPerf_t) (workSpace : Data_t)
    (workSpaceSize : Nat) (exhaustiveSearch : Bool) (R : List PerfField) (h1 : Handle)
    (hx : x ≠ none) (hw : w ≠ none) (hy : y ≠ none) (hreq : 1 ≤ requestAlgoCount)
    (hR : FindConvFwdAlgorithm_candidates env cd (AutoEnableProfiling.ctor handle).2
        xDesc x wDesc w yDesc workSpace workSpaceSize exhaustiveSearch = (Except.ok R, h1))
    (hne : R ≠ [])
    (hcap : (min requestAlgoCount (R.length : Int)).toNat ≤ results.length) :
    (∀ perf_db : List PerfField, (std_sort perf_db).Pairwise
      (fun a b => a.time = b.time → a.workspace ≤ b.workspace)) ∧
    (∀ (perf_db : List PerfField) (t : ℚ) (ws : Nat),
      (std_sort perf_db).filter (fun r => decide (r.time = t ∧ r.workspace = ws))
        = perf_db.filter (fun r => decide (r.time = t ∧ r.workspace = ws))) ∧
    List.Sublist (R.map PerfField.name)
      ["mlopenConvolutionFwdAlgoGEMM", "mlopenConvolutionFwdAlgoWinograd",
        "mlopenConvolutionFwdAlgoDirect"] ∧
    (FindConvFwdAlgorithm env cd handle xDesc x wDesc w yDesc y requestAlgoCount (some cnt)
      (some results) workSpace workSpaceSize exhaustiveSearch).perfResults
      = some (((std_sort R).take (min requestAlgoCount (R.length : Int)).toNat).map
          (toPerf env.FwdAlgoResolver)
          ++ results.drop (min requestAlgoCount (R.length : Int)).toNat) := by
  refine ⟨std_sort_ties, std_sort_stable, ?_, ?_⟩
  · exact FindConvFwdAlgorithm_candidates_order env cd _ xDesc x wDesc w yDesc workSpace
      workSpaceSize exhaustiveSearch R h1 hR
  · rw [FindConvFwdAlgorithm_ok env cd handle xDesc x wDesc w yDesc y requestAlgoCount
      cnt results workSpace workSpaceSize exhaustiveSearch R h1 hx hw hy hreq hR hne hcap]

theorem sample_fwd_ranking :
    std_sort [⟨"mlopenConvolutionFwdAlgoGEMM", 6, 100⟩, ⟨"mlopenConvolutionFwdAlgoDirect", 6, 0⟩]
      = [⟨"mlopenConvolutionFwdAlgoDirect", 6, 0⟩, ⟨"mlopenConvolutionFwdAlgoGEMM", 6, 100⟩] := by
  simp [std_sort, List.insertionSort, List.orderedInsert, PerfField.le, PerfField.lt]

/-- Witness for C3: in the sample forward search GEMM (time 6, workspace 100)
and Direct (time 6, workspace 0) tie on time; Direct is written first. -/
theorem perf_db_ties_by_workspace_then_insertion_witness :
    (FindConvFwdAlgorithm sampleEnv sampleConv sampleHandle sampleX (buf 0) sampleW (buf 1)
      sampleY (buf 2) 2 (some 0) (some sampleResults) (buf 3) 200 false).perfResults
      = some [⟨1, 6, 0⟩, ⟨0, 6, 100⟩] := by
  have h := (perf_db_ties_by_workspace_then_insertion sampleEnv sampleConv sampleHandle
    sampleX (buf 0) sampleW (buf 1) sampleY (buf 2) 2 0 sampleResults (buf 3) 200 false
    [⟨"mlopenConvolutionFwdAlgoGEMM", 6, 100⟩, ⟨"mlopenConvolutionFwdAlgoDirect", 6, 0⟩]
    _ (by simp [buf]) (by simp [buf]) (by simp [buf]) (by norm_num)
    (Prod.ext sample_fwd_candidates rfl) (by simp) (by simp [sampleResults])).2.2.2
  rw [h, sample_fwd_ranking]
  simp [toPerf, sampleEnv, sampleResults]

/-! ## When a search fails -/

theorem FindConvBwdDataAlgorithm_candidates_records (env : Env) (cd : ConvolutionDescriptor)
    (handle : Handle) (tmp_dx : Data_t) (dyDesc : TensorDescriptor) (dy : Data_t)
    (wDesc : TensorDescriptor) (w : Data_t) (dxDesc : TensorDescriptor)
    (exhaustiveSearch : Bool) (R : List PerfField) (h1 : Handle)
    (hR : FindConvBwdDataAlgorithm_candidates env cd handle tmp_dx dyDesc dy wDesc w dxDesc
      exhaustiveSearch = (Except.ok R, h1)) :
    ∃ t, R = [⟨"mlopenConvolutionBwdDataAlgoDirect", t, 0⟩] := by
  unfold FindConvBwdDataAlgorithm_candidates at hR
  split at hR
  · simp at hR
  · split at hR
    · simp only [Prod.mk.injEq, Except.ok.injEq] at hR
      exact ⟨_, hR.1.symm⟩
    · simp at hR

theorem isEmpty_false_of_ne_nil {α : Type} {l : List α} (h : l ≠ []) : l.isEmpty = false := by
  cases l with
  | nil => exact absurd rfl h
  | cons a l => rfl

theorem Find_outcome_of_records (env : Env) (cd : ConvolutionDescriptor)
    (handle : Handle) (d1 d2 d3 : TensorDescriptor) (b1 b2 b3 : Data_t)
    (requestAlgoCount : Int) (cnt : Int) (results : List mlopenConvAlgoPerf_t)
    (workSpace : Data_t) (workSpaceSize : Nat) (exhaustiveSearch : Bool)
    (hb1 : b1 ≠ none) (hb2 : b2 ≠ none) (hb3 : b3 ≠ none) (hreq : 1 ≤ requestAlgoCount) :
    (∀ (R : List PerfField) (h1 : Handle),
      FindConvFwdAlgorithm_candidates env cd (AutoEnableProfiling.ctor handle).2
        d1 b1 d2 b2 d3 workSpace workSpaceSize exhaustiveSearch = (Except.ok R, h1) →
      (R = [] →
        (FindConvFwdAlgorithm env cd handle d1 b1 d2 b2 d3 b3 requestAlgoCount (some cnt)
          (some results) workSpace workSpaceSize exhaustiveSearch).outcome
          = Except.error (Abort.thrown
              ⟨none, "Fwd Convolution cannot be executed due to incorrect params"⟩) ∧
        (FindConvFwdAlgorithm env cd handle d1 b1 d2 b2 d3 b3 requestAlgoCount (some cnt)
          (some results) workSpace workSpaceSize exhaustiveSearch).handle
          = (AutoEnableProfiling.ctor handle).1.dtor h1) ∧
      (R ≠ [] → (min requestAlgoCount (R.length : Int)).toNat ≤ results.length →
        (FindConvFwdAlgorithm env cd handle d1 b1 d2 b2 d3 b3 requestAlgoCount (some cnt)
          (some results) workSpace workSpaceSize exhaustiveSearch).outcome = Except.ok () ∧
        (FindConvFwdAlgorithm env cd handle d1 b1 d2 b2 d3 b3 requestAlgoCount (some cnt)
          (some results) workSpace workSpaceSize exhaustiveSearch).returnedAlgoCount
          = some (min requestAlgoCount (R.length : Int)))) ∧
    (∀ (R : List PerfField) (h1 : Handle),
      FindConvBwdDataAlgorithm_candidates env cd
        (AutoEnableProfiling.ctor (handle.Create
          ((toSizeT d3.GetElementSize * sizeof_GetType) % 18446744073709551616)).2).2
        (some (handle.Create
          ((toSizeT d3.GetElementSize * sizeof_GetType) % 18446744073709551616)).1)
        d1 b1 d2 b2 d3 exhaustiveSearch = (Except.ok R, h1) →
      R ≠ [] ∧
      ((min requestAlgoCount (R.length : Int)).toNat ≤ results.length →
        (FindConvBwdDataAlgorithm env cd handle d1 b1 d2 b2 d3 b3 requestAlgoCount (some cnt)
          (some results) exhaustiveSearch).outcome = Except.ok () ∧
        (FindConvBwdDataAlgorithm env cd handle d1 b1 d2 b2 d3 b3 requestAlgoCount (some cnt)
          (some results) exhaustiveSearch).returnedAlgoCount
          = some (min requestAlgoCount (R.length : Int)))) ∧
    (∀ (R : List PerfField) (h1 : Handle),
      FindConvBwdWeightsAlgorithm_candidates env cd
        (AutoEnableProfiling.ctor (handle.Create
          ((toSizeT d3.GetElementSize * sizeof_GetType) % 18446744073709551616)).2).2
        (some (handle.Create
          ((toSizeT d3.GetElementSize * sizeof_GetType) % 18446744073709551616)).1)
        d1 b1 d2 b2 d3 workSpace workSpaceSize = (Except.ok R, h1) →
      (R = [] →
        (FindConvBwdWeightsAlgorithm env cd handle d1 b1 d2 b2 d3 b3 requestAlgoCount
          (some cnt) (some results) workSpace workSpaceSize).outcome
          = Except.error (Abort.thrown
              ⟨none, "Bwd Weights Convolution cannot be executed due to incorrect params"⟩) ∧
        (FindConvBwdWeightsAlgorithm env cd handle d1 b1 d2 b2 d3 b3 requestAlgoCount
          (some cnt) (some results) workSpace workSpaceSize).handle
          = (AutoEnableProfiling.ctor (handle.Create
              ((toSizeT d3.GetElementSize * sizeof_GetType) % 18446744073709551616)).2).1.dtor
              h1) ∧
      (R ≠ [] → results ≠ [] →
        (FindConvBwdWeightsAlgorithm env cd handle d1 b1 d2 b2 d3 b3 requestAlgoCount
          (some cnt) (some results) workSpace workSpaceSize).outcome = Except.ok () ∧
        (FindConvBwdWeightsAlgorithm env cd handle d1 b1 d2 b2 d3 b3 requestAlgoCount
          (some cnt) (some results) workSpace workSpaceSize).returnedAlgoCount
          = some (min requestAlgoCount (R.length : Int)))) := by
  refine ⟨?_, ?_, ?_⟩
  · intro R h1 hR
    constructor
    · intro hnil
      subst hnil
      unfold FindConvFwdAlgorithm
      simp only [hb1, hb2, hb3, or_self, if_false, not_lt.mpr hreq, hR]
      simp
    · intro hne hcap
      rw [FindConvFwdAlgorithm_ok env cd handle d1 b1 d2 b2 d3 b3 requestAlgoCount
        cnt results workSpace workSpaceSize exhaustiveSearch R h1 hb1 hb2 hb3 hreq hR hne hcap]
      exact ⟨rfl, rfl⟩
  · intro R h1 hR
    obtain ⟨t, ht⟩ := FindConvBwdDataAlgorithm_candidates_records _ _ _ _ _ _ _ _ _ _ _ _ hR
    refine ⟨by rw [ht]; simp, ?_⟩
    intro hcap
    have hu := updatePerfResults_eq env.BwdDataAlgoResolver R requestAlgoCount results hcap
    unfold FindConvBwdDataAlgorithm
    simp only [hb1, hb2, hb3, or_self, if_false, not_lt.mpr hreq, hR, hu]
    simp
  · intro R h1 hR
    constructor
    · intro hnil
      subst hnil
      unfold FindConvBwdWeightsAlgorithm
      simp only [hb1, hb2, hb3, or_self, if_false, not_lt.mpr hreq, hR]
      simp
    · intro hne hres
      have hemp := isEmpty_false_of_ne_nil hne
      unfold FindConvBwdWeightsAlgorithm
      simp only [hb1, hb2, hb3, or_self, if_false, not_lt.mpr hreq, hR, hemp]
      cases results with
      | nil => exact absurd rfl hres
      | cons r0 rest => simp [std_sort_length]

theorem sample_bwd_weights_no_candidates :
    (FindConvBwdWeightsAlgorithm_candidates sampleEnv sampleConv
      (AutoEnableProfiling.ctor (sampleHandle.Create
        ((toSizeT sampleTallW.GetElementSize * sizeof_GetType) % 18446744073709551616)).2).2
      (some (sampleHandle.Create
        ((toSizeT sampleTallW.GetElementSize * sizeof_GetType) % 18446744073709551616)).1)
      sampleY (buf 0) sampleX (buf 1) sampleTallW none 0).1 = Except.ok [] := by
  simp [FindConvBwdWeightsAlgorithm_candidates, FindConvBwdWeightsAlgorithm_gemm,
    FindConvBwdWeightsAlgorithm_direct, bwdWeightsDirectGuard, sampleTallW, sampleX, sampleY,
    tie4, sampleEnv]

/-! ## Parameter validation of the searches -/

/-- C5: each of the three searches, called with a null input, filter or output
buffer, a null returnedAlgoCount, a null perfResults or requestAlgoCount < 1,
throws with status BadParm and leaves the handle (profiling toggle, timer,
kernel cache, buffers created, commands issued) and both out-parameters
exactly as they were. -/
theorem Find_rejects_bad_parameters_untouched (env : Env) (cd : ConvolutionDescriptor)
    (handle : Handle) (d1 d2 d3 : TensorDescriptor) (b1 b2 b3 : Data_t)
    (requestAlgoCount : Int) (returnedAlgoCount : Option Int)
    (perfResults : Option (List mlopenConvAlgoPerf_t)) (workSpace : Data_t)
    (workSpaceSize : Nat) (exhaustiveSearch : Bool)
    (h : b1 = none ∨ b2 = none ∨ b3 = none ∨ returnedAlgoCount = none ∨ perfResults = none
      ∨ requestAlgoCount < 1) :
    (∃ msg, FindConvFwdAlgorithm env cd handle d1 b1 d2 b2 d3 b3 requestAlgoCount
        returnedAlgoCount perfResults workSpace workSpaceSize exhaustiveSearch
      = ⟨Except.error (Abort.thrown ⟨some mlopenStatus_t.mlopenStatusBadParm, msg⟩),
          handle, returnedAlgoCount, perfResults⟩) ∧
    (∃ msg, FindConvBwdDataAlgorithm env cd handle d1 b1 d2 b2 d3 b3 requestAlgoCount
        returnedAlgoCount perfResults exhaustiveSearch
      = ⟨Except.error (Abort.thrown ⟨some mlopenStatus_t.mlopenStatusBadParm, msg⟩),
          handle, returnedAlgoCount, perfResults⟩) ∧
    (∃ msg, FindConvBwdWeightsAlgorithm env cd handle d1 b1 d2 b2 d3 b3 requestAlgoCount
        returnedAlgoCount perfResults workSpace workSpaceSize
      = ⟨Except.error (Abort.thrown ⟨some mlopenStatus_t.mlopenStatusBadParm, msg⟩),
          handle, returnedAlgoCount, perfResults⟩) := by
  refine ⟨?_, ?_, ?_⟩
  · unfold FindConvFwdAlgorithm
    by_cases hb : b1 = none ∨ b2 = none ∨ b3 = none
    · exact ⟨_, by rw [if_pos hb]⟩
    · rw [if_neg hb]
      by_cases hc : returnedAlgoCount = none
      · exact ⟨_, by rw [if_pos hc]⟩
      · rw [if_neg hc]
        cases perfResults with
        | none => exact ⟨_, rfl⟩
        | some results =>
          have hr : requestAlgoCount < 1 := by
            rcases h with h | h | h | h | h | h
            · exact absurd (Or.inl h) hb
            · exact absurd (Or.inr (Or.inl h)) hb
            · exact absurd (Or.inr (Or.inr h)) hb
            · exact absurd h hc
            · simp at h
            · exact h
          exact ⟨"requestAlgoCount cannot be < 1", by simp only [if_pos hr]⟩
  · unfold FindConvBwdDataAlgorithm
    by_cases hb : b3 = none ∨ b2 = none ∨ b1 = none
    · exact ⟨_, by rw [if_pos hb]⟩
    · rw [if_neg hb]
      by_cases hc : returnedAlgoCount = none
      · exact ⟨_, by rw [if_pos hc]⟩
      · rw [if_neg hc]
        cases perfResults with
        | none => exact ⟨_, rfl⟩
        | some results =>
          have hr : requestAlgoCount < 1 := by
            rcases h with h | h | h | h | h | h
            · exact absurd (Or.inr (Or.inr h)) hb
            · exact absurd (Or.inr (Or.inl h)) hb
            · exact absurd (Or.inl h) hb
            · exact absurd h hc
            · simp at h
            · exact h
          exact ⟨"requestAlgoCount cannot be < 1", by simp only [if_pos hr]⟩
  · unfold FindConvBwdWeightsAlgorithm
    by_cases hb : b2 = none ∨ b3 = none ∨ b1 = none
    · exact ⟨_, by rw [if_pos hb]⟩
    · rw [if_neg hb]
      by_cases hc : returnedAlgoCount = none
      · exact ⟨_, by rw [if_pos hc]⟩
      · rw [if_neg hc]
        cases perfResults with
        | none => exact ⟨_, rfl⟩
        | some results =>
          have hr : requestAlgoCount < 1 := by
            rcases h with h | h | h | h | h | h
            · exact absurd (Or.inr (Or.inr h)) hb
            · exact absurd (Or.inl h) hb
            · exact absurd (Or.inr (Or.inl h)) hb
            · exact absurd h hc
            · simp at h
            · exact h
          exact ⟨"requestAlgoCount cannot be < 1", by simp only [if_pos hr]⟩

/-- Witness for C5: a zero request count with every pointer valid. -/
theorem Find_rejects_bad_parameters_untouched_witness :
    (∃ msg, FindConvFwdAlgorithm sampleEnv sampleConv sampleHandle sampleX (buf 0) sampleW
        (buf 1) sampleY (buf 2) 0 (some 5) (some sampleResults) (buf 3) 200 false
      = ⟨Except.error (Abort.thrown ⟨some mlopenStatus_t.mlopenStatusBadParm, msg⟩),
          sampleHandle, some 5, some sampleResults⟩) ∧
    (∃ msg, FindConvBwdDataAlgorithm sampleEnv sampleConv sampleHandle sampleX (buf 0) sampleW
        (buf 1) sampleY (buf 2) 0 (some 5) (some sampleResults) false
      = ⟨Except.error (Abort.thrown ⟨some mlopenStatus_t.mlopenStatusBadParm, msg⟩),
          sampleHandle, some 5, some sampleResults⟩) ∧
    (∃ msg, FindConvBwdWeightsAlgorithm sampleEnv sampleConv sampleHandle sampleX (buf 0)
        sampleW (buf 1) sampleY (buf 2) 0 (some 5) (some sampleResults) (buf 3) 200
      = ⟨Except.error (Abort.thrown ⟨some mlopenStatus_t.mlopenStatusBadParm, msg⟩),
          sampleHandle, some 5, some sampleResults⟩) :=
  Find_rejects_bad_parameters_untouched sampleEnv sampleConv sampleHandle sampleX sampleW
    sampleY (buf 0) (buf 1) (buf 2) 0 (some 5) (some sampleResults) (buf 3) 200 false
    (Or.inr (Or.inr (Or.inr (Or.inr (Or.inr (by norm_num))))))

/-! ## Parameter validation of the dispatchers -/

/-- C6 (failing input): with three rank-1 descriptors of equal type and
non-null buffers ConvolutionForward, for every algorithm, reads
GetLengths()[1] out of range before it reaches the rank check; it does not
end with BadParm. -/
theorem ConvolutionForward_rank_one_reads_out_of_range (algo : mlopenConvFwdAlgorithm_t) :
    ConvolutionForward sampleEnv sampleConv sampleHandle sampleRank1 (buf 0) sampleRank1
      (buf 1) algo sampleRank1 (buf 2) none 0
      = (Except.error (Abort.undefined "GetLengths()[1]"), sampleHandle) := by
  simp [ConvolutionForward, sampleRank1, buf, TensorDescriptor.GetSize,
    TensorDescriptor.GetType, TensorDescriptor.GetLength]

/-- C7 (failing input): dy = (1,8,32,32), x = (1,3,32,32), dw = (16,3,3,3):
the filter gradient has 16 output channels, the output gradient 8, everything
else is valid.  ConvolutionBackwardWeights (GEMM, workspace of 200 bytes)
passes validation, returns normally and has unfolded x and multiplied into
dw. -/
theorem ConvolutionBackwardWeights_accepts_channel_mismatch :
    sampleDw16.GetLength 0 ≠ sampleY.GetLength 1 ∧
    (ConvolutionBackwardWeights sampleEnv sampleConv sampleHandle sampleY (buf 0) sampleX
      (buf 1) mlopenConvBwdWeightsAlgorithm_t.mlopenConvolutionBwdWeightsAlgoGEMM
      sampleDw16 (buf 2) (buf 3) 200).1 = Except.ok () ∧
    (ConvolutionBackwardWeights sampleEnv sampleConv sampleHandle sampleY (buf 0) sampleX
      (buf 1) mlopenConvBwdWeightsAlgorithm_t.mlopenConvolutionBwdWeightsAlgoGEMM
      sampleDw16 (buf 2) (buf 3) 200).2.log
      = [Event.Im2Col (buf 1) 0 [3, 32, 32, 3, 3, 32, 32, 1, 1, 1, 1] (buf 3),
         Event.RunGemm ⟨"mlopenConvolutionBwdWeightsAlgoGEMM", "g"⟩ (buf 3) (buf 0) (buf 2)
           0 0 0] := by
  refine ⟨by simp [sampleDw16, sampleY, TensorDescriptor.GetLength], ?_, ?_⟩ <;>
  simp [ConvolutionBackwardWeights, ConvolutionBackwardWeights_gemmStep, sampleDw16, sampleX,
    sampleY, sampleEnv, sampleConv, sampleHandle, buf, TensorDescriptor.GetSize,
    TensorDescriptor.GetType, TensorDescriptor.GetLength, tie4, Handle.ResetKernelTime,
    Im2ColGPU, Handle.run, GemmGeometry.RunGemm, Handle.IsProfilingEnabled, offset4, imul,
    wrap32, toSizeT, List.range, List.range.loop]

/-- C8 (failing input): a 1x3 filter, the GEMM algorithm, workSpace = nullptr
and workSpaceSize = 0 in a build with the matrix-multiply primitive, where the
required workspace is 100 bytes.  Neither ConvolutionForward nor
ConvolutionBackwardWeights fails: both return normally and issue no command
at all. -/
theorem GEMM_one_by_three_filter_skips_workspace_check :
    sampleEnv.ForwardGetWorkSpaceSize sampleConv sampleWideW sampleY = 100 ∧
    sampleEnv.BackwardWeightsGetWorkSpaceSizeGEMM sampleConv sampleY sampleWideW = 100 ∧
    ConvolutionForward sampleEnv sampleConv sampleHandle sampleX (buf 0) sampleWideW (buf 1)
      mlopenConvFwdAlgorithm_t.mlopenConvolutionFwdAlgoGEMM sampleY (buf 2) none 0
      = (Except.ok (), sampleHandle) ∧
    ConvolutionBackwardWeights sampleEnv sampleConv sampleHandle sampleY (buf 0) sampleX
      (buf 1) mlopenConvBwdWeightsAlgorithm_t.mlopenConvolutionBwdWeightsAlgoGEMM
      sampleWideW (buf 2) none 0
      = (Except.ok (), sampleHandle.ResetKernelTime) ∧
    sampleHandle.ResetKernelTime.log = [] := by
  refine ⟨rfl, rfl, ?_, ?_, rfl⟩
  · simp [ConvolutionForward, ConvolutionForward_gemmStep, sampleWideW, sampleX,
      sampleY, sampleEnv, sampleConv, sampleHandle, buf, TensorDescriptor.GetSize,
      TensorDescriptor.GetType, TensorDescriptor.GetLength, tie4,
      List.range, List.range.loop]
  · simp [ConvolutionBackwardWeights, ConvolutionBackwardWeights_gemmStep, sampleWideW, sampleX,
      sampleY, sampleEnv, sampleConv, sampleHandle, buf, TensorDescriptor.GetSize,
      TensorDescriptor.GetType, TensorDescriptor.GetLength, tie4, Handle.ResetKernelTime,
      List.range, List.range.loop]

/-! ## GEMM with a 1x1 filter -/

theorem ConvolutionForward_gemmStep_1x1_log (env : Env) (cd : ConvolutionDescriptor)
    (gg : GemmGeometry) (x w y workSpace : Data_t)
    (in_n in_c in_h in_w wei_n out_h out_w : Int) (st : ℚ × ℚ × Handle) (i : Nat) :
    (ConvolutionForward_gemmStep env cd gg x w y workSpace in_n in_c in_h in_w wei_n 1 1
      out_h out_w st i).2.2.log
      = st.2.2.log ++ [Event.RunGemm gg x w y (offset4 i in_c in_h in_w) 0
          (offset4 i wei_n out_h out_w)] := by
  unfold ConvolutionForward_gemmStep
  simp only [ne_eq, not_true_eq_false, and_self, if_false, if_true]
  split
  · split <;> simp [GemmGeometry.RunGemm, Handle.run, Handle.AccumKernelTime]
  · simp [GemmGeometry.RunGemm, Handle.run]

theorem ConvolutionForward_gemmLoop_1x1_log (env : Env) (cd : ConvolutionDescriptor)
    (gg : GemmGeometry) (x w y workSpace : Data_t)
    (in_n in_c in_h in_w wei_n out_h out_w : Int) (l : List Nat) :
    ∀ st : ℚ × ℚ × Handle,
    (l.foldl (ConvolutionForward_gemmStep env cd gg x w y workSpace in_n in_c in_h in_w wei_n
      1 1 out_h out_w) st).2.2.log
      = st.2.2.log ++ l.map (fun i => Event.RunGemm gg x w y (offset4 i in_c in_h in_w) 0
          (offset4 i wei_n out_h out_w)) := by
  induction l with
  | nil => intro st; simp
  | cons i l ih =>
    intro st
    rw [List.foldl_cons, ih, ConvolutionForward_gemmStep_1x1_log]
    simp

/-- C9: for a 1x1 filter in a build with the matrix-multiply primitive, the
forward search leads its records with a GEMM record of workspace 0 whatever
workspace the caller supplied (indeed every record it accumulates has
workspace 0), and ConvolutionForward with the GEMM algorithm, workSpace =
nullptr and workSpaceSize = 0 returns normally having issued, after whatever
the handle had issued before, exactly one matrix multiply per sample i in
[0, in_n), reading x at offset i*C*H*W and writing y at offset i*K*out_h*out_w,
and no unfold. -/
theorem GEMM_1x1_filter_needs_no_workspace (env : Env) (cd : ConvolutionDescriptor)
    (handle : Handle) (xDesc : TensorDescriptor) (x : Data_t) (wDesc : TensorDescriptor)
    (w : Data_t) (yDesc : TensorDescriptor) (y : Data_t)
    (in_n in_c in_h in_w wei_n out_n out_c out_h out_w : Int)
    (hgemm : env.MLOPEN_USE_TINYGEMM = true)
    (hx : x ≠ none) (hw : w ≠ none) (hy : y ≠ none)
    (hxl : xDesc.lens = [in_n, in_c, in_h, in_w]) (hwl : wDesc.lens = [wei_n, in_c, 1, 1])
    (hyl : yDesc.lens = [out_n, out_c, out_h, out_w])
    (hty : xDesc.type = yDesc.type) (htw : xDesc.type = wDesc.type) :
    (∀ (h0 : Handle) (workSpace : Data_t) (workSpaceSize : Nat) (exhaustiveSearch : Bool)
        (R : List PerfField) (h1 : Handle),
      FindConvFwdAlgorithm_candidates env cd h0 xDesc x wDesc w yDesc workSpace workSpaceSize
        exhaustiveSearch = (Except.ok R, h1) →
      (∃ t, R.head? = some ⟨"mlopenConvolutionFwdAlgoGEMM", t, 0⟩) ∧
      ∀ r ∈ R, r.workspace = 0) ∧
    (ConvolutionForward env cd handle xDesc x wDesc w
      mlopenConvFwdAlgorithm_t.mlopenConvolutionFwdAlgoGEMM yDesc y none 0).1 = Except.ok () ∧
    (ConvolutionForward env cd handle xDesc x wDesc w
      mlopenConvFwdAlgorithm_t.mlopenConvolutionFwdAlgoGEMM yDesc y none 0).2.log
      = handle.log ++ (List.range in_n.toNat).map (fun i =>
          Event.RunGemm ⟨"mlopenConvolutionFwdAlgoGEMM", env.gemmConfigFwd xDesc wDesc yDesc⟩
            x w y (offset4 i in_c in_h in_w) 0 (offset4 i wei_n out_h out_w)) := by
  refine ⟨?_, ?_, ?_⟩
  · intro h0 workSpace workSpaceSize exhaustiveSearch R h1 hR
    unfold FindConvFwdAlgorithm_candidates at hR
    simp only [hxl, hwl, hyl, tie4] at hR
    obtain ⟨t, ht⟩ := FindConvFwdAlgorithm_direct_records _ _ _ _ _ _ _ _ _ _ _ _ hR
    have hg : ∀ (hh : Handle) (tmp : Data_t),
        (FindConvFwdAlgorithm_gemm env cd hh xDesc x wDesc w yDesc tmp workSpace
          workSpaceSize in_n in_c in_h in_w 1 1 out_h out_w).1
        = [⟨"mlopenConvolutionFwdAlgoGEMM", (in_n : ℚ) *
            ((⟨"mlopenConvolutionFwdAlgoGEMM", env.gemmConfigFwd xDesc wDesc yDesc⟩ :
              GemmGeometry).RunGemm env (GemmGeometry.FindSolution hh x w tmp)
                x w tmp 0 0 0).GetKernelTime, 0⟩] := by
      intro hh tmp
      unfold FindConvFwdAlgorithm_gemm
      simp [hgemm]
    rw [ht]
    rcases FindConvFwdAlgorithm_winograd_records env cd
      (FindConvFwdAlgorithm_gemm env cd
        (h0.Create (toSizeT yDesc.GetElementSize * sizeof_GetType % 18446744073709551616)).2
        xDesc x wDesc w yDesc
        (some (h0.Create
          (toSizeT yDesc.GetElementSize * sizeof_GetType % 18446744073709551616)).1)
        workSpace workSpaceSize in_n in_c in_h in_w 1 1 out_h out_w)
      xDesc x wDesc w yDesc
      (some (h0.Create
        (toSizeT yDesc.GetElementSize * sizeof_GetType % 18446744073709551616)).1)
      with hwn | ⟨tw, hwn⟩ <;>
    rw [hwn, hg] <;>
    refine ⟨⟨_, rfl⟩, ?_⟩ <;>
    simp
  · unfold ConvolutionForward
    simp [hx, hw, hy, TensorDescriptor.GetSize, TensorDescriptor.GetType,
      TensorDescriptor.GetLength, hxl, hwl, hyl, ← hty, ← htw, tie4, hgemm]
  · unfold ConvolutionForward
    simp only [hx, hw, hy, TensorDescriptor.GetSize, TensorDescriptor.GetType,
      TensorDescriptor.GetLength, hxl, hwl, hyl, ← hty, ← htw, tie4, hgemm]
    simp [ConvolutionForward_gemmLoop_1x1_log]

/-- Witness for C9: a batch of two samples, three input and eight output
channels, 4x4 images, a 1x1 filter: two matrix multiplies on x, at input
offsets 0 and 48 and output offsets 0 and 128. -/
theorem GEMM_1x1_filter_needs_no_workspace_witness :
    (ConvolutionForward sampleEnv sampleConv sampleHandle sample1x1X (buf 0) sample1x1W
      (buf 1) mlopenConvFwdAlgorithm_t.mlopenConvolutionFwdAlgoGEMM sample1x1Y (buf 2)
      none 0).1 = Except.ok () ∧
    (ConvolutionForward sampleEnv sampleConv sampleHandle sample1x1X (buf 0) sample1x1W
      (buf 1) mlopenConvFwdAlgorithm_t.mlopenConvolutionFwdAlgoGEMM sample1x1Y (buf 2)
      none 0).2.log
      = [Event.RunGemm ⟨"mlopenConvolutionFwdAlgoGEMM", "g"⟩ (buf 0) (buf 1) (buf 2) 0 0 0,
         Event.RunGemm ⟨"mlopenConvolutionFwdAlgoGEMM", "g"⟩ (buf 0) (buf 1) (buf 2)
           48 0 128] := by
  have h := (GEMM_1x1_filter_needs_no_workspace sampleEnv sampleConv sampleHandle
    sample1x1X (buf 0) sample1x1W (buf 1) sample1x1Y (buf 2) 2 3 4 4 8 2 8 4 4 rfl
    (by simp [buf]) (by simp [buf]) (by simp [buf]) rfl rfl rfl rfl rfl).2
  refine ⟨h.1, ?_⟩
  rw [h.2]
  simp [List.range, List.range.loop, offset4, imul, wrap32, sampleEnv, sampleHandle]

/-! ## Direct backward weights with an undersized workspace -/

/-- C10 (as amended): for a backward-weights problem that passes validation,
passes the shape guard of the Direct branch and whose Direct constructor
reports more than one kernel, ConvolutionBackwardWeights with the Direct
algorithm, any workSpace (null or not) and workSpaceSize = W - 1, one byte
below the required W bytes, throws an exception that carries only the message "Workspace is requried" (no
status), having done nothing but reset the device timer: no kernel has been
looked up or launched. -/
theorem ConvolutionBackwardWeights_direct_undersized_workspace (env : Env)
    (cd : ConvolutionDescriptor) (handle : Handle) (dyDesc : TensorDescriptor) (dy : Data_t)
    (xDesc : TensorDescriptor) (x : Data_t) (dwDesc : TensorDescriptor) (dw : Data_t)
    (workSpace : Data_t) (workSpaceSize : Nat)
    (in_n in_c in_h in_w wei_n wei_c wei_h wei_w out_c out_h out_w : Int)
    (hx : x ≠ none) (hdw : dw ≠ none) (hdy : dy ≠ none)
    (hxl : xDesc.lens = [in_n, in_c, in_h, in_w])
    (hwl : dwDesc.lens = [wei_n, wei_c, wei_h, wei_w])
    (hyl : dyDesc.lens = [in_n, out_c, out_h, out_w])
    (htw : dyDesc.type = dwDesc.type) (htx : dyDesc.type = xDesc.type)
    (hguard : bwdWeightsDirectGuard in_h in_w wei_h wei_w = true)
    (hstages : 1 < (env.mloConstruct (bwdWeightsExecParams dyDesc xDesc dwDesc)).kernelsInfo.length)
    (hsize : workSpaceSize + 1 = env.BackwardWeightsGetWorkSpaceSizeDirect cd dyDesc xDesc dwDesc) :
    ConvolutionBackwardWeights env cd handle dyDesc dy xDesc x
      mlopenConvBwdWeightsAlgorithm_t.mlopenConvolutionBwdWeightsAlgoDirect dwDesc dw
      workSpace workSpaceSize
      = (Except.error (Abort.thrown ⟨none, "Workspace is requried"⟩), handle.ResetKernelTime) ∧
    handle.ResetKernelTime.log = handle.log ∧
    handle.ResetKernelTime.cache = handle.cache := by
  refine ⟨?_, rfl, rfl⟩
  have hlt : workSpaceSize < env.BackwardWeightsGetWorkSpaceSizeDirect cd dyDesc xDesc dwDesc := by
    omega
  have hne : ¬ (env.mloConstruct (bwdWeightsExecParams dyDesc xDesc dwDesc)).kernelsInfo.length
      = 1 := by omega
  unfold bwdWeightsExecParams at hne
  unfold ConvolutionBackwardWeights
  simp only [hx, hdw, hdy, TensorDescriptor.GetSize, TensorDescriptor.GetType,
    TensorDescriptor.GetLength, hxl, hwl, hyl, ← htw, ← htx, tie4, hguard]
  simp [hne, hlt]

/-- C10 (counterexample): dy = (1,8,32,32), x = (1,3,32,32), dw = (8,3,3,3), a
Direct constructor reporting two kernels, required workspace 100 bytes, a
non-null workSpace of 99 bytes: the call does not end with a BadParm
exception. -/
theorem ConvolutionBackwardWeights_direct_undersized_not_BadParm :
    1 < (sampleEnvTwoStage.mloConstruct
      (bwdWeightsExecParams sampleY sampleX sampleW)).kernelsInfo.length ∧
    sampleEnvTwoStage.BackwardWeightsGetWorkSpaceSizeDirect sampleConv sampleY sampleX sampleW
      = 100 ∧
    ¬ ∃ msg, (ConvolutionBackwardWeights sampleEnvTwoStage sampleConv sampleHandle sampleY
      (buf 0) sampleX (buf 1)
      mlopenConvBwdWeightsAlgorithm_t.mlopenConvolutionBwdWeightsAlgoDirect sampleW (buf 2)
      (buf 3) 99).1
      = Except.error (Abort.thrown ⟨some mlopenStatus_t.mlopenStatusBadParm, msg⟩) := by
  refine ⟨by simp [sampleEnvTwoStage], rfl, ?_⟩
  simp [ConvolutionBackwardWeights, sampleEnvTwoStage, sampleEnv, sampleX, sampleY, sampleW,
    buf, TensorDescriptor.GetSize, TensorDescriptor.GetType, TensorDescriptor.GetLength, tie4,
    bwdWeightsDirectGuard, imul, wrap32]

/-- Witness for C10 (as amended): the two-kernel sample with 99 of the 100
bytes required. -/
theorem ConvolutionBackwardWeights_direct_undersized_workspace_witness :
    ConvolutionBackwardWeights sampleEnvTwoStage sampleConv sampleHandle sampleY (buf 0)
      sampleX (buf 1) mlopenConvBwdWeightsAlgorithm_t.mlopenConvolutionBwdWeightsAlgoDirect
      sampleW (buf 2) (buf 3) 99
      = (Except.error (Abort.thrown ⟨none, "Workspace is requried"⟩),
          sampleHandle.ResetKernelTime) :=
  (ConvolutionBackwardWeights_direct_undersized_workspace sampleEnvTwoStage sampleConv
    sampleHandle sampleY (buf 0) sampleX (buf 1) sampleW (buf 2) (buf 3) 99
    1 3 32 32 8 3 3 3 8 32 32 (by simp [buf]) (by simp [buf]) (by simp [buf]) rfl rfl rfl
    rfl rfl (by simp [bwdWeightsDirectGuard, imul, wrap32])
    (by simp [sampleEnvTwoStage]) rfl).1

/-! ## Rank below 3 in the dispatchers -/

/-- C19 (failing input): with three descriptors of rank 0, equal type and
non-null buffers, each of the three dispatchers reads a dimension length out of
range in its validation prologue instead of reporting BadParm; with rank 1
ConvolutionBackwardData does the same (as ConvolutionForward does), while
ConvolutionBackwardWeights, which reads index 0 only, reports BadParm. -/
theorem dispatchers_read_lengths_before_rank_check (fa : mlopenConvFwdAlgorithm_t)
    (wa : mlopenConvBwdWeightsAlgorithm_t) :
    ConvolutionForward sampleEnv sampleConv sampleHandle sampleRank0 (buf 0) sampleRank0
      (buf 1) fa sampleRank0 (buf 2) none 0
      = (Except.error (Abort.undefined "GetLengths()[1]"), sampleHandle) ∧
    ConvolutionBackwardData sampleEnv sampleHandle sampleRank0 (buf 0) sampleRank0 (buf 1)
      sampleRank0 (buf 2)
      = (Except.error (Abort.undefined "GetLengths()[i]"), sampleHandle) ∧
    ConvolutionBackwardWeights sampleEnv sampleConv sampleHandle sampleRank0 (buf 0)
      sampleRank0 (buf 1) wa sampleRank0 (buf 2) none 0
      = (Except.error (Abort.undefined "GetLengths()[0]"), sampleHandle) ∧
    ConvolutionBackwardData sampleEnv sampleHandle sampleRank1 (buf 0) sampleRank1 (buf 1)
      sampleRank1 (buf 2)
      = (Except.error (Abort.undefined "GetLengths()[i]"), sampleHandle) ∧
    ConvolutionBackwardWeights sampleEnv sampleConv sampleHandle sampleRank1 (buf 0)
      sampleRank1 (buf 1) wa sampleRank1 (buf 2) none 0
      = (Except.error throwBadParm, sampleHandle) := by
  refine ⟨?_, ?_, ?_, ?_, ?_⟩
  · simp [ConvolutionForward, sampleRank0, buf, TensorDescriptor.GetSize,
      TensorDescriptor.GetType, TensorDescriptor.GetLength]
  · simp [ConvolutionBackwardData, sampleRank0, buf, TensorDescriptor.GetSize,
      TensorDescriptor.GetType, TensorDescriptor.GetLength]
  · simp [ConvolutionBackwardWeights, sampleRank0, buf, TensorDescriptor.GetSize,
      TensorDescriptor.GetType, TensorDescriptor.GetLength]
  · simp [ConvolutionBackwardData, sampleRank1, buf, TensorDescriptor.GetSize,
      TensorDescriptor.GetType, TensorDescriptor.GetLength]
  · simp [ConvolutionBackwardWeights, sampleRank1, buf, TensorDescriptor.GetSize,
      TensorDescriptor.GetType, TensorDescriptor.GetLength]

theorem wrap32_of_range (v : Int) (h0 : 0 ≤ v) (h1 : v < 2147483648) : wrap32 v = v := by
  unfold wrap32
  omega

theorem toSizeT_of_nat (m : Nat) (h : m < 18446744073709551616) : toSizeT (m : Int) = m := by
  unfold toSizeT
  omega

theorem ceil_quarter (m : Nat) : ⌈(m : ℚ) / 4⌉₊ = (m + 3) / 4 := by
  apply le_antisymm
  · rw [Nat.ceil_le]
    rw [div_le_iff₀ (by norm_num)]
    have h : m ≤ (m + 3) / 4 * 4 := by omega
    exact_mod_cast h
  · by_contra hlt
    push_neg at hlt
    have h1 : ⌈(m : ℚ) / 4⌉₊ + 1 ≤ (m + 3) / 4 := hlt
    have h2 : (m : ℚ) / 4 ≤ ⌈(m : ℚ) / 4⌉₊ := Nat.le_ceil _
    rw [div_le_iff₀ (by norm_num)] at h2
    have h3 : m ≤ ⌈(m : ℚ) / 4⌉₊ * 4 := by exact_mod_cast h2
    omega

theorem ConvolutionBackwardBias_ok (env : Env) (handle : Handle)
    (dyDesc : TensorDescriptor) (dy : Data_t) (dbDesc : TensorDescriptor) (db : Data_t)
    (out_n out_c out_h out_w stride_n stride_c stride_h stride_w b0 : Int)
    (rest : List Int)
    (hlens : dyDesc.lens = [out_n, out_c, out_h, out_w])
    (hstr : dyDesc.strides = [stride_n, stride_c, stride_h, stride_w])
    (hdb : dbDesc.lens = b0 :: out_c :: rest) (hdy : dy ≠ none) (hdbn : db ≠ none) :
    ConvolutionBackwardBias env handle dyDesc dy dbDesc db
      = (Except.ok (),
          (handle.GetKernel "mlopenConvolutionBwdBias" "" "MLOpenConvBwdBias.cl"
            "MLOpenConvBwdB" [256, 1, 1] [256, toSizeT out_c, 1]
            (bwdBiasParams out_n out_h out_w stride_n stride_c
              ((toSizeT (imul out_w out_h) + 3) % 18446744073709551616 / 4)
              (toSizeT (imul out_w out_h) - toSizeT (imul out_w out_h) / 4 * 4))).2.Launch env
          (handle.GetKernel "mlopenConvolutionBwdBias" "" "MLOpenConvBwdBias.cl"
            "MLOpenConvBwdB" [256, 1, 1] [256, toSizeT out_c, 1]
            (bwdBiasParams out_n out_h out_w stride_n stride_c
              ((toSizeT (imul out_w out_h) + 3) % 18446744073709551616 / 4)
              (toSizeT (imul out_w out_h) - toSizeT (imul out_w out_h) / 4 * 4))).1
          [] [dy, db]) := by
  unfold ConvolutionBackwardBias
  simp only [hdy, hdbn, or_self, if_false, TensorDescriptor.GetLength, hlens, hdb, hstr, tie4,
    List.get?_cons_succ, List.get?_cons_zero, ne_eq, not_true_eq_false]
  rfl

/-- For a 4-D output gradient whose map size out_w*out_h = m fits a 32-bit int
and a bias descriptor of rank at least 2, ConvolutionBackwardBias fails with
BadParm exactly when dy or db is null or the channel lengths differ; otherwise
it returns normally having asked the kernel cache for the plan with local size
(256,1,1), global size (256, out_c, 1) and flags in which MLO_WK_SIZE =
ceil(m/4) and MLO_N_PIX_OFF = m mod 4, and having launched the plan the cache
returned on (dy, db); that plan is the requested one only when the cache held
none under the pair.  The two constants satisfy
4*floor(m/4) + MLO_N_PIX_OFF = m, MLO_N_PIX_OFF < 4 and
m <= 4*MLO_WK_SIZE < m + 4. -/
theorem ConvolutionBackwardBias_work_size (env : Env) (handle : Handle)
    (dyDesc : TensorDescriptor) (dy : Data_t) (dbDesc : TensorDescriptor) (db : Data_t)
    (out_n out_c out_h out_w stride_n stride_c stride_h stride_w b0 b1 : Int)
    (rest : List Int) (m : Nat)
    (hlens : dyDesc.lens = [out_n, out_c, out_h, out_w])
    (hstr : dyDesc.strides = [stride_n, stride_c, stride_h, stride_w])
    (hdb : dbDesc.lens = b0 :: b1 :: rest)
    (hm : (m : Int) = out_w * out_h) (hno : m < 2147483648) :
    ((ConvolutionBackwardBias env handle dyDesc dy dbDesc db).1 = Except.error throwBadParm
      ↔ (dy = none ∨ db = none ∨ out_c ≠ b1)) ∧
    (dy ≠ none → db ≠ none → out_c = b1 →
      ConvolutionBackwardBias env handle dyDesc dy dbDesc db
        = (Except.ok (),
            (handle.GetKernel "mlopenConvolutionBwdBias" "" "MLOpenConvBwdBias.cl"
              "MLOpenConvBwdB" [256, 1, 1] [256, toSizeT out_c, 1]
              (bwdBiasParams out_n out_h out_w stride_n stride_c
                ⌈(m : ℚ) / 4⌉₊ (m % 4))).2.Launch env
            (handle.GetKernel "mlopenConvolutionBwdBias" "" "MLOpenConvBwdBias.cl"
              "MLOpenConvBwdB" [256, 1, 1] [256, toSizeT out_c, 1]
              (bwdBiasParams out_n out_h out_w stride_n stride_c
                ⌈(m : ℚ) / 4⌉₊ (m % 4))).1 [] [dy, db])) ∧
    (handle.find "mlopenConvolutionBwdBias" "" = none →
      (handle.GetKernel "mlopenConvolutionBwdBias" "" "MLOpenConvBwdBias.cl"
        "MLOpenConvBwdB" [256, 1, 1] [256, toSizeT out_c, 1]
        (bwdBiasParams out_n out_h out_w stride_n stride_c ⌈(m : ℚ) / 4⌉₊ (m % 4))).1
      = ⟨"MLOpenConvBwdBias.cl", "MLOpenConvBwdB", [256, 1, 1], [256, toSizeT out_c, 1],
          bwdBiasParams out_n out_h out_w stride_n stride_c ⌈(m : ℚ) / 4⌉₊ (m % 4)⟩) ∧
    (0 ≤ out_c → out_c < 2147483648 → (toSizeT out_c : Int) = out_c) ∧
    4 * (m / 4) + m % 4 = m ∧ m % 4 < 4 ∧
    m ≤ 4 * ⌈(m : ℚ) / 4⌉₊ ∧ 4 * ⌈(m : ℚ) / 4⌉₊ < m + 4 := by
  have himul : imul out_w out_h = (m : Int) := by
    unfold imul
    rw [← hm]
    exact wrap32_of_range _ (by omega) (by omega)
  have hsz : toSizeT (imul out_w out_h) = m := by
    rw [himul]; exact toSizeT_of_nat m (by omega)
  have hoff : m - m / 4 * 4 = m % 4 := by omega
  rw [ceil_quarter]
  refine ⟨?_, ?_, ?_, ?_, by omega, by omega, by omega, by omega⟩
  · unfold ConvolutionBackwardBias
    by_cases hnull : dy = none ∨ db = none
    · rw [if_pos hnull]
      simp only [true_iff]
      rcases hnull with h | h
      · exact Or.inl h
      · exact Or.inr (Or.inl h)
    · rw [if_neg hnull]
      simp only [TensorDescriptor.GetLength, hlens, hdb, hstr, tie4, List.get?_cons_succ,
        List.get?_cons_zero]
      by_cases hc : out_c = b1
      · simp [hc, throwBadParm]
        exact ⟨fun h => hnull (Or.inl h), fun h => hnull (Or.inr h)⟩
      · simp [hc]
  · intro hdy hdbn hc
    subst hc
    have h := ConvolutionBackwardBias_ok env handle dyDesc dy dbDesc db out_n out_c out_h
      out_w stride_n stride_c stride_h stride_w b0 rest hlens hstr hdb hdy hdbn
    rw [hsz, hoff] at h
    have hal2 : (m + 3) % 18446744073709551616 / 4 = (m + 3) / 4 := by omega
    rw [hal2] at h
    exact h
  · intro hfind
    unfold Handle.GetKernel
    rw [hfind]
  · intro h h2
    unfold toSizeT
    omega

set_option maxRecDepth 100000 in
theorem sample_bias_params :
    bwdBiasParams 1 5 3 120 15 4 3 = samplePlan5x3.parms := by
  decide

/-- On a fresh handle, a 5x3 map (m = 15): work size 4, pixel offset 3, global
size (256, 8, 1). -/
theorem ConvolutionBackwardBias_work_size_fresh :
    (ConvolutionBackwardBias sampleEnv sampleHandle sampleY5x3 (buf 0) sampleBias (buf 1)).1
      = Except.ok () ∧
    (ConvolutionBackwardBias sampleEnv sampleHandle sampleY5x3 (buf 0) sampleBias (buf 1)).2.log
      = [Event.Compile "mlopenConvolutionBwdBias" "" samplePlan5x3,
         Event.Launch samplePlan5x3 [] [buf 0, buf 1]] := by
  have h := (ConvolutionBackwardBias_work_size sampleEnv sampleHandle sampleY5x3 (buf 0)
    sampleBias (buf 1) 1 8 5 3 120 15 3 1 1 8 [1, 1] 15 rfl rfl rfl (by norm_num)
    (by norm_num)).2.1 (by simp [buf]) (by simp [buf]) rfl
  have hc : ⌈((15 : Nat) : ℚ) / 4⌉₊ = 4 := by rw [ceil_quarter]
  rw [hc] at h
  have hp : bwdBiasParams 1 5 3 120 15 4 (15 % 4) = samplePlan5x3.parms := sample_bias_params
  rw [hp] at h
  rw [h]
  constructor
  · rfl
  · simp [Handle.GetKernel, Handle.find, sampleHandle, Handle.Launch, Handle.run, toSizeT,
      samplePlan5x3]

/-! ## The kernel-cache pair of ConvolutionBackwardBias -/

/-! ## Keys used by the searches and by the dispatchers -/

/-- C15 (failing input): padding 2 and stride 2, a fingerprint that depends on
them.  The backward-data search registers its kernel under
("mlopenConvolutionBwdDataAlgoDirect", "bwd-custom"); ConvolutionBackwardData,
run next on the same handle for the same tensors, looks up
("mlopenConvolutionBwdDataAlgoDirect", "bwd-pad0-stride1") and finds nothing.
The forward Direct pair, for which both sides pass the convolution parameters
to the constructor, is found. -/
theorem ConvolutionBackwardData_looks_up_other_key :
    (FindConvBwdDataAlgorithm sampleEnvKeyed sampleConvStride2 sampleHandle sampleY (buf 0)
      sampleW (buf 1) sampleX (buf 2) 1 (some 0) (some sampleResults) false).outcome
      = Except.ok () ∧
    (FindConvBwdDataAlgorithm sampleEnvKeyed sampleConvStride2 sampleHandle sampleY (buf 0)
      sampleW (buf 1) sampleX (buf 2) 1 (some 0) (some sampleResults) false).handle.cache
      = [(("mlopenConvolutionBwdDataAlgoDirect", "bwd-custom"),
          ⟨"MLOpenConvDirUni.cl", "MLOpenConvUni", [64, 1, 1], [64, 1, 1], ""⟩)] ∧
    (ConvolutionBackwardData sampleEnvKeyed
      (FindConvBwdDataAlgorithm sampleEnvKeyed sampleConvStride2 sampleHandle sampleY (buf 0)
        sampleW (buf 1) sampleX (buf 2) 1 (some 0) (some sampleResults) false).handle
      sampleY (buf 0) sampleW (buf 1) sampleX (buf 2)).1
      = Except.error (Abort.missingKernel "mlopenConvolutionBwdDataAlgoDirect"
          "bwd-pad0-stride1") ∧
    (ConvolutionForward sampleEnvKeyed sampleConvStride2
      (FindConvFwdAlgorithm sampleEnvKeyed sampleConvStride2 sampleHandle sampleX (buf 0)
        sampleW (buf 1) sampleY (buf 2) 1 (some 0) (some sampleResults) none 0 false).handle
      sampleX (buf 0) sampleW (buf 1) mlopenConvFwdAlgorithm_t.mlopenConvolutionFwdAlgoDirect
      sampleY (buf 2) none 0).1 = Except.ok () := by
  refine ⟨?_, ?_, ?_, ?_⟩
  · simp [FindConvBwdDataAlgorithm, FindConvBwdDataAlgorithm_candidates, FindDirectKernel,
      runDirectKernels, updatePerfResults, copyPerfResults, sampleEnvKeyed, sampleEnv,
      sampleConvStride2, sampleHandle, sampleX, sampleY, sampleW, sampleResults, buf,
      Handle.Create, AutoEnableProfiling.ctor, AutoEnableProfiling.dtor,
      Handle.EnableProfiling, Handle.IsProfilingEnabled, Handle.ResetKernelTime,
      Handle.GetKernel, Handle.find, Handle.Launch, Handle.run, Handle.GetKernelTime]
  · simp [FindConvBwdDataAlgorithm, FindConvBwdDataAlgorithm_candidates, FindDirectKernel,
      runDirectKernels, updatePerfResults, copyPerfResults, sampleEnvKeyed, sampleEnv,
      sampleConvStride2, sampleHandle, sampleX, sampleY, sampleW, sampleResults, buf,
      Handle.Create, AutoEnableProfiling.ctor, AutoEnableProfiling.dtor,
      Handle.EnableProfiling, Handle.IsProfilingEnabled, Handle.ResetKernelTime,
      Handle.GetKernel, Handle.find, Handle.Launch, Handle.run, Handle.GetKernelTime]
  · simp [ConvolutionBackwardData, FindConvBwdDataAlgorithm,
      FindConvBwdDataAlgorithm_candidates, FindDirectKernel,
      runDirectKernels, updatePerfResults, copyPerfResults, sampleEnvKeyed, sampleEnv,
      sampleConvStride2, sampleHandle, sampleX, sampleY, sampleW, sampleResults, buf,
      Handle.Create, AutoEnableProfiling.ctor, AutoEnableProfiling.dtor,
      Handle.EnableProfiling, Handle.IsProfilingEnabled, Handle.ResetKernelTime,
      Handle.GetKernel, Handle.find, Handle.Launch, Handle.run, Handle.GetKernelTime,
      TensorDescriptor.GetSize, TensorDescriptor.GetType, TensorDescriptor.GetLength]
  · simp [ConvolutionForward, FindConvFwdAlgorithm, FindConvFwdAlgorithm_candidates,
      FindConvFwdAlgorithm_gemm, FindConvFwdAlgorithm_winograd, FindConvFwdAlgorithm_direct,
      FindFwdWinogradKernel, FindDirectKernel, tie4, std_sort,
      runDirectKernels, updatePerfResults, copyPerfResults, sampleEnvKeyed, sampleEnv,
      sampleConvStride2, sampleHandle, sampleX, sampleY, sampleW, sampleResults, buf,
      Handle.Create, AutoEnableProfiling.ctor, AutoEnableProfiling.dtor,
      Handle.EnableProfiling, Handle.IsProfilingEnabled, Handle.ResetKernelTime,
      Handle.GetKernel, Handle.find, Handle.Launch, Handle.run, Handle.GetKernelTime,
      TensorDescriptor.GetSize, TensorDescriptor.GetType, TensorDescriptor.GetLength]

/-! ## What the backward-weights search measures -/

/-- C16 (failing input): the backward-weights search for a 3x3 filter with a
null workspace, on a handle whose timer shows 7 from earlier work.  The record
accumulated for Direct carries time 7, and the commands issued during the call
are the creation of the throwaway buffer and the construction of one kernel:
nothing was launched. -/
theorem FindConvBwdWeightsAlgorithm_records_unlaunched_direct :
    sampleHandle.kernel_time = 7 ∧
    (FindConvBwdWeightsAlgorithm_candidates sampleEnv sampleConv
      (AutoEnableProfiling.ctor (sampleHandle.Create 864).2).2 (some (Buffer.created 0))
      sampleY (buf 0) sampleX (buf 1) sampleW none 0).1
      = Except.ok [⟨"mlopenConvolutionBwdWeightsAlgoDirect", 7, 0⟩] ∧
    (FindConvBwdWeightsAlgorithm sampleEnv sampleConv sampleHandle sampleY (buf 0) sampleX
      (buf 1) sampleW (buf 2) 2 (some 0) (some sampleResults) none 0).handle.log
      = [Event.Create 864 (Buffer.created 0),
         Event.Compile "mlopenConvolutionBwdWeightsAlgoDirect_Main" "key"
           ⟨"main.cl", "main", [64, 1, 1], [64, 1, 1], ""⟩] := by
  refine ⟨rfl, ?_, ?_⟩
  · simp [FindConvBwdWeightsAlgorithm_candidates, FindConvBwdWeightsAlgorithm_gemm,
      FindConvBwdWeightsAlgorithm_direct, bwdWeightsDirectGuard, imul, wrap32,
      sampleEnv, sampleConv, sampleHandle, sampleX, sampleW, sampleY, buf, tie4,
      AutoEnableProfiling.ctor, Handle.EnableProfiling, Handle.Create, Handle.GetKernelTime,
      Handle.GetKernel, Handle.find, sampleKernelInfo]
  · simp [FindConvBwdWeightsAlgorithm, FindConvBwdWeightsAlgorithm_candidates,
      FindConvBwdWeightsAlgorithm_gemm, std_sort, sampleResults,
      FindConvBwdWeightsAlgorithm_direct, bwdWeightsDirectGuard, imul, wrap32,
      sampleEnv, sampleConv, AutoEnableProfiling.dtor, sampleHandle, sampleX, sampleW,
      sampleY, buf, tie4, AutoEnableProfiling.ctor, Handle.EnableProfiling, Handle.Create,
      Handle.GetKernelTime, Handle.GetKernel, Handle.find, sampleKernelInfo,
      Handle.ResetKernelTime, TensorDescriptor.GetElementSize, toSizeT, sizeof_GetType]

/-! ## Time reported after a GEMM execution -/

/-- C17 (failing input): profiling enabled, the timer showing 7 from earlier
work, one sample, a 1x3 filter, a sufficient workspace.  ConvolutionForward
with the GEMM algorithm returns normally with the handle exactly as it was: no
unfold and no matrix multiply was issued for the sample, and the reported time
is still 7. -/
theorem ConvolutionForward_gemm_one_by_three_reports_stale_time :
    sampleHandleProfiling.IsProfilingEnabled = true ∧
    sampleHandleProfiling.GetKernelTime = 7 ∧
    ConvolutionForward sampleEnv sampleConv sampleHandleProfiling sampleX (buf 0) sampleWideW
      (buf 1) mlopenConvFwdAlgorithm_t.mlopenConvolutionFwdAlgoGEMM sampleY (buf 2)
      (buf 3) 200 = (Except.ok (), sampleHandleProfiling) ∧
    sampleHandleProfiling.log = [] := by
  refine ⟨rfl, rfl, ?_, rfl⟩
  simp [ConvolutionForward, ConvolutionForward_gemmStep, sampleWideW, sampleX,
    sampleY, sampleEnv, sampleConv, sampleHandleProfiling, buf, TensorDescriptor.GetSize,
    TensorDescriptor.GetType, TensorDescriptor.GetLength, tie4,
    List.range, List.range.loop]

/-! ## FindDirectKernel always delivers -/

theorem FindDirectKernel_total (env : Env) (cd : ConvolutionDescriptor) (handle : Handle)
    (xDesc wDesc yDesc : TensorDescriptor) (kernels : List KernelInvoke)
    (exhaustiveSearch : Bool) (direction : Int)
    (hn : (env.mloConstruct (directFindParams cd xDesc wDesc yDesc exhaustiveSearch
        direction)).kernelFile = "MLOpenConvFwd_LxL_11.cl" →
      1 ≤ (env.mloConstruct (directFindParams cd xDesc wDesc yDesc exhaustiveSearch
        direction)).kernelsInfo.length) :
    ∃ (added : List KernelInvoke) (h1 : Handle),
      FindDirectKernel env cd handle xDesc wDesc yDesc kernels exhaustiveSearch direction
        = (Except.ok 0, kernels ++ added, h1) ∧
      added.length =
        (if (env.mloConstruct (directFindParams cd xDesc wDesc yDesc exhaustiveSearch
            direction)).kernelFile = "MLOpenConvFwd_LxL_11.cl"
         then min (env.mloConstruct (directFindParams cd xDesc wDesc yDesc exhaustiveSearch
            direction)).kernelsInfo.length 2
         else 1) := by
  unfold directFindParams at hn ⊢
  unfold FindDirectKernel
  simp only
  by_cases hf : (env.mloConstruct
      { family := ConstructFamily.direct2D, direction := direction,
        doSearch := some exhaustiveSearch, saveSearchRequest := some true,
        generalCompOptions := some "", stream := true, outputDesc := some yDesc,
        inputDesc := some xDesc, weightDesc := some wDesc,
        convDescr := some cd }).kernelFile = "MLOpenConvFwd_LxL_11.cl"
  · have hlen := hn hf
    simp only [hf, ne_eq, not_true_eq_false, if_false, if_true]
    split
    · rename_i heq
      rw [heq] at hlen
      simp at hlen
    · rename_i bwd_wrw heq
      exact ⟨[_], _, rfl, by rw [heq]; rfl⟩
    · rename_i a b rest heq
      refine ⟨[_, _], _, by rw [List.append_assoc]; rfl, ?_⟩
      rw [heq]
      simp
  · simp only [hf, ne_eq, not_false_eq_true, if_true, if_false]
    exact ⟨[_], _, rfl, rfl⟩

theorem FindConvFwdAlgorithm_candidates_total (env : Env) (cd : ConvolutionDescriptor)
    (handle : Handle) (xDesc : TensorDescriptor) (x : Data_t) (wDesc : TensorDescriptor)
    (w : Data_t) (yDesc : TensorDescriptor) (workSpace : Data_t) (workSpaceSize : Nat)
    (exhaustiveSearch : Bool)
    (hx4 : xDesc.lens.length = 4) (hw4 : wDesc.lens.length = 4) (hy4 : yDesc.lens.length = 4)
    (hn : (env.mloConstruct (directFindParams cd xDesc wDesc yDesc exhaustiveSearch
        1)).kernelFile = "MLOpenConvFwd_LxL_11.cl" →
      1 ≤ (env.mloConstruct (directFindParams cd xDesc wDesc yDesc exhaustiveSearch
        1)).kernelsInfo.length) :
    ∃ (R : List PerfField) (h1 : Handle) (t : ℚ),
      FindConvFwdAlgorithm_candidates env cd handle xDesc x wDesc w yDesc workSpace
        workSpaceSize exhaustiveSearch = (Except.ok R, h1) ∧
      (⟨"mlopenConvolutionFwdAlgoDirect", t, 0⟩ : PerfField) ∈ R := by
  obtain ⟨x0, x1, x2, x3, hxl⟩ : ∃ a b c d, xDesc.lens = [a, b, c, d] := by
    match hl : xDesc.lens, hx4 with
    | [a, b, c, d], _ => exact ⟨a, b, c, d, rfl⟩
  obtain ⟨w0, w1, w2, w3, hwl⟩ : ∃ a b c d, wDesc.lens = [a, b, c, d] := by
    match hl : wDesc.lens, hw4 with
    | [a, b, c, d], _ => exact ⟨a, b, c, d, rfl⟩
  obtain ⟨y0, y1, y2, y3, hyl⟩ : ∃ a b c d, yDesc.lens = [a, b, c, d] := by
    match hl : yDesc.lens, hy4 with
    | [a, b, c, d], _ => exact ⟨a, b, c, d, rfl⟩
  unfold FindConvFwdAlgorithm_candidates
  simp only [hxl, hwl, hyl, tie4]
  unfold FindConvFwdAlgorithm_direct
  obtain ⟨added, h1, hfd, _⟩ := FindDirectKernel_total env cd
    (FindConvFwdAlgorithm_winograd env cd
      (FindConvFwdAlgorithm_gemm env cd
        (handle.Create (toSizeT yDesc.GetElementSize * sizeof_GetType % 18446744073709551616)).2
        xDesc x wDesc w yDesc
        (some (handle.Create
          (toSizeT yDesc.GetElementSize * sizeof_GetType % 18446744073709551616)).1)
        workSpace workSpaceSize x0 x1 x2 x3 w2 w3 y2 y3)
      xDesc x wDesc w yDesc
      (some (handle.Create
        (toSizeT yDesc.GetElementSize * sizeof_GetType % 18446744073709551616)).1)).2
    xDesc wDesc yDesc [] exhaustiveSearch 1 hn
  rw [hfd]
  exact ⟨_, _, _, rfl, List.mem_append_right _ (List.mem_singleton_self _)⟩

/-- C18: FindDirectKernel has no non-applicable outcome.  It returns 0 and
appends exactly one kernel when the constructed program is not the
large-filter program; when it is, and the constructor reports n >= 1 kernels,
it appends min(n, 2) of them (one or two).  Consequently every
FindConvFwdAlgorithm call that passes validation (4-D tensors, a caller array
long enough for the count returned) records a Direct candidate, returns
normally and sets *returnedAlgoCount >= 1, and every FindConvBwdDataAlgorithm
call that passes validation returns exactly one record, whose algorithm is the
resolved Direct identifier and whose workspace is 0. -/
theorem FindDirectKernel_always_applicable (env : Env) (cd : ConvolutionDescriptor)
    (handle : Handle) (d1 d2 d3 : TensorDescriptor) (b1 b2 b3 : Data_t)
    (requestAlgoCount : Int) (cnt : Int) (results : List mlopenConvAlgoPerf_t)
    (workSpace : Data_t) (workSpaceSize : Nat) (exhaustiveSearch : Bool)
    (kernels : List KernelInvoke) (direction : Int) :
    (((env.mloConstruct (directFindParams cd d1 d2 d3 exhaustiveSearch direction)).kernelFile
        = "MLOpenConvFwd_LxL_11.cl" →
      1 ≤ (env.mloConstruct (directFindParams cd d1 d2 d3 exhaustiveSearch
        direction)).kernelsInfo.length) →
      ∃ (added : List KernelInvoke) (h1 : Handle),
        FindDirectKernel env cd handle d1 d2 d3 kernels exhaustiveSearch direction
          = (Except.ok 0, kernels ++ added, h1) ∧
        added.length =
          (if (env.mloConstruct (directFindParams cd d1 d2 d3 exhaustiveSearch
              direction)).kernelFile = "MLOpenConvFwd_LxL_11.cl"
           then min (env.mloConstruct (directFindParams cd d1 d2 d3 exhaustiveSearch
              direction)).kernelsInfo.length 2
           else 1)) ∧
    (b1 ≠ none → b2 ≠ none → b3 ≠ none → 1 ≤ requestAlgoCount →
      d1.lens.length = 4 → d2.lens.length = 4 → d3.lens.length = 4 →
      ((env.mloConstruct (directFindParams cd d1 d2 d3 exhaustiveSearch 1)).kernelFile
          = "MLOpenConvFwd_LxL_11.cl" →
        1 ≤ (env.mloConstruct (directFindParams cd d1 d2 d3 exhaustiveSearch
          1)).kernelsInfo.length) →
      (min requestAlgoCount 3).toNat ≤ results.length →
      ∃ (R : List PerfField) (h1 : Handle) (t : ℚ) (c : Int),
        FindConvFwdAlgorithm_candidates env cd (AutoEnableProfiling.ctor handle).2
          d1 b1 d2 b2 d3 workSpace workSpaceSize exhaustiveSearch = (Except.ok R, h1) ∧
        (⟨"mlopenConvolutionFwdAlgoDirect", t, 0⟩ : PerfField) ∈ R ∧
        (FindConvFwdAlgorithm env cd handle d1 b1 d2 b2 d3 b3 requestAlgoCount (some cnt)
          (some results) workSpace workSpaceSize exhaustiveSearch).outcome = Except.ok () ∧
        (FindConvFwdAlgorithm env cd handle d1 b1 d2 b2 d3 b3 requestAlgoCount (some cnt)
          (some results) workSpace workSpaceSize exhaustiveSearch).returnedAlgoCount = some c ∧
        1 ≤ c) ∧
    (b1 ≠ none → b2 ≠ none → b3 ≠ none → 1 ≤ requestAlgoCount →
      ((env.mloConstruct (directFindParams cd d3 d2 d1 exhaustiveSearch 0)).kernelFile
          = "MLOpenConvFwd_LxL_11.cl" →
        1 ≤ (env.mloConstruct (directFindParams cd d3 d2 d1 exhaustiveSearch
          0)).kernelsInfo.length) →
      results ≠ [] →
      ∃ (t : ℚ),
        (FindConvBwdDataAlgorithm env cd handle d1 b1 d2 b2 d3 b3 requestAlgoCount (some cnt)
          (some results) exhaustiveSearch).outcome = Except.ok () ∧
        (FindConvBwdDataAlgorithm env cd handle d1 b1 d2 b2 d3 b3 requestAlgoCount (some cnt)
          (some results) exhaustiveSearch).returnedAlgoCount = some 1 ∧
        (FindConvBwdDataAlgorithm env cd handle d1 b1 d2 b2 d3 b3 requestAlgoCount (some cnt)
          (some results) exhaustiveSearch).perfResults
          = some (⟨env.BwdDataAlgoResolver "mlopenConvolutionBwdDataAlgoDirect", t, 0⟩
              :: results.drop 1)) := by
  refine ⟨?_, ?_, ?_⟩
  · intro hn
    exact FindDirectKernel_total env cd handle d1 d2 d3 kernels exhaustiveSearch direction hn
  · intro hb1 hb2 hb3 hreq h1len h2len h3len hn hcap
    obtain ⟨R, h1, t, hR, hmem⟩ := FindConvFwdAlgorithm_candidates_total env cd
      (AutoEnableProfiling.ctor handle).2 d1 b1 d2 b2 d3 workSpace workSpaceSize
      exhaustiveSearch h1len h2len h3len hn
    have hne : R ≠ [] := List.ne_nil_of_mem hmem
    have hlen3 : R.length ≤ 3 := by
      have h := (FindConvFwdAlgorithm_candidates_order env cd _ d1 b1 d2 b2 d3 workSpace
        workSpaceSize exhaustiveSearch R h1 hR).length_le
      simpa using h
    have hpos : 1 ≤ R.length := List.length_pos.mpr hne
    have hcap2 : (min requestAlgoCount (R.length : Int)).toNat ≤ results.length := by omega
    refine ⟨R, h1, t, min requestAlgoCount (R.length : Int), hR, hmem, ?_, ?_, by omega⟩
    · rw [FindConvFwdAlgorithm_ok env cd handle d1 b1 d2 b2 d3 b3 requestAlgoCount
        cnt results workSpace workSpaceSize exhaustiveSearch R h1 hb1 hb2 hb3 hreq hR hne hcap2]
    · rw [FindConvFwdAlgorithm_ok env cd handle d1 b1 d2 b2 d3 b3 requestAlgoCount
        cnt results workSpace workSpaceSize exhaustiveSearch R h1 hb1 hb2 hb3 hreq hR hne hcap2]
  · intro hb1 hb2 hb3 hreq hn hres
    obtain ⟨added, h1, hfd, _⟩ := FindDirectKernel_total env cd
      (AutoEnableProfiling.ctor (handle.Create
        ((toSizeT d3.GetElementSize * sizeof_GetType) % 18446744073709551616)).2).2
      d3 d2 d1 [] exhaustiveSearch 0 hn
    have hmin : min requestAlgoCount ((1 : Nat) : Int) = 1 := by omega
    have hcap : (min requestAlgoCount
        (([(⟨"mlopenConvolutionBwdDataAlgoDirect",
          (runDirectKernels env b1 b2 (some (handle.Create
            ((toSizeT d3.GetElementSize * sizeof_GetType) % 18446744073709551616)).1)
            ([] ++ added) 0 h1).1, 0⟩ : PerfField)]).length : Int)).toNat ≤ results.length := by
      have : 1 ≤ results.length := List.length_pos.mpr hres
      simp only [List.length_singleton]
      omega
    have hu := updatePerfResults_eq env.BwdDataAlgoResolver _ requestAlgoCount results hcap
    simp only [List.length_singleton, hmin] at hu
    refine ⟨(runDirectKernels env b1 b2 (some (handle.Create
      ((toSizeT d3.GetElementSize * sizeof_GetType) % 18446744073709551616)).1)
      ([] ++ added) 0 h1).1, ?_, ?_, ?_⟩
    · unfold FindConvBwdDataAlgorithm
      simp only [hb1, hb2, hb3, or_self, if_false, not_lt.mpr hreq,
        FindConvBwdDataAlgorithm_candidates, hfd, if_true, hu]
      simp
    · unfold FindConvBwdDataAlgorithm
      simp only [hb1, hb2, hb3, or_self, if_false, not_lt.mpr hreq,
        FindConvBwdDataAlgorithm_candidates, hfd, if_true, hu]
      simp
    · unfold FindConvBwdDataAlgorithm
      simp only [hb1, hb2, hb3, or_self, if_false, not_lt.mpr hreq,
        FindConvBwdDataAlgorithm_candidates, hfd, if_true, hu]
      simp [toPerf]

/-- Witness for C18: the sample backward-data search with three records
requested returns one, Direct with workspace 0. -/
theorem FindDirectKernel_always_applicable_witness :
    ∃ t : ℚ,
      (FindConvBwdDataAlgorithm sampleEnv sampleConv sampleHandle sampleY (buf 0) sampleW
        (buf 1) sampleX (buf 2) 3 (some 0) (some sampleResults) false).outcome
        = Except.ok () ∧
      (FindConvBwdDataAlgorithm sampleEnv sampleConv sampleHandle sampleY (buf 0) sampleW
        (buf 1) sampleX (buf 2) 3 (some 0) (some sampleResults) false).returnedAlgoCount
        = some 1 ∧
      (FindConvBwdDataAlgorithm sampleEnv sampleConv sampleHandle sampleY (buf 0) sampleW
        (buf 1) sampleX (buf 2) 3 (some 0) (some sampleResults) false).perfResults
        = some [⟨0, t, 0⟩, ⟨9, 9, 9⟩] := by
  have h := (FindDirectKernel_always_applicable sampleEnv sampleConv sampleHandle sampleY
    sampleW sampleX (buf 0) (buf 1) (buf 2) 3 0 sampleResults none 0 false [] 0).2.2
    (by simp [buf]) (by simp [buf]) (by simp [buf]) (by norm_num)
    (by simp [sampleEnv, directFindParams]) (by simp [sampleResults])
  simpa [sampleEnv, sampleResults] using h

/-! ## Commands issued by the searches -/

theorem issued_refl (P : Event → Prop) (h : Handle) : Issued P h h :=
  ⟨rfl, [], by simp, by simp⟩

theorem issued_trans {P : Event → Prop} {h h1 h2 : Handle} (h01 : Issued P h h1)
    (h12 : Issued P h1 h2) : Issued P h h2 := by
  obtain ⟨p1, e1, l1, a1⟩ := h01
  obtain ⟨p2, e2, l2, a2⟩ := h12
  refine ⟨p2.trans p1, e1 ++ e2, by rw [l2, l1, List.append_assoc], ?_⟩
  intro e he
  rcases List.mem_append.mp he with he | he
  · exact a1 e he
  · exact a2 e he

theorem issued_of_log {P : Event → Prop} {h h1 : Handle} (hp : h1.profiling = h.profiling)
    (e : Event) (hl : h1.log = h.log ++ [e]) (he : P e) : Issued P h h1 :=
  ⟨hp, [e], hl, by simpa using he⟩

theorem issued_of_same {P : Event → Prop} {h h1 : Handle} (hp : h1.profiling = h.profiling)
    (hl : h1.log = h.log) : Issued P h h1 :=
  ⟨hp, [], by simpa using hl, by simp⟩

theorem issued_run {P : Event → Prop} (env : Env) (h : Handle) (e : Event) (he : P e) :
    Issued P h (h.run env e) :=
  issued_of_log rfl e rfl he

theorem issued_create {P : Event → Prop} (h : Handle) (bytes : Nat)
    (he : P (Event.Create bytes (Buffer.created h.created))) :
    Issued P h (h.Create bytes).2 :=
  issued_of_log rfl _ rfl he

theorem issued_getKernel {P : Event → Prop} (h : Handle)
    (algorithm network_config program_name kernel_name : String) (vld vgd : List Nat)
    (parms : String) (he : ∀ a n k, P (Event.Compile a n k)) :
    Issued P h (h.GetKernel algorithm network_config program_name kernel_name vld vgd
      parms).2 := by
  unfold Handle.GetKernel
  split
  · exact issued_refl P h
  · exact issued_of_log rfl _ rfl (he _ _ _)

theorem issued_findSolution {P : Event → Prop} (h : Handle) (a b c : Data_t)
    (he : P (Event.FindSolution a b c)) : Issued P h (GemmGeometry.FindSolution h a b c) :=
  issued_of_log rfl _ rfl he

theorem issued_runGemm {P : Event → Prop} (env : Env) (gg : GemmGeometry) (h : Handle)
    (a b c : Data_t) (ao bo co : Int) (he : P (Event.RunGemm gg a b c ao bo co)) :
    Issued P h (gg.RunGemm env h a b c ao bo co) :=
  issued_run env h _ he

theorem issued_im2col {P : Event → Prop} (env : Env) (h : Handle) (src : Data_t) (off : Nat)
    (dims : List Int) (dst : Data_t) (he : P (Event.Im2Col src off dims dst)) :
    Issued P h (Im2ColGPU env h src off dims dst).2 :=
  issued_run env h _ he

theorem issued_launch {P : Event → Prop} (env : Env) (h : Handle) (k : KernelInvoke)
    (ints : List Int) (bufs : List Data_t) (he : P (Event.Launch k ints bufs)) :
    Issued P h (h.Launch env k ints bufs) :=
  issued_run env h _ he

theorem issued_runDirectKernels {P : Event → Prop} (env : Env) (a b out : Data_t)
    (he : ∀ k, P (Event.Launch k [0] [a, b, out])) (ks : List KernelInvoke) :
    ∀ (t : ℚ) (h : Handle), Issued P h (runDirectKernels env a b out ks t h).2 := by
  induction ks with
  | nil => intro t h; exact issued_refl P h
  | cons k ks ih =>
    intro t h
    unfold runDirectKernels
    exact issued_trans (issued_launch env h k [0] [a, b, out] (he k)) (ih _ _)

theorem issued_findDirectKernel {P : Event → Prop} (env : Env) (cd : ConvolutionDescriptor)
    (h : Handle) (xDesc wDesc yDesc : TensorDescriptor) (kernels : List KernelInvoke)
    (exhaustiveSearch : Bool) (direction : Int) (he : ∀ a n k, P (Event.Compile a n k)) :
    Issued P h (FindDirectKernel env cd h xDesc wDesc yDesc kernels exhaustiveSearch
      direction).2.2 := by
  unfold FindDirectKernel
  simp only
  split
  · exact issued_getKernel h _ _ _ _ _ _ _ he
  · split
    · exact issued_refl P h
    · exact issued_getKernel h _ _ _ _ _ _ _ he
    · exact issued_trans (issued_getKernel h _ _ _ _ _ _ _ he)
        (issued_getKernel _ _ _ _ _ _ _ _ he)

theorem issued_findFwdWinogradKernel {P : Event → Prop} (env : Env)
    (cd : ConvolutionDescriptor) (h : Handle) (xDesc wDesc yDesc : TensorDescriptor)
    (he : ∀ a n k, P (Event.Compile a n k)) :
    Issued P h (FindFwdWinogradKernel env cd h xDesc wDesc yDesc).2.2 := by
  unfold FindFwdWinogradKernel
  simp only
  split
  · exact issued_getKernel h _ _ _ _ _ _ _ he
  · exact issued_refl P h

theorem bench_compile (a b tmp ws : Data_t) (al n : String) (k : KernelInvoke) :
    BenchCommand a b tmp ws (Event.Compile al n k) := by
  simp [BenchCommand, Event.bufs, Event.target]

theorem bench_create (a b tmp ws : Data_t) (bytes : Nat) (buffer : Buffer) :
    BenchCommand a b tmp ws (Event.Create bytes buffer) := by
  simp [BenchCommand, Event.bufs, Event.target]

theorem bench_launch3 (a b tmp ws : Data_t) (k : KernelInvoke) (ints : List Int) :
    BenchCommand a b tmp ws (Event.Launch k ints [a, b, tmp]) := by
  simp [BenchCommand, Event.bufs, Event.target]

theorem bench_launch4 (a b tmp ws : Data_t) (k : KernelInvoke) (ints : List Int) :
    BenchCommand a b tmp ws (Event.Launch k ints [a, b, tmp, none]) := by
  simp [BenchCommand, Event.bufs, Event.target]

theorem bench_findSolution (a b tmp ws p q : Data_t)
    (hp : p = a ∨ p = b ∨ p = ws) (hq : q = a ∨ q = b ∨ q = ws) :
    BenchCommand a b tmp ws (Event.FindSolution p q tmp) := by
  refine ⟨?_, Or.inr (Or.inl rfl)⟩
  intro d hd
  simp only [Event.bufs, List.mem_cons, List.mem_singleton, List.not_mem_nil, or_false] at hd
  rcases hd with rfl | rfl | rfl
  · rcases hp with h | h | h <;> simp [h]
  · rcases hq with h | h | h <;> simp [h]
  · simp

theorem bench_runGemm (a b tmp ws p q : Data_t) (gg : GemmGeometry) (ao bo co : Int)
    (hp : p = a ∨ p = b ∨ p = ws) (hq : q = a ∨ q = b ∨ q = ws) :
    BenchCommand a b tmp ws (Event.RunGemm gg p q tmp ao bo co) := by
  refine ⟨?_, Or.inr (Or.inl rfl)⟩
  intro d hd
  simp only [Event.bufs, List.mem_cons, List.mem_singleton, List.not_mem_nil, or_false] at hd
  rcases hd with rfl | rfl | rfl
  · rcases hp with h | h | h <;> simp [h]
  · rcases hq with h | h | h <;> simp [h]
  · simp

theorem bench_im2col (a b tmp ws p : Data_t) (off : Nat) (dims : List Int)
    (hp : p = a ∨ p = b) :
    BenchCommand a b tmp ws (Event.Im2Col p off dims ws) := by
  refine ⟨?_, Or.inr (Or.inr ⟨rfl, rfl⟩)⟩
  intro d hd
  simp only [Event.bufs, List.mem_cons, List.mem_singleton, List.not_mem_nil, or_false] at hd
  rcases hd with rfl | rfl
  · rcases hp with h | h <;> simp [h]
  · simp

theorem issued_fwd_gemm (env : Env) (cd : ConvolutionDescriptor) (h0 : Handle)
    (xDesc : TensorDescriptor) (x : Data_t) (wDesc : TensorDescriptor) (w : Data_t)
    (yDesc : TensorDescriptor) (tmp_y workSpace : Data_t) (workSpaceSize : Nat)
    (in_n in_c in_h in_w wei_h wei_w out_h out_w : Int) :
    Issued (BenchCommand x w tmp_y workSpace) h0
      (FindConvFwdAlgorithm_gemm env cd h0 xDesc x wDesc w yDesc tmp_y workSpace
        workSpaceSize in_n in_c in_h in_w wei_h wei_w out_h out_w).2 := by
  unfold FindConvFwdAlgorithm_gemm
  simp only
  split
  · split
    · exact issued_trans
        (issued_findSolution h0 x w tmp_y
          (bench_findSolution _ _ _ _ _ _ (Or.inl rfl) (Or.inr (Or.inl rfl))))
        (issued_runGemm env _ _ x w tmp_y 0 0 0
          (bench_runGemm _ _ _ _ _ _ _ _ _ _ (Or.inl rfl) (Or.inr (Or.inl rfl))))
    · split
      · exact issued_trans
          (issued_trans
            (issued_im2col env h0 x 0 _ workSpace (bench_im2col _ _ _ _ _ _ _ (Or.inl rfl)))
            (issued_findSolution _ workSpace w tmp_y
              (bench_findSolution _ _ _ _ _ _ (Or.inr (Or.inr rfl)) (Or.inr (Or.inl rfl)))))
          (issued_runGemm env _ _ workSpace w tmp_y 0 0 0
            (bench_runGemm _ _ _ _ _ _ _ _ _ _ (Or.inr (Or.inr rfl)) (Or.inr (Or.inl rfl))))
      · exact issued_refl _ h0
  · exact issued_refl _ h0

theorem issued_fwd_winograd (env : Env) (cd : ConvolutionDescriptor)
    (g : List PerfField × Handle) (xDesc : TensorDescriptor) (x : Data_t)
    (wDesc : TensorDescriptor) (w : Data_t) (yDesc : TensorDescriptor)
    (tmp_y workSpace : Data_t) :
    Issued (BenchCommand x w tmp_y workSpace) g.2
      (FindConvFwdAlgorithm_winograd env cd g xDesc x wDesc w yDesc tmp_y).2 := by
  have hk := issued_findFwdWinogradKernel (P := BenchCommand x w tmp_y workSpace) env cd g.2
    xDesc wDesc yDesc (bench_compile _ _ _ _)
  unfold FindConvFwdAlgorithm_winograd
  split
  · rename_i N C H W K n_groups kernel_wino h3 heq
    rw [heq] at hk
    exact issued_trans hk (issued_launch env h3 kernel_wino _ _ (bench_launch4 _ _ _ _ _ _))
  · rename_i a b h3 _ heq
    rw [heq] at hk
    exact hk

theorem issued_fwd_direct (env : Env) (cd : ConvolutionDescriptor)
    (wino : List PerfField × Handle) (xDesc : TensorDescriptor) (x : Data_t)
    (wDesc : TensorDescriptor) (w : Data_t) (yDesc : TensorDescriptor)
    (tmp_y workSpace : Data_t) (exhaustiveSearch : Bool) :
    Issued (BenchCommand x w tmp_y workSpace) wino.2
      (FindConvFwdAlgorithm_direct env cd wino xDesc x wDesc w yDesc tmp_y
        exhaustiveSearch).2 := by
  have hk := issued_findDirectKernel (P := BenchCommand x w tmp_y workSpace) env cd wino.2
    xDesc wDesc yDesc [] exhaustiveSearch 1 (bench_compile _ _ _ _)
  unfold FindConvFwdAlgorithm_direct
  split
  · rename_i a ks h5 heq
    rw [heq] at hk
    exact hk
  · rename_i rc ks h5 heq
    rw [heq] at hk
    split
    · exact issued_trans hk
        (issued_runDirectKernels env x w tmp_y (fun k => bench_launch3 _ _ _ _ k [0]) ks 0 h5)
    · exact hk

theorem issued_fwd_candidates (env : Env) (cd : ConvolutionDescriptor) (handle : Handle)
    (xDesc : TensorDescriptor) (x : Data_t) (wDesc : TensorDescriptor) (w : Data_t)
    (yDesc : TensorDescriptor) (workSpace : Data_t) (workSpaceSize : Nat)
    (exhaustiveSearch : Bool) :
    Issued (BenchCommand x w (some (Buffer.created handle.created)) workSpace)
      (handle.Create
        ((toSizeT yDesc.GetElementSize * sizeof_GetType) % 18446744073709551616)).2
      (FindConvFwdAlgorithm_candidates env cd handle xDesc x wDesc w yDesc workSpace
        workSpaceSize exhaustiveSearch).2 := by
  unfold FindConvFwdAlgorithm_candidates
  simp only
  split
  · exact issued_trans
      (issued_trans (issued_fwd_gemm env cd _ xDesc x wDesc w yDesc _ workSpace workSpaceSize
        _ _ _ _ _ _ _ _)
        (issued_fwd_winograd env cd _ xDesc x wDesc w yDesc _ workSpace))
      (issued_fwd_direct env cd _ xDesc x wDesc w yDesc _ workSpace exhaustiveSearch)
  · exact issued_refl _ _

theorem issued_bwd_data_candidates (env : Env) (cd : ConvolutionDescriptor)
    (handle : Handle) (tmp_dx ws : Data_t) (dyDesc : TensorDescriptor) (dy : Data_t)
    (wDesc : TensorDescriptor) (w : Data_t) (dxDesc : TensorDescriptor)
    (exhaustiveSearch : Bool) :
    Issued (BenchCommand dy w tmp_dx ws) handle
      (FindConvBwdDataAlgorithm_candidates env cd handle tmp_dx dyDesc dy wDesc w dxDesc
        exhaustiveSearch).2 := by
  have hk := issued_findDirectKernel (P := BenchCommand dy w tmp_dx ws) env cd handle
    dxDesc wDesc dyDesc [] exhaustiveSearch 0 (bench_compile _ _ _ _)
  unfold FindConvBwdDataAlgorithm_candidates
  split
  · rename_i a ks h5 heq
    rw [heq] at hk
    exact hk
  · rename_i rc ks h5 heq
    rw [heq] at hk
    split
    · exact issued_trans hk
        (issued_runDirectKernels env dy w tmp_dx (fun k => bench_launch3 _ _ _ _ k [0]) ks 0 h5)
    · exact hk

theorem issued_bwd_weights_gemm (env : Env) (cd : ConvolutionDescriptor) (handle : Handle)
    (tmp_dw : Data_t) (dyDesc : TensorDescriptor) (dy : Data_t) (xDesc : TensorDescriptor)
    (x : Data_t) (dwDesc : TensorDescriptor) (workSpace : Data_t) (workSpaceSize : Nat)
    (in_n in_c in_h in_w wei_h wei_w out_h out_w : Int) :
    Issued (BenchCommand dy x tmp_dw workSpace) handle
      (FindConvBwdWeightsAlgorithm_gemm env cd handle tmp_dw dyDesc dy xDesc x dwDesc
        workSpace workSpaceSize in_n in_c in_h in_w wei_h wei_w out_h out_w).2 := by
  unfold FindConvBwdWeightsAlgorithm_gemm
  simp only
  split
  · split
    · exact issued_trans
        (issued_findSolution handle x dy tmp_dw
          (bench_findSolution _ _ _ _ _ _ (Or.inr (Or.inl rfl)) (Or.inl rfl)))
        (issued_runGemm env _ _ x dy tmp_dw 0 0 0
          (bench_runGemm _ _ _ _ _ _ _ _ _ _ (Or.inr (Or.inl rfl)) (Or.inl rfl)))
    · split
      · exact issued_trans
          (issued_trans
            (issued_im2col env handle x 0 _ workSpace
              (bench_im2col _ _ _ _ _ _ _ (Or.inr rfl)))
            (issued_findSolution _ workSpace dy tmp_dw
              (bench_findSolution _ _ _ _ _ _ (Or.inr (Or.inr rfl)) (Or.inl rfl))))
          (issued_runGemm env _ _ workSpace dy tmp_dw 0 0 0
            (bench_runGemm _ _ _ _ _ _ _ _ _ _ (Or.inr (Or.inr rfl)) (Or.inl rfl)))
      · exact issued_refl _ handle
  · exact issued_refl _ handle

theorem issued_bwd_weights_direct (env : Env) (cd : ConvolutionDescriptor)
    (g : List PerfField × Handle) (dyDesc xDesc dwDesc : TensorDescriptor)
    (dy x tmp_dw workSpace : Data_t) (workSpaceSize : Nat) (in_h in_w wei_h wei_w : Int) :
    Issued (BenchCommand dy x tmp_dw workSpace) g.2
      (FindConvBwdWeightsAlgorithm_direct env cd g dyDesc xDesc dwDesc workSpace
        workSpaceSize in_h in_w wei_h wei_w).2 := by
  unfold FindConvBwdWeightsAlgorithm_direct
  simp only
  split
  · split
    · split
      · exact issued_getKernel g.2 _ _ _ _ _ _ _ (bench_compile _ _ _ _)
      · exact issued_refl _ g.2
    · split
      · split
        · exact issued_trans (issued_getKernel g.2 _ _ _ _ _ _ _ (bench_compile _ _ _ _))
            (issued_getKernel _ _ _ _ _ _ _ _ (bench_compile _ _ _ _))
        · exact issued_refl _ g.2
      · exact issued_refl _ g.2
  · exact issued_refl _ g.2

theorem issued_bwd_weights_candidates (env : Env) (cd : ConvolutionDescriptor)
    (handle : Handle) (tmp_dw : Data_t) (dyDesc : TensorDescriptor) (dy : Data_t)
    (xDesc : TensorDescriptor) (x : Data_t) (dwDesc : TensorDescriptor) (workSpace : Data_t)
    (workSpaceSize : Nat) :
    Issued (BenchCommand dy x tmp_dw workSpace) handle
      (FindConvBwdWeightsAlgorithm_candidates env cd handle tmp_dw dyDesc dy xDesc x dwDesc
        workSpace workSpaceSize).2 := by
  unfold FindConvBwdWeightsAlgorithm_candidates
  split
  · exact issued_trans
      (issued_bwd_weights_gemm env cd handle tmp_dw dyDesc dy xDesc x dwDesc workSpace
        workSpaceSize _ _ _ _ _ _ _ _)
      (issued_bwd_weights_direct env cd _ dyDesc xDesc dwDesc dy x tmp_dw workSpace
        workSpaceSize _ _ _ _)
  · exact issued_refl _ _

/-! ## The profiling guard of the searches -/

theorem dtor_profiling (g : AutoEnableProfiling) (h : Handle) :
    (g.dtor h).profiling = g.prev_state ∧ (g.dtor h).kernel_time = 0 ∧
    (g.dtor h).log = h.log := ⟨rfl, rfl, rfl⟩

theorem FindConvFwdAlgorithm_handle (env : Env) (cd : ConvolutionDescriptor)
    (handle : Handle) (d1 d2 d3 : TensorDescriptor) (b1 b2 b3 : Data_t)
    (requestAlgoCount : Int) (returnedAlgoCount : Option Int)
    (perfResults : Option (List mlopenConvAlgoPerf_t)) (workSpace : Data_t)
    (workSpaceSize : Nat) (exhaustiveSearch : Bool) :
    ((b1 ≠ none ∧ b2 ≠ none ∧ b3 ≠ none ∧ returnedAlgoCount ≠ none ∧ perfResults ≠ none ∧
        1 ≤ requestAlgoCount) →
      (FindConvFwdAlgorithm env cd handle d1 b1 d2 b2 d3 b3 requestAlgoCount
        returnedAlgoCount perfResults workSpace workSpaceSize exhaustiveSearch).handle.log
        = (FindConvFwdAlgorithm_candidates env cd (AutoEnableProfiling.ctor handle).2
            d1 b1 d2 b2 d3 workSpace workSpaceSize exhaustiveSearch).2.log) ∧
    ((∀ site, (FindConvFwdAlgorithm env cd handle d1 b1 d2 b2 d3 b3 requestAlgoCount
        returnedAlgoCount perfResults workSpace workSpaceSize exhaustiveSearch).outcome ≠ Except.error (Abort.undefined site)) →
      (b1 ≠ none ∧ b2 ≠ none ∧ b3 ≠ none ∧ returnedAlgoCount ≠ none ∧ perfResults ≠ none ∧
        1 ≤ requestAlgoCount) →
      (FindConvFwdAlgorithm env cd handle d1 b1 d2 b2 d3 b3 requestAlgoCount
        returnedAlgoCount perfResults workSpace workSpaceSize exhaustiveSearch).handle
        = (AutoEnableProfiling.ctor handle).1.dtor
          (FindConvFwdAlgorithm_candidates env cd (AutoEnableProfiling.ctor handle).2
            d1 b1 d2 b2 d3 workSpace workSpaceSize exhaustiveSearch).2) ∧
    (¬ (b1 ≠ none ∧ b2 ≠ none ∧ b3 ≠ none ∧ returnedAlgoCount ≠ none ∧ perfResults ≠ none ∧
        1 ≤ requestAlgoCount) →
      (FindConvFwdAlgorithm env cd handle d1 b1 d2 b2 d3 b3 requestAlgoCount
        returnedAlgoCount perfResults workSpace workSpaceSize exhaustiveSearch).handle = handle) := by
  unfold FindConvFwdAlgorithm
  by_cases hb : b1 = none ∨ b2 = none ∨ b3 = none
  · rw [if_pos hb]
    have hnv : ¬ (b1 ≠ none ∧ b2 ≠ none ∧ b3 ≠ none ∧ returnedAlgoCount ≠ none ∧ perfResults ≠ none ∧
        1 ≤ requestAlgoCount) := by
      intro hv
      rcases hb with h | h | h
      · exact absurd h hv.1
      · exact absurd h hv.2.1
      · exact absurd h hv.2.2.1
    exact ⟨fun hv => absurd hv hnv, fun _ hv => absurd hv hnv, fun _ => rfl⟩
  · rw [if_neg hb]
    by_cases hc : returnedAlgoCount = none
    · rw [if_pos hc]
      exact ⟨fun hv => absurd hc hv.2.2.2.1, fun _ hv => absurd hc hv.2.2.2.1, fun _ => rfl⟩
    · rw [if_neg hc]
      cases perfResults with
      | none =>
        exact ⟨fun hv => absurd rfl hv.2.2.2.2.1, fun _ hv => absurd rfl hv.2.2.2.2.1,
          fun _ => rfl⟩
      | some results =>
        simp only
        by_cases hr : requestAlgoCount < 1
        · rw [if_pos hr]
          exact ⟨fun hv => absurd hv.2.2.2.2.2 (not_le.mpr hr),
            fun _ hv => absurd hv.2.2.2.2.2 (not_le.mpr hr), fun _ => rfl⟩
        · have hvalid : b1 ≠ none ∧ b2 ≠ none ∧ b3 ≠ none ∧ returnedAlgoCount ≠ none ∧
              some results ≠ none ∧ 1 ≤ requestAlgoCount :=
            ⟨fun h => hb (Or.inl h), fun h => hb (Or.inr (Or.inl h)),
              fun h => hb (Or.inr (Or.inr h)), hc, by simp, not_lt.mp hr⟩
          rw [if_neg hr]
          rcases hcand : FindConvFwdAlgorithm_candidates env cd (AutoEnableProfiling.ctor handle).2
            d1 b1 d2 b2 d3 workSpace workSpaceSize exhaustiveSearch with ⟨r, h⟩
          simp only [hcand]
          cases r with
          | error a =>
            cases a with
            | undefined site =>
              exact ⟨fun _ => rfl, fun hnu _ => absurd rfl (hnu site), fun hn => absurd hvalid hn⟩
            | thrown e => exact ⟨fun _ => rfl, fun _ _ => rfl, fun hn => absurd hvalid hn⟩
            | missingKernel al nc => exact ⟨fun _ => rfl, fun _ _ => rfl, fun hn => absurd hvalid hn⟩
          | ok perf_db =>
            simp only
            by_cases hem : perf_db.isEmpty = true
            · rw [if_pos hem]
              exact ⟨fun _ => rfl, fun _ _ => rfl, fun hn => absurd hvalid hn⟩
            · rw [if_neg hem]
              cases hu : (updatePerfResults env.FwdAlgoResolver (std_sort perf_db)
                  requestAlgoCount results).2 with
              | none =>
                exact ⟨fun _ => rfl, fun hnu _ => absurd rfl (hnu _), fun hn => absurd hvalid hn⟩
              | some written =>
                exact ⟨fun _ => rfl, fun _ _ => rfl, fun hn => absurd hvalid hn⟩

theorem FindConvBwdDataAlgorithm_handle (env : Env) (cd : ConvolutionDescriptor)
    (handle : Handle) (d1 d2 d3 : TensorDescriptor) (b1 b2 b3 : Data_t)
    (requestAlgoCount : Int) (returnedAlgoCount : Option Int)
    (perfResults : Option (List mlopenConvAlgoPerf_t)) (exhaustiveSearch : Bool) :
    ((b1 ≠ none ∧ b2 ≠ none ∧ b3 ≠ none ∧ returnedAlgoCount ≠ none ∧ perfResults ≠ none ∧
        1 ≤ requestAlgoCount) →
      (FindConvBwdDataAlgorithm env cd handle d1 b1 d2 b2 d3 b3 requestAlgoCount
        returnedAlgoCount perfResults exhaustiveSearch).handle.log
        = (FindConvBwdDataAlgorithm_candidates env cd
            (AutoEnableProfiling.ctor (handle.Create
              ((toSizeT d3.GetElementSize * sizeof_GetType) % 18446744073709551616)).2).2
            (some (handle.Create
              ((toSizeT d3.GetElementSize * sizeof_GetType) % 18446744073709551616)).1)
            d1 b1 d2 b2 d3 exhaustiveSearch).2.log) ∧
    ((∀ site, (FindConvBwdDataAlgorithm env cd handle d1 b1 d2 b2 d3 b3 requestAlgoCount
        returnedAlgoCount perfResults exhaustiveSearch).outcome ≠ Except.error (Abort.undefined site)) →
      (b1 ≠ none ∧ b2 ≠ none ∧ b3 ≠ none ∧ returnedAlgoCount ≠ none ∧ perfResults ≠ none ∧
        1 ≤ requestAlgoCount) →
      (FindConvBwdDataAlgorithm env cd handle d1 b1 d2 b2 d3 b3 requestAlgoCount
        returnedAlgoCount perfResults exhaustiveSearch).handle
        = (AutoEnableProfiling.ctor (handle.Create
            ((toSizeT d3.GetElementSize * sizeof_GetType) % 18446744073709551616)).2).1.dtor
          (FindConvBwdDataAlgorithm_candidates env cd
            (AutoEnableProfiling.ctor (handle.Create
              ((toSizeT d3.GetElementSize * sizeof_GetType) % 18446744073709551616)).2).2
            (some (handle.Create
              ((toSizeT d3.GetElementSize * sizeof_GetType) % 18446744073709551616)).1)
            d1 b1 d2 b2 d3 exhaustiveSearch).2) ∧
    (¬ (b1 ≠ none ∧ b2 ≠ none ∧ b3 ≠ none ∧ returnedAlgoCount ≠ none ∧ perfResults ≠ none ∧
        1 ≤ requestAlgoCount) →
      (FindConvBwdDataAlgorithm env cd handle d1 b1 d2 b2 d3 b3 requestAlgoCount
        returnedAlgoCount perfResults exhaustiveSearch).handle = handle) := by
  unfold FindConvBwdDataAlgorithm
  by_cases hb : b3 = none ∨ b2 = none ∨ b1 = none
  · rw [if_pos hb]
    have hnv : ¬ (b1 ≠ none ∧ b2 ≠ none ∧ b3 ≠ none ∧ returnedAlgoCount ≠ none ∧ perfResults ≠ none ∧
        1 ≤ requestAlgoCount) := by
      intro hv
      rcases hb with h | h | h
      · exact absurd h hv.2.2.1
      · exact absurd h hv.2.1
      · exact absurd h hv.1
    exact ⟨fun hv => absurd hv hnv, fun _ hv => absurd hv hnv, fun _ => rfl⟩
  · rw [if_neg hb]
    by_cases hc : returnedAlgoCount = none
    · rw [if_pos hc]
      exact ⟨fun hv => absurd hc hv.2.2.2.1, fun _ hv => absurd hc hv.2.2.2.1, fun _ => rfl⟩
    · rw [if_neg hc]
      cases perfResults with
      | none =>
        exact ⟨fun hv => absurd rfl hv.2.2.2.2.1, fun _ hv => absurd rfl hv.2.2.2.2.1,
          fun _ => rfl⟩
      | some results =>
        simp only
        by_cases hr : requestAlgoCount < 1
        · rw [if_pos hr]
          exact ⟨fun hv => absurd hv.2.2.2.2.2 (not_le.mpr hr),
            fun _ hv => absurd hv.2.2.2.2.2 (not_le.mpr hr), fun _ => rfl⟩
        · have hvalid : b1 ≠ none ∧ b2 ≠ none ∧ b3 ≠ none ∧ returnedAlgoCount ≠ none ∧
              some results ≠ none ∧ 1 ≤ requestAlgoCount :=
            ⟨fun h => hb (Or.inr (Or.inr h)), fun h => hb (Or.inr (Or.inl h)),
              fun h => hb (Or.inl h), hc, by simp, not_lt.mp hr⟩
          rw [if_neg hr]
          rcases hcand : FindConvBwdDataAlgorithm_candidates env cd
            (AutoEnableProfiling.ctor (handle.Create
              ((toSizeT d3.GetElementSize * sizeof_GetType) % 18446744073709551616)).2).2
            (some (handle.Create
              ((toSizeT d3.GetElementSize * sizeof_GetType) % 18446744073709551616)).1)
            d1 b1 d2 b2 d3 exhaustiveSearch with ⟨r, h⟩
          simp only [hcand]
          cases r with
          | error a =>
            cases a with
            | undefined site =>
              exact ⟨fun _ => rfl, fun hnu _ => absurd rfl (hnu site), fun hn => absurd hvalid hn⟩
            | thrown e => exact ⟨fun _ => rfl, fun _ _ => rfl, fun hn => absurd hvalid hn⟩
            | missingKernel al nc => exact ⟨fun _ => rfl, fun _ _ => rfl, fun hn => absurd hvalid hn⟩
          | ok perf_db =>
            simp only
            cases hu : (updatePerfResults env.BwdDataAlgoResolver perf_db
                requestAlgoCount results).2 with
            | none =>
              exact ⟨fun _ => rfl, fun hnu _ => absurd rfl (hnu _), fun hn => absurd hvalid hn⟩
            | some written =>
              exact ⟨fun _ => rfl, fun _ _ => rfl, fun hn => absurd hvalid hn⟩

theorem FindConvBwdWeightsAlgorithm_handle (env : Env) (cd : ConvolutionDescriptor)
    (handle : Handle) (d1 d2 d3 : TensorDescriptor) (b1 b2 b3 : Data_t)
    (requestAlgoCount : Int) (returnedAlgoCount : Option Int)
    (perfResults : Option (List mlopenConvAlgoPerf_t)) (workSpace : Data_t)
    (workSpaceSize : Nat) :
    ((b1 ≠ none ∧ b2 ≠ none ∧ b3 ≠ none ∧ returnedAlgoCount ≠ none ∧ perfResults ≠ none ∧
        1 ≤ requestAlgoCount) →
      (FindConvBwdWeightsAlgorithm env cd handle d1 b1 d2 b2 d3 b3 requestAlgoCount
        returnedAlgoCount perfResults workSpace workSpaceSize).handle.log
        = (FindConvBwdWeightsAlgorithm_candidates env cd
            (AutoEnableProfiling.ctor (handle.Create
              ((toSizeT d3.GetElementSize * sizeof_GetType) % 18446744073709551616)).2).2
            (some (handle.Create
              ((toSizeT d3.GetElementSize * sizeof_GetType) % 18446744073709551616)).1)
            d1 b1 d2 b2 d3 workSpace workSpaceSize).2.log) ∧
    ((∀ site, (FindConvBwdWeightsAlgorithm env cd handle d1 b1 d2 b2 d3 b3 requestAlgoCount
        returnedAlgoCount perfResults workSpace workSpaceSize).outcome ≠ Except.error (Abort.undefined site)) →
      (b1 ≠ none ∧ b2 ≠ none ∧ b3 ≠ none ∧ returnedAlgoCount ≠ none ∧ perfResults ≠ none ∧
        1 ≤ requestAlgoCount) →
      (FindConvBwdWeightsAlgorithm env cd handle d1 b1 d2 b2 d3 b3 requestAlgoCount
        returnedAlgoCount perfResults workSpace workSpaceSize).handle
        = (AutoEnableProfiling.ctor (handle.Create
            ((toSizeT d3.GetElementSize * sizeof_GetType) % 18446744073709551616)).2).1.dtor
          (FindConvBwdWeightsAlgorithm_candidates env cd
            (AutoEnableProfiling.ctor (handle.Create
              ((toSizeT d3.GetElementSize * sizeof_GetType) % 18446744073709551616)).2).2
            (some (handle.Create
              ((toSizeT d3.GetElementSize * sizeof_GetType) % 18446744073709551616)).1)
            d1 b1 d2 b2 d3 workSpace workSpaceSize).2) ∧
    (¬ (b1 ≠ none ∧ b2 ≠ none ∧ b3 ≠ none ∧ returnedAlgoCount ≠ none ∧ perfResults ≠ none ∧
        1 ≤ requestAlgoCount) →
      (FindConvBwdWeightsAlgorithm env cd handle d1 b1 d2 b2 d3 b3 requestAlgoCount
        returnedAlgoCount perfResults workSpace workSpaceSize).handle = handle) := by
  unfold FindConvBwdWeightsAlgorithm
  by_cases hb : b2 = none ∨ b3 = none ∨ b1 = none
  · rw [if_pos hb]
    have hnv : ¬ (b1 ≠ none ∧ b2 ≠ none ∧ b3 ≠ none ∧ returnedAlgoCount ≠ none ∧ perfResults ≠ none ∧
        1 ≤ requestAlgoCount) := by
      intro hv
      rcases hb with h | h | h
      · exact absurd h hv.2.1
      · exact absurd h hv.2.2.1
      · exact absurd h hv.1
    exact ⟨fun hv => absurd hv hnv, fun _ hv => absurd hv hnv, fun _ => rfl⟩
  · rw [if_neg hb]
    by_cases hc : returnedAlgoCount = none
    · rw [if_pos hc]
      exact ⟨fun hv => absurd hc hv.2.2.2.1, fun _ hv => absurd hc hv.2.2.2.1, fun _ => rfl⟩
    · rw [if_neg hc]
      cases perfResults with
      | none =>
        exact ⟨fun hv => absurd rfl hv.2.2.2.2.1, fun _ hv => absurd rfl hv.2.2.2.2.1,
          fun _ => rfl⟩
      | some results =>
        simp only
        by_cases hr : requestAlgoCount < 1
        · rw [if_pos hr]
          exact ⟨fun hv => absurd hv.2.2.2.2.2 (not_le.mpr hr),
            fun _ hv => absurd hv.2.2.2.2.2 (not_le.mpr hr), fun _ => rfl⟩
        · have hvalid : b1 ≠ none ∧ b2 ≠ none ∧ b3 ≠ none ∧ returnedAlgoCount ≠ none ∧
              some results ≠ none ∧ 1 ≤ requestAlgoCount :=
            ⟨fun h => hb (Or.inr (Or.inr h)), fun h => hb (Or.inl h),
              fun h => hb (Or.inr (Or.inl h)), hc, by simp, not_lt.mp hr⟩
          rw [if_neg hr]
          rcases hcand : FindConvBwdWeightsAlgorithm_candidates env cd
            (AutoEnableProfiling.ctor (handle.Create
              ((toSizeT d3.GetElementSize * sizeof_GetType) % 18446744073709551616)).2).2
            (some (handle.Create
              ((toSizeT d3.GetElementSize * sizeof_GetType) % 18446744073709551616)).1)
            d1 b1 d2 b2 d3 workSpace workSpaceSize with ⟨r, h⟩
          simp only [hcand]
          cases r with
          | error a =>
            cases a with
            | undefined site =>
              exact ⟨fun _ => rfl, fun hnu _ => absurd rfl (hnu site), fun hn => absurd hvalid hn⟩
            | thrown e => exact ⟨fun _ => rfl, fun _ _ => rfl, fun hn => absurd hvalid hn⟩
            | missingKernel al nc => exact ⟨fun _ => rfl, fun _ _ => rfl, fun hn => absurd hvalid hn⟩
          | ok perf_db =>
            simp only
            by_cases hem : perf_db.isEmpty = true
            · rw [if_pos hem]
              exact ⟨fun _ => rfl, fun _ _ => rfl, fun hn => absurd hvalid hn⟩
            · rw [if_neg hem]
              cases results with
              | nil =>
                exact ⟨fun _ => rfl, fun hnu _ => absurd rfl (hnu _), fun hn => absurd hvalid hn⟩
              | cons r0 rest =>
                exact ⟨fun _ => rfl, fun _ _ => rfl, fun hn => absurd hvalid hn⟩

theorem guardRestored_of (handle : Handle) (valid : Prop) (res : FindResult)
    (g : AutoEnableProfiling) (h1 : Handle) (hg : g.prev_state = handle.profiling)
    (hvalid : (∀ site, res.outcome ≠ Except.error (Abort.undefined site)) → valid →
      res.handle = g.dtor h1)
    (hinvalid : ¬ valid → res.handle = handle) : GuardRestored handle valid res := by
  intro hnu
  by_cases hv : valid
  · rw [hvalid hnu hv]
    exact ⟨hg, fun _ => rfl, fun hn => absurd hv hn⟩
  · rw [hinvalid hv]
    exact ⟨rfl, fun h => absurd h hv, fun _ => rfl⟩

/-- C12 (as amended): on every exit path of a search that does not run into an
undefined read, the profiling toggle after the call equals its value before.
On the paths after parameter validation (normal return, no-candidate failure)
the device timer has been reset; on a parameter-validation failure the handle,
timer included, is left exactly as it was.  The candidate phase of each search
starts and ends with the toggle enabled. -/
theorem Find_profiling_guard (env : Env) (cd : ConvolutionDescriptor)
    (handle : Handle) (d1 d2 d3 : TensorDescriptor) (b1 b2 b3 : Data_t)
    (requestAlgoCount : Int) (returnedAlgoCount : Option Int)
    (perfResults : Option (List mlopenConvAlgoPerf_t)) (workSpace : Data_t)
    (workSpaceSize : Nat) (exhaustiveSearch : Bool) :
    GuardRestored handle
      (b1 ≠ none ∧ b2 ≠ none ∧ b3 ≠ none ∧ returnedAlgoCount ≠ none ∧ perfResults ≠ none ∧
        1 ≤ requestAlgoCount)
      (FindConvFwdAlgorithm env cd handle d1 b1 d2 b2 d3 b3 requestAlgoCount
        returnedAlgoCount perfResults workSpace workSpaceSize exhaustiveSearch) ∧
    GuardRestored handle
      (b1 ≠ none ∧ b2 ≠ none ∧ b3 ≠ none ∧ returnedAlgoCount ≠ none ∧ perfResults ≠ none ∧
        1 ≤ requestAlgoCount)
      (FindConvBwdDataAlgorithm env cd handle d1 b1 d2 b2 d3 b3 requestAlgoCount
        returnedAlgoCount perfResults exhaustiveSearch) ∧
    GuardRestored handle
      (b1 ≠ none ∧ b2 ≠ none ∧ b3 ≠ none ∧ returnedAlgoCount ≠ none ∧ perfResults ≠ none ∧
        1 ≤ requestAlgoCount)
      (FindConvBwdWeightsAlgorithm env cd handle d1 b1 d2 b2 d3 b3 requestAlgoCount
        returnedAlgoCount perfResults workSpace workSpaceSize) ∧
    ((AutoEnableProfiling.ctor handle).2.profiling = true ∧
      (FindConvFwdAlgorithm_candidates env cd (AutoEnableProfiling.ctor handle).2
        d1 b1 d2 b2 d3 workSpace workSpaceSize exhaustiveSearch).2.profiling = true) ∧
    ((AutoEnableProfiling.ctor (handle.Create ((toSizeT d3.GetElementSize * sizeof_GetType) % 18446744073709551616)).2).2.profiling = true ∧
      (FindConvBwdDataAlgorithm_candidates env cd
        (AutoEnableProfiling.ctor (handle.Create ((toSizeT d3.GetElementSize * sizeof_GetType) % 18446744073709551616)).2).2
        (some (handle.Create ((toSizeT d3.GetElementSize * sizeof_GetType) % 18446744073709551616)).1) d1 b1 d2 b2 d3 exhaustiveSearch).2.profiling = true) ∧
    ((AutoEnableProfiling.ctor (handle.Create ((toSizeT d3.GetElementSize * sizeof_GetType) % 18446744073709551616)).2).2.profiling = true ∧
      (FindConvBwdWeightsAlgorithm_candidates env cd
        (AutoEnableProfiling.ctor (handle.Create ((toSizeT d3.GetElementSize * sizeof_GetType) % 18446744073709551616)).2).2
        (some (handle.Create ((toSizeT d3.GetElementSize * sizeof_GetType) % 18446744073709551616)).1) d1 b1 d2 b2 d3 workSpace workSpaceSize).2.profiling
        = true) := by
  refine ⟨?_, ?_, ?_, ⟨rfl, ?_⟩, ⟨rfl, ?_⟩, ⟨rfl, ?_⟩⟩
  · have h := FindConvFwdAlgorithm_handle env cd handle d1 d2 d3 b1 b2 b3 requestAlgoCount
      returnedAlgoCount perfResults workSpace workSpaceSize exhaustiveSearch
    exact guardRestored_of handle _ _ _ _ rfl h.2.1 h.2.2
  · have h := FindConvBwdDataAlgorithm_handle env cd handle d1 d2 d3 b1 b2 b3
      requestAlgoCount returnedAlgoCount perfResults exhaustiveSearch
    exact guardRestored_of handle _ _ _ _ rfl h.2.1 h.2.2
  · have h := FindConvBwdWeightsAlgorithm_handle env cd handle d1 d2 d3 b1 b2 b3
      requestAlgoCount returnedAlgoCount perfResults workSpace workSpaceSize
    exact guardRestored_of handle _ _ _ _ rfl h.2.1 h.2.2
  · exact (issued_fwd_candidates env cd (AutoEnableProfiling.ctor handle).2 d1 b1 d2 b2 d3
      workSpace workSpaceSize exhaustiveSearch).1
  · exact (issued_bwd_data_candidates env cd _ _ none d1 b1 d2 b2 d3 exhaustiveSearch).1
  · exact (issued_bwd_weights_candidates env cd _ _ d1 b1 d2 b2 d3 workSpace
      workSpaceSize).1

/-- C12 (counterexample): the sample forward search called with
requestAlgoCount = 0 on a handle whose timer shows 7 ends with BadParm and the
timer still at 7: this exit path does not reset it. -/
theorem Find_validation_failure_leaves_timer :
    (FindConvFwdAlgorithm sampleEnv sampleConv sampleHandle sampleX (buf 0) sampleW (buf 1)
      sampleY (buf 2) 0 (some 0) (some sampleResults) (buf 3) 200 false).outcome
      = Except.error (Abort.thrown
          ⟨some mlopenStatus_t.mlopenStatusBadParm, "requestAlgoCount cannot be < 1"⟩) ∧
    (FindConvFwdAlgorithm sampleEnv sampleConv sampleHandle sampleX (buf 0) sampleW (buf 1)
      sampleY (buf 2) 0 (some 0) (some sampleResults) (buf 3) 200 false).handle.kernel_time
      = 7 ∧
    (7 : ℚ) ≠ 0 := by
  refine ⟨?_, ?_, by norm_num⟩ <;>
  simp [FindConvFwdAlgorithm, buf, sampleHandle]

theorem sample_fwd_outcome :
    (FindConvFwdAlgorithm sampleEnv sampleConv sampleHandle sampleX (buf 0) sampleW (buf 1)
      sampleY (buf 2) 2 (some 0) (some sampleResults) (buf 3) 200 false).outcome
      = Except.ok () := by
  rw [FindConvFwdAlgorithm_ok sampleEnv sampleConv sampleHandle sampleX (buf 0) sampleW
    (buf 1) sampleY (buf 2) 2 0 sampleResults (buf 3) 200 false
    [⟨"mlopenConvolutionFwdAlgoGEMM", 6, 100⟩, ⟨"mlopenConvolutionFwdAlgoDirect", 6, 0⟩]
    _ (by simp [buf]) (by simp [buf]) (by simp [buf]) (by norm_num)
    (Prod.ext sample_fwd_candidates rfl) (by simp) (by simp [sampleResults])]

/-- Witness for C12 (as amended): after the sample forward search, run on a
handle with profiling off and the timer at 7, profiling is off and the timer
is 0. -/
theorem Find_profiling_guard_witness :
    (FindConvFwdAlgorithm sampleEnv sampleConv sampleHandle sampleX (buf 0) sampleW (buf 1)
      sampleY (buf 2) 2 (some 0) (some sampleResults) (buf 3) 200 false).handle.profiling
      = false ∧
    (FindConvFwdAlgorithm sampleEnv sampleConv sampleHandle sampleX (buf 0) sampleW (buf 1)
      sampleY (buf 2) 2 (some 0) (some sampleResults) (buf 3) 200 false).handle.kernel_time
      = 0 := by
  have h := (Find_profiling_guard sampleEnv sampleConv sampleHandle sampleX sampleW sampleY
    (buf 0) (buf 1) (buf 2) 2 (some 0) (some sampleResults) (buf 3) 200 false).1
    (by rw [sample_fwd_outcome]; simp)
  exact ⟨h.1, h.2.1 (by simp [buf])⟩

theorem searchLog_of_issued (handle h0 h1 : Handle) (res : FindResult)
    (a b out ws : Data_t) (bytes : Nat)
    (hlog0 : h0.log = handle.log ++ [Event.Create bytes (Buffer.created handle.created)])
    (hiss : Issued (BenchCommand a b (some (Buffer.created handle.created)) ws) h0 h1)
    (hres : res.handle.log = h1.log)
    (ha : out ≠ a) (hb : out ≠ b) (ht : out ≠ some (Buffer.created handle.created))
    (hw : out ≠ ws) (hn : out ≠ none) :
    SearchLog handle res out ws bytes := by
  obtain ⟨_, evs, hlog, hall⟩ := hiss
  refine ⟨evs, ?_, ?_⟩
  · rw [hres, hlog, hlog0, List.append_assoc]
    rfl
  · intro e he
    obtain ⟨hbufs, htarget⟩ := hall e he
    refine ⟨?_, htarget⟩
    intro hmem
    rcases hbufs out hmem with h | h | h | h | h
    · exact ha h
    · exact hb h
    · exact ht h
    · exact hw h
    · exact hn h

/-- C13 (as amended): in a search that passes parameter validation, called with
an output buffer distinct from its inputs, from the workspace and from the
buffer the call creates, the first command is the creation of the throwaway
buffer; when the elements of the output tensor's data type are 4 bytes wide
(`elemSize` gives the width for each data type), its byte size is the output
tensor's element count times the size of one element of that data type (in
size_t arithmetic); the caller's output buffer is handed to no command after
it; and every command after it writes to the throwaway buffer or writes
nothing, except the unfold of the GEMM candidate (forward and backward-weights
searches), which writes the caller's workspace. -/
theorem Find_benchmarks_into_throwaway (env : Env) (cd : ConvolutionDescriptor)
    (handle : Handle) (d1 d2 d3 : TensorDescriptor) (b1 b2 b3 : Data_t)
    (requestAlgoCount : Int) (returnedAlgoCount : Option Int)
    (perfResults : Option (List mlopenConvAlgoPerf_t)) (workSpace : Data_t)
    (workSpaceSize : Nat) (exhaustiveSearch : Bool)
    (hvalid : b1 ≠ none ∧ b2 ≠ none ∧ b3 ≠ none ∧ returnedAlgoCount ≠ none ∧
      perfResults ≠ none ∧ 1 ≤ requestAlgoCount)
    (h31 : b3 ≠ b1) (h32 : b3 ≠ b2) (h3w : b3 ≠ workSpace)
    (h3t : b3 ≠ some (Buffer.created handle.created))
    (elemSize : Nat → Nat) (helem : elemSize d3.GetType = 4) :
    SearchLog handle
      (FindConvFwdAlgorithm env cd handle d1 b1 d2 b2 d3 b3 requestAlgoCount
        returnedAlgoCount perfResults workSpace workSpaceSize exhaustiveSearch)
      b3 workSpace ((toSizeT d3.GetElementSize * elemSize d3.GetType) % 18446744073709551616) ∧
    SearchLog handle
      (FindConvBwdDataAlgorithm env cd handle d1 b1 d2 b2 d3 b3 requestAlgoCount
        returnedAlgoCount perfResults exhaustiveSearch)
      b3 (some (Buffer.created handle.created))
      ((toSizeT d3.GetElementSize * elemSize d3.GetType) % 18446744073709551616) ∧
    SearchLog handle
      (FindConvBwdWeightsAlgorithm env cd handle d1 b1 d2 b2 d3 b3 requestAlgoCount
        returnedAlgoCount perfResults workSpace workSpaceSize)
      b3 workSpace ((toSizeT d3.GetElementSize * elemSize d3.GetType) % 18446744073709551616) := by
  rw [helem]
  refine ⟨?_, ?_, ?_⟩
  · exact searchLog_of_issued handle _ _ _ b1 b2 b3 workSpace _ rfl
      (issued_fwd_candidates env cd (AutoEnableProfiling.ctor handle).2 d1 b1 d2 b2 d3
        workSpace workSpaceSize exhaustiveSearch)
      ((FindConvFwdAlgorithm_handle env cd handle d1 d2 d3 b1 b2 b3 requestAlgoCount
        returnedAlgoCount perfResults workSpace workSpaceSize exhaustiveSearch).1 hvalid)
      h31 h32 h3t h3w hvalid.2.2.1
  · exact searchLog_of_issued handle _ _ _ b1 b2 b3 _ _ rfl
      (issued_bwd_data_candidates env cd _ _ _ d1 b1 d2 b2 d3 exhaustiveSearch)
      ((FindConvBwdDataAlgorithm_handle env cd handle d1 d2 d3 b1 b2 b3 requestAlgoCount
        returnedAlgoCount perfResults exhaustiveSearch).1 hvalid)
      h31 h32 h3t h3t hvalid.2.2.1
  · exact searchLog_of_issued handle _ _ _ b1 b2 b3 workSpace _ rfl
      (issued_bwd_weights_candidates env cd _ _ d1 b1 d2 b2 d3 workSpace workSpaceSize)
      ((FindConvBwdWeightsAlgorithm_handle env cd handle d1 d2 d3 b1 b2 b3 requestAlgoCount
        returnedAlgoCount perfResults workSpace workSpaceSize).1 hvalid)
      h31 h32 h3t h3w hvalid.2.2.1

theorem sample_fwd_unfold_logged :
    Event.Im2Col (buf 0) 0 [3, 32, 32, 3, 3, 32, 32, 1, 1, 1, 1] (buf 3) ∈
      (FindConvFwdAlgorithm_candidates sampleEnv sampleConv
        (AutoEnableProfiling.ctor sampleHandle).2 sampleX (buf 0) sampleW (buf 1) sampleY
        (buf 3) 200 false).2.log := by
  simp [FindConvFwdAlgorithm_candidates, FindConvFwdAlgorithm_gemm,
    FindConvFwdAlgorithm_winograd, FindConvFwdAlgorithm_direct, sampleEnv, sampleConv,
    sampleHandle, sampleX, sampleW, sampleY, buf, tie4, AutoEnableProfiling.ctor,
    Handle.EnableProfiling, Handle.Create, Im2ColGPU, Handle.run, GemmGeometry.FindSolution,
    GemmGeometry.RunGemm, Handle.GetKernelTime, FindFwdWinogradKernel, FindDirectKernel,
    Handle.GetKernel, Handle.find, runDirectKernels, Handle.Launch, sampleKernelInfo]

/-- C13 (counterexample): the sample forward search, given the caller's
workspace `buf 3`, issues the unfold with `buf 3` as its destination: a launch
that writes a caller-visible buffer, not the throwaway buffer created for the
call (which is `Buffer.created 0`). -/
theorem FindConvFwdAlgorithm_unfold_writes_workspace :
    Event.Im2Col (buf 0) 0 [3, 32, 32, 3, 3, 32, 32, 1, 1, 1, 1] (buf 3) ∈
      (FindConvFwdAlgorithm sampleEnv sampleConv sampleHandle sampleX (buf 0) sampleW (buf 1)
        sampleY (buf 2) 2 (some 0) (some sampleResults) (buf 3) 200 false).handle.log ∧
    (Event.Im2Col (buf 0) 0 [3, 32, 32, 3, 3, 32, 32, 1, 1, 1, 1] (buf 3)).target
      = some (buf 3) ∧
    buf 3 ≠ some (Buffer.created sampleHandle.created) := by
  refine ⟨?_, rfl, by simp [buf]⟩
  rw [(FindConvFwdAlgorithm_handle sampleEnv sampleConv sampleHandle sampleX sampleW sampleY
    (buf 0) (buf 1) (buf 2) 2 (some 0) (some sampleResults) (buf 3) 200 false).1
    (by simp [buf])]
  exact sample_fwd_unfold_logged

/-- Witness for C13 (as amended): the sample forward, backward-data and
backward-weights searches with four distinct caller buffers and 4-byte
elements; the output tensor has 8192 elements, the throwaway buffer 32768
bytes. -/
theorem Find_benchmarks_into_throwaway_witness :
    SearchLog sampleHandle
      (FindConvFwdAlgorithm sampleEnv sampleConv sampleHandle sampleX (buf 0) sampleW (buf 1)
        sampleY (buf 2) 2 (some 0) (some sampleResults) (buf 3) 200 false)
      (buf 2) (buf 3) 32768 ∧
    SearchLog sampleHandle
      (FindConvBwdDataAlgorithm sampleEnv sampleConv sampleHandle sampleX (buf 0) sampleW
        (buf 1) sampleY (buf 2) 2 (some 0) (some sampleResults) false)
      (buf 2) (some (Buffer.created 0)) 32768 ∧
    SearchLog sampleHandle
      (FindConvBwdWeightsAlgorithm sampleEnv sampleConv sampleHandle sampleX (buf 0) sampleW
        (buf 1) sampleY (buf 2) 2 (some 0) (some sampleResults) (buf 3) 200)
      (buf 2) (buf 3) 32768 :=
  Find_benchmarks_into_throwaway sampleEnv sampleConv sampleHandle sampleX sampleW sampleY
    (buf 0) (buf 1) (buf 2) 2 (some 0) (some sampleResults) (buf 3) 200 false
    (by simp [buf]) (by simp [buf]) (by simp [buf]) (by simp [buf]) (by simp [buf])
    (fun _ => 4) rfl

/-! ## What a successful Execute call has launched -/

theorem ConvolutionForward_direct_log (env : Env) (cd : ConvolutionDescriptor)
    (handle : Handle) (xDesc : TensorDescriptor) (x : Data_t) (wDesc : TensorDescriptor)
    (w : Data_t) (yDesc : TensorDescriptor) (y : Data_t) (workSpace : Data_t)
    (workSpaceSize : Nat) :
    (ConvolutionForward env cd handle xDesc x wDesc w
      mlopenConvFwdAlgorithm_t.mlopenConvolutionFwdAlgoDirect yDesc y workSpace
      workSpaceSize).1 = Except.ok () →
    ∃ k, (ConvolutionForward env cd handle xDesc x wDesc w
        mlopenConvFwdAlgorithm_t.mlopenConvolutionFwdAlgoDirect yDesc y workSpace
        workSpaceSize).2.log = handle.log ++ [Event.Launch k [0] [x, w, y]] ∨
      ∃ k2, (ConvolutionForward env cd handle xDesc x wDesc w
        mlopenConvFwdAlgorithm_t.mlopenConvolutionFwdAlgoDirect yDesc y workSpace
        workSpaceSize).2.log
        = handle.log ++ [Event.Launch k [0] [x, w, y], Event.Launch k2 [0] [x, w, y]] := by
  generalize hres : ConvolutionForward env cd handle xDesc x wDesc w
      mlopenConvFwdAlgorithm_t.mlopenConvolutionFwdAlgoDirect yDesc y workSpace
      workSpaceSize = res
  unfold ConvolutionForward at hres
  dsimp only at hres
  intro hok
  repeat' (split at hres)
  all_goals subst hres
  all_goals first
    | (simp at hok; done)
    | exact ⟨_, Or.inl rfl⟩
    | skip
  rename_i _ k1 _ _ _ _ k2 _
  exact ⟨k1, Or.inr ⟨k2, by
    simp [Handle.Launch, Handle.run, Handle.AccumKernelTime, Handle.ResetKernelTime]⟩⟩

theorem ConvolutionForward_winograd_log (env : Env) (cd : ConvolutionDescriptor)
    (handle : Handle) (xDesc : TensorDescriptor) (x : Data_t) (wDesc : TensorDescriptor)
    (w : Data_t) (yDesc : TensorDescriptor) (y : Data_t) (workSpace : Data_t)
    (workSpaceSize : Nat) :
    (ConvolutionForward env cd handle xDesc x wDesc w
      mlopenConvFwdAlgorithm_t.mlopenConvolutionFwdAlgoWinograd yDesc y workSpace
      workSpaceSize).1 = Except.ok () →
    ∃ k ints, (ConvolutionForward env cd handle xDesc x wDesc w
        mlopenConvFwdAlgorithm_t.mlopenConvolutionFwdAlgoWinograd yDesc y workSpace
        workSpaceSize).2.log = handle.log ++ [Event.Launch k ints [x, w, y, none]] := by
  generalize hres : ConvolutionForward env cd handle xDesc x wDesc w
      mlopenConvFwdAlgorithm_t.mlopenConvolutionFwdAlgoWinograd yDesc y workSpace
      workSpaceSize = res
  unfold ConvolutionForward at hres
  dsimp only at hres
  intro hok
  repeat' (split at hres)
  all_goals subst hres
  all_goals first
    | (simp at hok; done)
    | exact ⟨_, _, rfl⟩

theorem ConvolutionBackwardData_log (env : Env) (handle : Handle)
    (dyDesc : TensorDescriptor) (dy : Data_t) (wDesc : TensorDescriptor) (w : Data_t)
    (dxDesc : TensorDescriptor) (dx : Data_t) :
    (ConvolutionBackwardData env handle dyDesc dy wDesc w dxDesc dx).1 = Except.ok () →
    ∃ k, (ConvolutionBackwardData env handle dyDesc dy wDesc w dxDesc dx).2.log
      = handle.log ++ [Event.Launch k [0] [dy, w, dx]] := by
  generalize hres : ConvolutionBackwardData env handle dyDesc dy wDesc w dxDesc dx = res
  unfold ConvolutionBackwardData at hres
  dsimp only at hres
  intro hok
  repeat' (split at hres)
  all_goals subst hres
  all_goals first
    | (simp at hok; done)
    | exact ⟨_, rfl⟩

theorem ConvolutionBackwardWeights_direct_log (env : Env) (cd : ConvolutionDescriptor)
    (handle : Handle) (dyDesc : TensorDescriptor) (dy : Data_t) (xDesc : TensorDescriptor)
    (x : Data_t) (dwDesc : TensorDescriptor) (dw : Data_t) (workSpace : Data_t)
    (workSpaceSize : Nat) (in_n in_c in_h in_w wei_n wei_c wei_h wei_w : Int)
    (hxl : xDesc.lens = [in_n, in_c, in_h, in_w])
    (hwl : dwDesc.lens = [wei_n, wei_c, wei_h, wei_w]) :
    (ConvolutionBackwardWeights env cd handle dyDesc dy xDesc x
      mlopenConvBwdWeightsAlgorithm_t.mlopenConvolutionBwdWeightsAlgoDirect dwDesc dw
      workSpace workSpaceSize).1 = Except.ok () →
    (bwdWeightsDirectGuard in_h in_w wei_h wei_w = true →
      (∃ k, (ConvolutionBackwardWeights env cd handle dyDesc dy xDesc x
          mlopenConvBwdWeightsAlgorithm_t.mlopenConvolutionBwdWeightsAlgoDirect dwDesc dw
          workSpace workSpaceSize).2.log = handle.log ++ [Event.Launch k [0] [dy, x, dw]]) ∨
      (∃ k k2, (ConvolutionBackwardWeights env cd handle dyDesc dy xDesc x
          mlopenConvBwdWeightsAlgorithm_t.mlopenConvolutionBwdWeightsAlgoDirect dwDesc dw
          workSpace workSpaceSize).2.log
          = handle.log ++ [Event.Launch k [0] [dy, x, workSpace],
              Event.Launch k2 [] [workSpace, dw]])) ∧
    (bwdWeightsDirectGuard in_h in_w wei_h wei_w = false →
      (ConvolutionBackwardWeights env cd handle dyDesc dy xDesc x
        mlopenConvBwdWeightsAlgorithm_t.mlopenConvolutionBwdWeightsAlgoDirect dwDesc dw
        workSpace workSpaceSize).2 = handle) := by
  generalize hres : ConvolutionBackwardWeights env cd handle dyDesc dy xDesc x
      mlopenConvBwdWeightsAlgorithm_t.mlopenConvolutionBwdWeightsAlgoDirect dwDesc dw
      workSpace workSpaceSize = res
  unfold ConvolutionBackwardWeights at hres
  simp only [hxl, hwl, tie4] at hres
  intro hok
  repeat' (split at hres)
  all_goals subst hres
  all_goals first
    | (simp at hok; done)
    | skip
  all_goals simp only [Option.some.injEq, Prod.mk.injEq] at *
  all_goals casesm* _ ∧ _
  all_goals subst_vars
  · refine ⟨fun _ => Or.inl ⟨_, rfl⟩, fun hf => ?_⟩
    simp_all
  · rename_i _ k1 _ _ k2 _
    refine ⟨fun _ => Or.inr ⟨k1, k2, ?_⟩, fun hf => ?_⟩
    · simp [Handle.Launch, Handle.run, Handle.AccumKernelTime, Handle.ResetKernelTime]
    · simp_all
  · refine ⟨fun ht => ?_, fun _ => trivial⟩
    simp_all

theorem ConvolutionForward_gemmStep_log (env : Env) (cd : ConvolutionDescriptor)
    (gg : GemmGeometry) (x w y workSpace : Data_t)
    (in_n in_c in_h in_w wei_n wei_h wei_w out_h out_w : Int) (st : ℚ × ℚ × Handle) (i : Nat)
    (hshape : wei_h = 1 ↔ wei_w = 1) :
    (ConvolutionForward_gemmStep env cd gg x w y workSpace in_n in_c in_h in_w wei_n wei_h
      wei_w out_h out_w st i).2.2.log
      = st.2.2.log ++ ConvolutionForward_gemmCommands cd gg x w y workSpace in_c in_h in_w
          wei_n wei_h wei_w out_h out_w i := by
  unfold ConvolutionForward_gemmStep ConvolutionForward_gemmCommands
  by_cases h1 : wei_h = 1
  · have h2 : wei_w = 1 := hshape.1 h1
    simp only [h1, h2, ne_eq, not_true_eq_false, and_self, if_false, if_true]
    split
    · split <;> simp [GemmGeometry.RunGemm, Handle.run, Handle.AccumKernelTime]
    · simp [GemmGeometry.RunGemm, Handle.run]
  · have h2 : ¬ wei_w = 1 := fun h => h1 (hshape.2 h)
    simp only [h1, h2, ne_eq, not_false_eq_true, and_self, if_true, false_and, if_false]
    split
    · split <;>
      simp [GemmGeometry.RunGemm, Im2ColGPU, Handle.run, Handle.AccumKernelTime]
    · simp [GemmGeometry.RunGemm, Im2ColGPU, Handle.run]

theorem ConvolutionForward_gemmLoop_log (env : Env) (cd : ConvolutionDescriptor)
    (gg : GemmGeometry) (x w y workSpace : Data_t)
    (in_n in_c in_h in_w wei_n wei_h wei_w out_h out_w : Int)
    (hshape : wei_h = 1 ↔ wei_w = 1) (l : List Nat) :
    ∀ st : ℚ × ℚ × Handle,
    (l.foldl (ConvolutionForward_gemmStep env cd gg x w y workSpace in_n in_c in_h in_w wei_n
      wei_h wei_w out_h out_w) st).2.2.log
      = st.2.2.log ++ (l.map (ConvolutionForward_gemmCommands cd gg x w y workSpace in_c in_h
          in_w wei_n wei_h wei_w out_h out_w)).flatten := by
  induction l with
  | nil => intro st; simp
  | cons i l ih =>
    intro st
    rw [List.foldl_cons, ih, ConvolutionForward_gemmStep_log _ _ _ _ _ _ _ _ _ _ _ _ _ _ _ _ _ _ hshape]
    simp

theorem ConvolutionBackwardWeights_gemmStep_log (env : Env) (cd : ConvolutionDescriptor)
    (gg : GemmGeometry) (dy x dw workSpace : Data_t)
    (in_n in_c in_h in_w wei_n wei_h wei_w out_h out_w : Int) (st : ℚ × ℚ × Handle) (i : Nat)
    (hshape : wei_h = 1 ↔ wei_w = 1) :
    (ConvolutionBackwardWeights_gemmStep env cd gg dy x dw workSpace in_n in_c in_h in_w wei_n wei_h
      wei_w out_h out_w st i).2.2.log
      = st.2.2.log ++ ConvolutionBackwardWeights_gemmCommands cd gg dy x dw workSpace in_c in_h in_w
          wei_n wei_h wei_w out_h out_w i := by
  unfold ConvolutionBackwardWeights_gemmStep ConvolutionBackwardWeights_gemmCommands
  by_cases h1 : wei_h = 1
  · have h2 : wei_w = 1 := hshape.1 h1
    simp only [h1, h2, ne_eq, not_true_eq_false, and_self, if_false, if_true]
    split
    · split <;> simp [GemmGeometry.RunGemm, Handle.run, Handle.AccumKernelTime]
    · simp [GemmGeometry.RunGemm, Handle.run]
  · have h2 : ¬ wei_w = 1 := fun h => h1 (hshape.2 h)
    simp only [h1, h2, ne_eq, not_false_eq_true, and_self, if_true, false_and, if_false]
    split
    · split <;>
      simp [GemmGeometry.RunGemm, Im2ColGPU, Handle.run, Handle.AccumKernelTime]
    · simp [GemmGeometry.RunGemm, Im2ColGPU, Handle.run]

theorem ConvolutionBackwardWeights_gemmLoop_log (env : Env) (cd : ConvolutionDescriptor)
    (gg : GemmGeometry) (dy x dw workSpace : Data_t)
    (in_n in_c in_h in_w wei_n wei_h wei_w out_h out_w : Int)
    (hshape : wei_h = 1 ↔ wei_w = 1) (l : List Nat) :
    ∀ st : ℚ × ℚ × Handle,
    (l.foldl (ConvolutionBackwardWeights_gemmStep env cd gg dy x dw workSpace in_n in_c in_h in_w wei_n
      wei_h wei_w out_h out_w) st).2.2.log
      = st.2.2.log ++ (l.map (ConvolutionBackwardWeights_gemmCommands cd gg dy x dw workSpace in_c in_h
          in_w wei_n wei_h wei_w out_h out_w)).flatten := by
  induction l with
  | nil => intro st; simp
  | cons i l ih =>
    intro st
    rw [List.foldl_cons, ih, ConvolutionBackwardWeights_gemmStep_log _ _ _ _ _ _ _ _ _ _ _ _ _ _ _ _ _ _ hshape]
    simp

theorem ConvolutionForward_gemm_log (env : Env) (cd : ConvolutionDescriptor)
    (handle : Handle) (xDesc : TensorDescriptor) (x : Data_t) (wDesc : TensorDescriptor)
    (w : Data_t) (yDesc : TensorDescriptor) (y : Data_t) (workSpace : Data_t)
    (workSpaceSize : Nat)
    (in_n in_c in_h in_w wei_n wei_c wei_h wei_w out_n out_c out_h out_w : Int)
    (hxl : xDesc.lens = [in_n, in_c, in_h, in_w])
    (hwl : wDesc.lens = [wei_n, wei_c, wei_h, wei_w])
    (hyl : yDesc.lens = [out_n, out_c, out_h, out_w])
    (hshape : wei_h = 1 ↔ wei_w = 1) :
    (ConvolutionForward env cd handle xDesc x wDesc w
      mlopenConvFwdAlgorithm_t.mlopenConvolutionFwdAlgoGEMM yDesc y workSpace workSpaceSize).1 = Except.ok () →
    (ConvolutionForward env cd handle xDesc x wDesc w
      mlopenConvFwdAlgorithm_t.mlopenConvolutionFwdAlgoGEMM yDesc y workSpace workSpaceSize).2.log
      = handle.log ++ ((List.range in_n.toNat).map
          (ConvolutionForward_gemmCommands cd
            ⟨"mlopenConvolutionFwdAlgoGEMM", env.gemmConfigFwd xDesc wDesc yDesc⟩
            x w y workSpace in_c in_h in_w wei_n wei_h wei_w out_h out_w)).flatten := by
  generalize hres : ConvolutionForward env cd handle xDesc x wDesc w
      mlopenConvFwdAlgorithm_t.mlopenConvolutionFwdAlgoGEMM yDesc y workSpace workSpaceSize = res
  unfold ConvolutionForward at hres
  simp only [hxl, hwl, hyl, tie4] at hres
  intro hok
  repeat' (split at hres)
  all_goals subst hres
  all_goals first
    | (simp at hok; done)
    | exact ConvolutionForward_gemmLoop_log env cd _ x w y workSpace in_n in_c in_h in_w
        wei_n wei_h wei_w out_h out_w hshape _ _

theorem ConvolutionBackwardWeights_gemm_log (env : Env) (cd : ConvolutionDescriptor)
    (handle : Handle) (dyDesc : TensorDescriptor) (dy : Data_t) (xDesc : TensorDescriptor)
    (x : Data_t) (dwDesc : TensorDescriptor) (dw : Data_t) (workSpace : Data_t)
    (workSpaceSize : Nat)
    (in_n in_c in_h in_w wei_n wei_c wei_h wei_w out_n out_c out_h out_w : Int)
    (hxl : xDesc.lens = [in_n, in_c, in_h, in_w])
    (hwl : dwDesc.lens = [wei_n, wei_c, wei_h, wei_w])
    (hyl : dyDesc.lens = [out_n, out_c, out_h, out_w])
    (hshape : wei_h = 1 ↔ wei_w = 1) :
    (ConvolutionBackwardWeights env cd handle dyDesc dy xDesc x
      mlopenConvBwdWeightsAlgorithm_t.mlopenConvolutionBwdWeightsAlgoGEMM dwDesc dw workSpace workSpaceSize).1 = Except.ok () →
    (ConvolutionBackwardWeights env cd handle dyDesc dy xDesc x
      mlopenConvBwdWeightsAlgorithm_t.mlopenConvolutionBwdWeightsAlgoGEMM dwDesc dw workSpace workSpaceSize).2.log
      = handle.log ++ ((List.range in_n.toNat).map
          (ConvolutionBackwardWeights_gemmCommands cd
            ⟨"mlopenConvolutionBwdWeightsAlgoGEMM",
              env.gemmConfigBwdWeights dyDesc xDesc dwDesc⟩
            dy x dw workSpace in_c in_h in_w wei_n wei_h wei_w out_h out_w)).flatten := by
  generalize hres : ConvolutionBackwardWeights env cd handle dyDesc dy xDesc x
      mlopenConvBwdWeightsAlgorithm_t.mlopenConvolutionBwdWeightsAlgoGEMM dwDesc dw workSpace workSpaceSize = res
  unfold ConvolutionBackwardWeights at hres
  simp only [hxl, hwl, hyl, tie4] at hres
  intro hok
  repeat' (split at hres)
  all_goals subst hres
  all_goals first
    | (simp at hok; done)
    | exact ConvolutionBackwardWeights_gemmLoop_log env cd _ dy x dw workSpace in_n in_c
        in_h in_w wei_n wei_h wei_w out_h out_w hshape _ _

/-- C11 (as amended): an Execute call that returns without error has issued,
after whatever the handle had issued before, exactly these commands.
ConvolutionForward, Direct: one launch on (x, w, y), or two for the two-pass
program.  ConvolutionForward, Winograd: one launch on (x, w, y).
ConvolutionBackwardData: one launch on (dy, w, dx).  The GEMM branches of
ConvolutionForward and ConvolutionBackwardWeights, for a filter that is 1x1 or
has no dimension equal to 1: for each sample i in [0, N) in order, (the unfold
and) exactly one matrix multiply writing the output buffer; nothing when N is
not positive.  ConvolutionBackwardWeights, Direct, when the shape guard
(wei_w >= wei_h and not (in_h * in_w > 8192 and the filter is 1x1)) holds: one
launch on (dy, x, dw), or the main launch into the workspace followed by the
reduction launch on (workspace, dw); when the guard does not hold, the call has
issued nothing and left the handle untouched. -/
theorem Execute_success_launches (env : Env) (cd : ConvolutionDescriptor) (handle : Handle)
    (d1 d2 d3 : TensorDescriptor) (b1 b2 b3 workSpace : Data_t) (workSpaceSize : Nat) :
    ((ConvolutionForward env cd handle d1 b1 d2 b2 mlopenConvFwdAlgorithm_t.mlopenConvolutionFwdAlgoDirect d3 b3 workSpace workSpaceSize).1
        = Except.ok () →
      ∃ k, (ConvolutionForward env cd handle d1 b1 d2 b2 mlopenConvFwdAlgorithm_t.mlopenConvolutionFwdAlgoDirect d3 b3 workSpace
          workSpaceSize).2.log = handle.log ++ [Event.Launch k [0] [b1, b2, b3]] ∨
        ∃ k2, (ConvolutionForward env cd handle d1 b1 d2 b2 mlopenConvFwdAlgorithm_t.mlopenConvolutionFwdAlgoDirect d3 b3 workSpace
          workSpaceSize).2.log
          = handle.log ++ [Event.Launch k [0] [b1, b2, b3],
              Event.Launch k2 [0] [b1, b2, b3]]) ∧
    ((ConvolutionForward env cd handle d1 b1 d2 b2 mlopenConvFwdAlgorithm_t.mlopenConvolutionFwdAlgoWinograd d3 b3 workSpace workSpaceSize).1
        = Except.ok () →
      ∃ k ints, (ConvolutionForward env cd handle d1 b1 d2 b2 mlopenConvFwdAlgorithm_t.mlopenConvolutionFwdAlgoWinograd d3 b3 workSpace
          workSpaceSize).2.log = handle.log ++ [Event.Launch k ints [b1, b2, b3, none]]) ∧
    ((ConvolutionBackwardData env handle d1 b1 d2 b2 d3 b3).1 = Except.ok () →
      ∃ k, (ConvolutionBackwardData env handle d1 b1 d2 b2 d3 b3).2.log
        = handle.log ++ [Event.Launch k [0] [b1, b2, b3]]) ∧
    (∀ in_n in_c in_h in_w wei_n wei_c wei_h wei_w out_n out_c out_h out_w : Int,
      d1.lens = [in_n, in_c, in_h, in_w] → d2.lens = [wei_n, wei_c, wei_h, wei_w] →
      d3.lens = [out_n, out_c, out_h, out_w] → (wei_h = 1 ↔ wei_w = 1) →
      (ConvolutionForward env cd handle d1 b1 d2 b2 mlopenConvFwdAlgorithm_t.mlopenConvolutionFwdAlgoGEMM d3 b3 workSpace workSpaceSize).1
        = Except.ok () →
      (ConvolutionForward env cd handle d1 b1 d2 b2 mlopenConvFwdAlgorithm_t.mlopenConvolutionFwdAlgoGEMM d3 b3 workSpace
        workSpaceSize).2.log
        = handle.log ++ ((List.range in_n.toNat).map
            (ConvolutionForward_gemmCommands cd
              ⟨"mlopenConvolutionFwdAlgoGEMM", env.gemmConfigFwd d1 d2 d3⟩
              b1 b2 b3 workSpace in_c in_h in_w wei_n wei_h wei_w out_h out_w)).flatten) ∧
    (∀ in_n in_c in_h in_w wei_n wei_c wei_h wei_w out_n out_c out_h out_w : Int,
      d2.lens = [in_n, in_c, in_h, in_w] → d3.lens = [wei_n, wei_c, wei_h, wei_w] →
      d1.lens = [out_n, out_c, out_h, out_w] → (wei_h = 1 ↔ wei_w = 1) →
      (ConvolutionBackwardWeights env cd handle d1 b1 d2 b2 mlopenConvBwdWeightsAlgorithm_t.mlopenConvolutionBwdWeightsAlgoGEMM d3 b3 workSpace
        workSpaceSize).1 = Except.ok () →
      (ConvolutionBackwardWeights env cd handle d1 b1 d2 b2 mlopenConvBwdWeightsAlgorithm_t.mlopenConvolutionBwdWeightsAlgoGEMM d3 b3 workSpace
        workSpaceSize).2.log
        = handle.log ++ ((List.range in_n.toNat).map
            (ConvolutionBackwardWeights_gemmCommands cd
              ⟨"mlopenConvolutionBwdWeightsAlgoGEMM", env.gemmConfigBwdWeights d1 d2 d3⟩
              b1 b2 b3 workSpace in_c in_h in_w wei_n wei_h wei_w out_h out_w)).flatten) ∧
    (∀ in_n in_c in_h in_w wei_n wei_c wei_h wei_w : Int,
      d2.lens = [in_n, in_c, in_h, in_w] → d3.lens = [wei_n, wei_c, wei_h, wei_w] →
      (ConvolutionBackwardWeights env cd handle d1 b1 d2 b2 mlopenConvBwdWeightsAlgorithm_t.mlopenConvolutionBwdWeightsAlgoDirect d3 b3 workSpace
        workSpaceSize).1 = Except.ok () →
      (bwdWeightsDirectGuard in_h in_w wei_h wei_w = true →
        (∃ k, (ConvolutionBackwardWeights env cd handle d1 b1 d2 b2 mlopenConvBwdWeightsAlgorithm_t.mlopenConvolutionBwdWeightsAlgoDirect d3 b3 workSpace
            workSpaceSize).2.log = handle.log ++ [Event.Launch k [0] [b1, b2, b3]]) ∨
        (∃ k k2, (ConvolutionBackwardWeights env cd handle d1 b1 d2 b2 mlopenConvBwdWeightsAlgorithm_t.mlopenConvolutionBwdWeightsAlgoDirect d3 b3 workSpace
            workSpaceSize).2.log
            = handle.log ++ [Event.Launch k [0] [b1, b2, workSpace],
                Event.Launch k2 [] [workSpace, b3]])) ∧
      (bwdWeightsDirectGuard in_h in_w wei_h wei_w = false →
        (ConvolutionBackwardWeights env cd handle d1 b1 d2 b2 mlopenConvBwdWeightsAlgorithm_t.mlopenConvolutionBwdWeightsAlgoDirect d3 b3 workSpace
          workSpaceSize).2 = handle)) := by
  refine ⟨ConvolutionForward_direct_log env cd handle d1 b1 d2 b2 d3 b3 workSpace
      workSpaceSize,
    ConvolutionForward_winograd_log env cd handle d1 b1 d2 b2 d3 b3 workSpace workSpaceSize,
    ConvolutionBackwardData_log env handle d1 b1 d2 b2 d3 b3, ?_, ?_, ?_⟩
  · intro in_n in_c in_h in_w wei_n wei_c wei_h wei_w out_n out_c out_h out_w hxl hwl hyl
      hshape
    exact ConvolutionForward_gemm_log env cd handle d1 b1 d2 b2 d3 b3 workSpace
      workSpaceSize in_n in_c in_h in_w wei_n wei_c wei_h wei_w out_n out_c out_h out_w
      hxl hwl hyl hshape
  · intro in_n in_c in_h in_w wei_n wei_c wei_h wei_w out_n out_c out_h out_w hxl hwl hyl
      hshape
    exact ConvolutionBackwardWeights_gemm_log env cd handle d1 b1 d2 b2 d3 b3 workSpace
      workSpaceSize in_n in_c in_h in_w wei_n wei_c wei_h wei_w out_n out_c out_h out_w
      hxl hwl hyl hshape
  · intro in_n in_c in_h in_w wei_n wei_c wei_h wei_w hxl hwl
    exact ConvolutionBackwardWeights_direct_log env cd handle d1 b1 d2 b2 d3 b3 workSpace
      workSpaceSize in_n in_c in_h in_w wei_n wei_c wei_h wei_w hxl hwl

/-- C11 (counterexample): ConvolutionBackwardWeights with the Direct algorithm
on a 3x1 filter (taller than wide), with non-null buffers, matching ranks,
types and batch sizes and a sufficient workspace, returns success having issued
nothing: the handle is exactly as before the call and its log is empty. -/
theorem ConvolutionBackwardWeights_direct_tall_filter_launches_nothing :
    ConvolutionBackwardWeights sampleEnv sampleConv sampleHandle sampleYTall (buf 0)
      sampleX (buf 1) mlopenConvBwdWeightsAlgorithm_t.mlopenConvolutionBwdWeightsAlgoDirect sampleTallW (buf 2) (buf 3) 200
      = (Except.ok (), sampleHandle) ∧
    sampleHandle.log = [] := by
  refine ⟨?_, rfl⟩
  simp [ConvolutionBackwardWeights, sampleYTall, sampleX, sampleTallW, buf,
    TensorDescriptor.GetSize, TensorDescriptor.GetType, TensorDescriptor.GetLength, tie4,
    bwdWeightsDirectGuard, imul, wrap32]

theorem sample_fwd_gemm_ok :
    (ConvolutionForward sampleEnv sampleConv sampleHandle sampleX (buf 0) sampleW (buf 1)
      mlopenConvFwdAlgorithm_t.mlopenConvolutionFwdAlgoGEMM sampleY (buf 2) (buf 3) 200).1 = Except.ok () := by
  simp [ConvolutionForward, sampleX, sampleW, sampleY, buf, sampleEnv,
    TensorDescriptor.GetSize, TensorDescriptor.GetType, TensorDescriptor.GetLength, tie4]

/-- Witness for C11 (as amended): the GEMM branch of ConvolutionForward on the
sample 3x3 problem with one sample and a 200-byte workspace issues the unfold
into the workspace and one matrix multiply writing y. -/
theorem Execute_success_launches_witness :
    (ConvolutionForward sampleEnv sampleConv sampleHandle sampleX (buf 0) sampleW (buf 1)
      mlopenConvFwdAlgorithm_t.mlopenConvolutionFwdAlgoGEMM sampleY (buf 2) (buf 3) 200).2.log
      = [Event.Im2Col (buf 0) 0 [3, 32, 32, 3, 3, 32, 32, 1, 1, 1, 1] (buf 3),
         Event.RunGemm ⟨"mlopenConvolutionFwdAlgoGEMM", "g"⟩ (buf 3) (buf 1) (buf 2) 0 0 0] := by
  have h := (Execute_success_launches sampleEnv sampleConv sampleHandle sampleX sampleW
    sampleY (buf 0) (buf 1) (buf 2) (buf 3) 200).2.2.2.1 1 3 32 32 8 3 3 3 1 8 32 32
    rfl rfl rfl (by decide) sample_fwd_gemm_ok
  rw [h]
  simp [List.range, List.range.loop, ConvolutionForward_gemmCommands, offset4, imul, wrap32,
    toSizeT, sampleEnv, sampleHandle, sampleConv]

/-! ## How many records a search returns -/

theorem FindConvFwdAlgorithm_gemm_names (env : Env) (cd : ConvolutionDescriptor)
    (h0 : Handle) (xDesc : TensorDescriptor) (x : Data_t) (wDesc : TensorDescriptor)
    (w : Data_t) (yDesc : TensorDescriptor) (tmp_y workSpace : Data_t) (workSpaceSize : Nat)
    (in_n in_c in_h in_w wei_h wei_w out_h out_w : Int) :
    (FindConvFwdAlgorithm_gemm env cd h0 xDesc x wDesc w yDesc tmp_y workSpace workSpaceSize
      in_n in_c in_h in_w wei_h wei_w out_h out_w).1.map PerfField.name
    = (if env.MLOPEN_USE_TINYGEMM = true ∧ ((wei_h = 1 ∧ wei_w = 1) ∨
        (workSpace ≠ none ∧ workSpaceSize ≥ env.ForwardGetWorkSpaceSize cd wDesc yDesc))
      then ["mlopenConvolutionFwdAlgoGEMM"] else []) := by
  unfold FindConvFwdAlgorithm_gemm
  dsimp only
  by_cases hg : env.MLOPEN_USE_TINYGEMM = true
  · by_cases h1 : wei_h = 1 ∧ wei_w = 1
    · rw [if_pos hg, if_pos h1, if_pos ⟨hg, Or.inl h1⟩]
      rfl
    · by_cases hw : workSpace ≠ none ∧ workSpaceSize ≥ env.ForwardGetWorkSpaceSize cd wDesc yDesc
      · rw [if_pos hg, if_neg h1, if_pos hw, if_pos ⟨hg, Or.inr hw⟩]
        rfl
      · rw [if_pos hg, if_neg h1, if_neg hw, if_neg (fun h => h.2.elim h1 hw)]
        rfl
  · rw [if_neg hg, if_neg (fun h => hg h.1)]
    rfl

theorem FindConvFwdAlgorithm_winograd_names (env : Env) (cd : ConvolutionDescriptor)
    (g : List PerfField × Handle) (xDesc : TensorDescriptor) (x : Data_t)
    (wDesc : TensorDescriptor) (w : Data_t) (yDesc : TensorDescriptor) (tmp_y : Data_t) :
    (FindConvFwdAlgorithm_winograd env cd g xDesc x wDesc w yDesc tmp_y).1.map PerfField.name
    = g.1.map PerfField.name ++
      (if (env.mloConstruct (winogradFindParams cd xDesc wDesc yDesc)).result ≠ -1
        then ["mlopenConvolutionFwdAlgoWinograd"] else []) := by
  unfold FindConvFwdAlgorithm_winograd FindFwdWinogradKernel winogradFindParams
  dsimp only
  by_cases hr : (env.mloConstruct
      { family := ConstructFamily.winograd, direction := 1, stream := true,
        outputDesc := some yDesc, inputDesc := some xDesc, weightDesc := some wDesc,
        convDescr := some cd }).result ≠ -1
  · rw [if_pos hr, if_pos hr]
    simp
  · rw [if_neg hr, if_neg hr]
    simp

theorem FindConvFwdAlgorithm_direct_total (env : Env) (cd : ConvolutionDescriptor)
    (wino : List PerfField × Handle) (xDesc : TensorDescriptor) (x : Data_t)
    (wDesc : TensorDescriptor) (w : Data_t) (yDesc : TensorDescriptor) (tmp_y : Data_t)
    (exhaustiveSearch : Bool)
    (hn : (env.mloConstruct (directFindParams cd xDesc wDesc yDesc exhaustiveSearch
        1)).kernelFile = "MLOpenConvFwd_LxL_11.cl" →
      1 ≤ (env.mloConstruct (directFindParams cd xDesc wDesc yDesc exhaustiveSearch
        1)).kernelsInfo.length) :
    ∃ (t : ℚ) (h1 : Handle),
      FindConvFwdAlgorithm_direct env cd wino xDesc x wDesc w yDesc tmp_y exhaustiveSearch
        = (Except.ok (wino.1 ++ [⟨"mlopenConvolutionFwdAlgoDirect", t, 0⟩]), h1) := by
  obtain ⟨added, h1, hfd, _⟩ := FindDirectKernel_total env cd wino.2 xDesc wDesc yDesc []
    exhaustiveSearch 1 hn
  unfold FindConvFwdAlgorithm_direct
  rw [hfd]
  exact ⟨_, _, rfl⟩

theorem FindConvFwdAlgorithm_candidates_names (env : Env) (cd : ConvolutionDescriptor)
    (handle : Handle) (xDesc : TensorDescriptor) (x : Data_t) (wDesc : TensorDescriptor)
    (w : Data_t) (yDesc : TensorDescriptor) (workSpace : Data_t) (workSpaceSize : Nat)
    (exhaustiveSearch : Bool)
    (in_n in_c in_h in_w wei_n wei_c wei_h wei_w out_n out_c out_h out_w : Int)
    (hxl : xDesc.lens = [in_n, in_c, in_h, in_w])
    (hwl : wDesc.lens = [wei_n, wei_c, wei_h, wei_w])
    (hyl : yDesc.lens = [out_n, out_c, out_h, out_w])
    (hn : (env.mloConstruct (directFindParams cd xDesc wDesc yDesc exhaustiveSearch
        1)).kernelFile = "MLOpenConvFwd_LxL_11.cl" →
      1 ≤ (env.mloConstruct (directFindParams cd xDesc wDesc yDesc exhaustiveSearch
        1)).kernelsInfo.length) :
    ∃ (R : List PerfField) (h1 : Handle),
      FindConvFwdAlgorithm_candidates env cd handle xDesc x wDesc w yDesc workSpace
        workSpaceSize exhaustiveSearch = (Except.ok R, h1) ∧
      R.map PerfField.name = FindConvFwdAlgorithm_recorded env cd xDesc wDesc yDesc workSpace
        workSpaceSize wei_h wei_w := by
  unfold FindConvFwdAlgorithm_candidates
  simp only [hxl, hwl, hyl, tie4]
  obtain ⟨t, h1, hd⟩ := FindConvFwdAlgorithm_direct_total env cd
    (FindConvFwdAlgorithm_winograd env cd
      (FindConvFwdAlgorithm_gemm env cd
        (handle.Create (toSizeT yDesc.GetElementSize * sizeof_GetType % 18446744073709551616)).2
        xDesc x wDesc w yDesc
        (some (handle.Create
          (toSizeT yDesc.GetElementSize * sizeof_GetType % 18446744073709551616)).1)
        workSpace workSpaceSize in_n in_c in_h in_w wei_h wei_w out_h out_w)
      xDesc x wDesc w yDesc
      (some (handle.Create
        (toSizeT yDesc.GetElementSize * sizeof_GetType % 18446744073709551616)).1))
    xDesc x wDesc w yDesc
    (some (handle.Create
      (toSizeT yDesc.GetElementSize * sizeof_GetType % 18446744073709551616)).1)
    exhaustiveSearch hn
  rw [hd]
  refine ⟨_, _, rfl, ?_⟩
  rw [List.map_append, FindConvFwdAlgorithm_winograd_names, FindConvFwdAlgorithm_gemm_names]
  rfl

theorem FindConvBwdWeightsAlgorithm_gemm_names (env : Env) (cd : ConvolutionDescriptor)
    (handle : Handle) (tmp_dw : Data_t) (dyDesc : TensorDescriptor) (dy : Data_t)
    (xDesc : TensorDescriptor) (x : Data_t) (dwDesc : TensorDescriptor) (workSpace : Data_t)
    (workSpaceSize : Nat) (in_n in_c in_h in_w wei_h wei_w out_h out_w : Int) :
    (FindConvBwdWeightsAlgorithm_gemm env cd handle tmp_dw dyDesc dy xDesc x dwDesc workSpace
      workSpaceSize in_n in_c in_h in_w wei_h wei_w out_h out_w).1.map PerfField.name
    = (if env.MLOPEN_USE_TINYGEMM = true ∧ ((wei_h = 1 ∧ wei_w = 1) ∨
        (workSpace ≠ none ∧
          workSpaceSize ≥ env.BackwardWeightsGetWorkSpaceSizeGEMM cd dyDesc dwDesc))
      then ["mlopenConvolutionBwdWeightsAlgoGEMM"] else []) := by
  unfold FindConvBwdWeightsAlgorithm_gemm
  dsimp only
  by_cases hg : env.MLOPEN_USE_TINYGEMM = true
  · by_cases h1 : wei_h = 1 ∧ wei_w = 1
    · rw [if_pos hg, if_pos h1, if_pos ⟨hg, Or.inl h1⟩]
      rfl
    · by_cases hw : workSpace ≠ none ∧
          workSpaceSize ≥ env.BackwardWeightsGetWorkSpaceSizeGEMM cd dyDesc dwDesc
      · rw [if_pos hg, if_neg h1, if_pos hw, if_pos ⟨hg, Or.inr hw⟩]
        rfl
      · rw [if_pos hg, if_neg h1, if_neg hw, if_neg (fun h => h.2.elim h1 hw)]
        rfl
  · rw [if_neg hg, if_neg (fun h => hg h.1)]
    rfl

theorem FindConvBwdWeightsAlgorithm_direct_names (env : Env) (cd : ConvolutionDescriptor)
    (g : List PerfField × Handle) (dyDesc xDesc dwDesc : TensorDescriptor)
    (workSpace : Data_t) (workSpaceSize : Nat) (in_h in_w wei_h wei_w : Int)
    (hn : bwdWeightsDirectGuard in_h in_w wei_h wei_w = true →
      1 ≤ (env.mloConstruct (bwdWeightsFindParams cd dyDesc xDesc dwDesc)).kernelsInfo.length) :
    ∃ (R : List PerfField) (h1 : Handle),
      FindConvBwdWeightsAlgorithm_direct env cd g dyDesc xDesc dwDesc workSpace workSpaceSize
        in_h in_w wei_h wei_w = (Except.ok R, h1) ∧
      R.map PerfField.name = g.1.map PerfField.name ++
        (if bwdWeightsDirectGuard in_h in_w wei_h wei_w = true ∧
            ((env.mloConstruct
                (bwdWeightsFindParams cd dyDesc xDesc dwDesc)).kernelsInfo.length = 1 ∨
              (workSpace ≠ none ∧ workSpaceSize ≥
                env.BackwardWeightsGetWorkSpaceSizeDirect cd dyDesc xDesc dwDesc))
          then ["mlopenConvolutionBwdWeightsAlgoDirect"] else []) := by
  unfold FindConvBwdWeightsAlgorithm_direct
  unfold bwdWeightsFindParams at hn ⊢
  dsimp only
  by_cases hgd : bwdWeightsDirectGuard in_h in_w wei_h wei_w = true
  · have hlen := hn hgd
    rw [if_pos hgd]
    rcases hk : (env.mloConstruct
        { family := ConstructFamily.BwdWrW2D, direction := 0, doSearch := some false,
          stream := true, outputDesc := some dyDesc, inputDesc := some xDesc,
          weightDesc := some dwDesc, convDescr := some cd }).kernelsInfo
      with _ | ⟨a, _ | ⟨b, rest⟩⟩
    · rw [hk] at hlen
      simp at hlen
    · refine ⟨_, _, rfl, ?_⟩
      simp [hgd]
    · by_cases hw : workSpace ≠ none ∧ workSpaceSize ≥
          env.BackwardWeightsGetWorkSpaceSizeDirect cd dyDesc xDesc dwDesc
      · have hl : ¬ (a :: b :: rest).length = 1 := by simp
        rw [if_neg hl, if_pos hw]
        refine ⟨_, _, rfl, ?_⟩
        rw [if_pos ⟨hgd, Or.inr hw⟩]
        simp
      · have hl : ¬ (a :: b :: rest).length = 1 := by simp
        rw [if_neg hl, if_neg hw]
        refine ⟨_, _, rfl, ?_⟩
        rw [if_neg (fun h => h.2.elim hl hw)]
        simp
  · rw [if_neg hgd]
    refine ⟨_, _, rfl, ?_⟩
    rw [if_neg (fun h => hgd h.1)]
    simp

theorem FindConvBwdWeightsAlgorithm_candidates_names (env : Env) (cd : ConvolutionDescriptor)
    (handle : Handle) (tmp_dw : Data_t) (dyDesc : TensorDescriptor) (dy : Data_t)
    (xDesc : TensorDescriptor) (x : Data_t) (dwDesc : TensorDescriptor) (workSpace : Data_t)
    (workSpaceSize : Nat)
    (in_n in_c in_h in_w wei_n wei_c wei_h wei_w out_n out_c out_h out_w : Int)
    (hxl : xDesc.lens = [in_n, in_c, in_h, in_w])
    (hwl : dwDesc.lens = [wei_n, wei_c, wei_h, wei_w])
    (hyl : dyDesc.lens = [out_n, out_c, out_h, out_w])
    (hn : bwdWeightsDirectGuard in_h in_w wei_h wei_w = true →
      1 ≤ (env.mloConstruct (bwdWeightsFindParams cd dyDesc xDesc dwDesc)).kernelsInfo.length) :
    ∃ (R : List PerfField) (h1 : Handle),
      FindConvBwdWeightsAlgorithm_candidates env cd handle tmp_dw dyDesc dy xDesc x dwDesc
        workSpace workSpaceSize = (Except.ok R, h1) ∧
      R.map PerfField.name = FindConvBwdWeightsAlgorithm_recorded env cd dyDesc xDesc dwDesc
        workSpace workSpaceSize in_h in_w wei_h wei_w := by
  unfold FindConvBwdWeightsAlgorithm_candidates
  simp only [hxl, hwl, hyl, tie4]
  obtain ⟨R, h1, hd, hnames⟩ := FindConvBwdWeightsAlgorithm_direct_names env cd
    (FindConvBwdWeightsAlgorithm_gemm env cd handle tmp_dw dyDesc dy xDesc x dwDesc
      workSpace workSpaceSize in_n in_c in_h in_w wei_h wei_w out_h out_w)
    dyDesc xDesc dwDesc workSpace workSpaceSize in_h in_w wei_h wei_w hn
  rw [hd]
  refine ⟨R, h1, rfl, ?_⟩
  rw [hnames, FindConvBwdWeightsAlgorithm_gemm_names]
  rfl

theorem FindConvBwdDataAlgorithm_candidates_total (env : Env) (cd : ConvolutionDescriptor)
    (handle : Handle) (tmp_dx : Data_t) (dyDesc : TensorDescriptor) (dy : Data_t)
    (wDesc : TensorDescriptor) (w : Data_t) (dxDesc : TensorDescriptor)
    (exhaustiveSearch : Bool)
    (hn : (env.mloConstruct (directFindParams cd dxDesc wDesc dyDesc exhaustiveSearch
        0)).kernelFile = "MLOpenConvFwd_LxL_11.cl" →
      1 ≤ (env.mloConstruct (directFindParams cd dxDesc wDesc dyDesc exhaustiveSearch
        0)).kernelsInfo.length) :
    ∃ (t : ℚ) (h1 : Handle),
      FindConvBwdDataAlgorithm_candidates env cd handle tmp_dx dyDesc dy wDesc w dxDesc
        exhaustiveSearch = (Except.ok [⟨"mlopenConvolutionBwdDataAlgoDirect", t, 0⟩], h1) := by
  obtain ⟨added, h1, hfd, _⟩ := FindDirectKernel_total env cd handle dxDesc wDesc dyDesc []
    exhaustiveSearch 0 hn
  unfold FindConvBwdDataAlgorithm_candidates
  rw [hfd]
  exact ⟨_, _, rfl⟩

theorem FindConvBwdWeightsAlgorithm_ok (env : Env) (cd : ConvolutionDescriptor)
    (handle : Handle) (dyDesc : TensorDescriptor) (dy : Data_t) (xDesc : TensorDescriptor)
    (x : Data_t) (dwDesc : TensorDescriptor) (dw : Data_t) (requestAlgoCount : Int)
    (cnt : Int) (r0 : mlopenConvAlgoPerf_t) (rest : List mlopenConvAlgoPerf_t)
    (workSpace : Data_t) (workSpaceSize : Nat) (R : List PerfField) (h1 : Handle)
    (hdy : dy ≠ none) (hx : x ≠ none) (hdw : dw ≠ none) (hreq : 1 ≤ requestAlgoCount)
    (hR : FindConvBwdWeightsAlgorithm_candidates env cd
        (AutoEnableProfiling.ctor (handle.Create
          ((toSizeT dwDesc.GetElementSize * sizeof_GetType) % 18446744073709551616)).2).2
        (some (handle.Create
          ((toSizeT dwDesc.GetElementSize * sizeof_GetType) % 18446744073709551616)).1)
        dyDesc dy xDesc x dwDesc workSpace workSpaceSize = (Except.ok R, h1))
    (hne : R ≠ []) :
    FindConvBwdWeightsAlgorithm env cd handle dyDesc dy xDesc x dwDesc dw requestAlgoCount
      (some cnt) (some (r0 :: rest)) workSpace workSpaceSize
      = ⟨Except.ok (),
          (AutoEnableProfiling.ctor (handle.Create
            ((toSizeT dwDesc.GetElementSize * sizeof_GetType) % 18446744073709551616)).2).1.dtor
            h1,
          some (min requestAlgoCount (R.length : Int)),
          some ({ r0 with algo :=
              if env.MLOPEN_USE_TINYGEMM then env.mlopenConvolutionBwdWeightsAlgoGEMM
              else env.mlopenConvolutionBwdWeightsAlgoDirect } :: rest)⟩ := by
  have hemp : R.isEmpty = false := isEmpty_false_of_ne_nil hne
  unfold FindConvBwdWeightsAlgorithm
  simp only [hdy, hx, hdw, or_self, if_false, not_lt.mpr hreq, hR, hemp, std_sort_length]
  simp

/-- C4 (as amended): with valid pointers, requestAlgoCount >= 1, 4-D tensors
and constructors that report at least one kernel where one is read, each search
returns exactly min(requestAlgoCount, r) records, where r is the number of
strategies that pushed a record in this call.  Forward: GEMM pushes one only in
a build with the matrix multiply and when the filter is 1x1 or the caller's
workspace is non-null and at least the required size; Winograd only when its
constructor accepts the problem; Direct always, so r >= 1 and the forward
search never raises the no-candidate failure; the entries written are the
leading r' = min(requestAlgoCount, r) records of the ranking.  Backward data:
r = 1, the Direct record.  Backward weights: GEMM as in the forward search,
Direct only when the shape guard holds and the constructor reports one kernel
or the workspace is non-null and large enough; when r = 0 the call throws the
message-only exception (no BadParm status) from the state reached after both
candidates; when r >= 1 it returns normally with *returnedAlgoCount =
min(requestAlgoCount, r), having written only the algorithm field of
entry 0. -/
theorem Find_returns_min_of_request_and_recorded (env : Env) (cd : ConvolutionDescriptor)
    (handle : Handle) (d1 d2 d3 : TensorDescriptor) (b1 b2 b3 : Data_t)
    (requestAlgoCount : Int) (cnt : Int) (results : List mlopenConvAlgoPerf_t)
    (workSpace : Data_t) (workSpaceSize : Nat) (exhaustiveSearch : Bool)
    (hb1 : b1 ≠ none) (hb2 : b2 ≠ none) (hb3 : b3 ≠ none) (hreq : 1 ≤ requestAlgoCount) :
    (∀ in_n in_c in_h in_w wei_n wei_c wei_h wei_w out_n out_c out_h out_w : Int,
      d1.lens = [in_n, in_c, in_h, in_w] → d2.lens = [wei_n, wei_c, wei_h, wei_w] →
      d3.lens = [out_n, out_c, out_h, out_w] →
      ((env.mloConstruct (directFindParams cd d1 d2 d3 exhaustiveSearch 1)).kernelFile
          = "MLOpenConvFwd_LxL_11.cl" →
        1 ≤ (env.mloConstruct (directFindParams cd d1 d2 d3 exhaustiveSearch
          1)).kernelsInfo.length) →
      (min requestAlgoCount ((FindConvFwdAlgorithm_recorded env cd d1 d2 d3 workSpace workSpaceSize wei_h wei_w).length : Int)).toNat ≤ results.length →
      1 ≤ (FindConvFwdAlgorithm_recorded env cd d1 d2 d3 workSpace workSpaceSize wei_h wei_w).length ∧
      ∃ (R : List PerfField) (h1 : Handle),
        FindConvFwdAlgorithm_candidates env cd (AutoEnableProfiling.ctor handle).2
          d1 b1 d2 b2 d3 workSpace workSpaceSize exhaustiveSearch = (Except.ok R, h1) ∧
        R.map PerfField.name = FindConvFwdAlgorithm_recorded env cd d1 d2 d3 workSpace workSpaceSize wei_h wei_w ∧
        FindConvFwdAlgorithm env cd handle d1 b1 d2 b2 d3 b3 requestAlgoCount (some cnt)
          (some results) workSpace workSpaceSize exhaustiveSearch
          = ⟨Except.ok (), (AutoEnableProfiling.ctor handle).1.dtor h1,
              some (min requestAlgoCount ((FindConvFwdAlgorithm_recorded env cd d1 d2 d3 workSpace workSpaceSize wei_h wei_w).length : Int)),
              some (((std_sort R).take
                  (min requestAlgoCount ((FindConvFwdAlgorithm_recorded env cd d1 d2 d3 workSpace workSpaceSize wei_h wei_w).length : Int)).toNat).map
                  (toPerf env.FwdAlgoResolver)
                ++ results.drop (min requestAlgoCount ((FindConvFwdAlgorithm_recorded env cd d1 d2 d3 workSpace workSpaceSize wei_h wei_w).length : Int)).toNat)⟩) ∧
    (((env.mloConstruct (directFindParams cd d3 d2 d1 exhaustiveSearch 0)).kernelFile
          = "MLOpenConvFwd_LxL_11.cl" →
        1 ≤ (env.mloConstruct (directFindParams cd d3 d2 d1 exhaustiveSearch
          0)).kernelsInfo.length) →
      results ≠ [] →
      ∃ (t : ℚ) (h1 : Handle),
        FindConvBwdDataAlgorithm_candidates env cd
          (AutoEnableProfiling.ctor (handle.Create ((toSizeT d3.GetElementSize * sizeof_GetType) % 18446744073709551616)).2).2
          (some (handle.Create ((toSizeT d3.GetElementSize * sizeof_GetType) % 18446744073709551616)).1) d1 b1 d2 b2 d3 exhaustiveSearch
          = (Except.ok [⟨"mlopenConvolutionBwdDataAlgoDirect", t, 0⟩], h1) ∧
        (FindConvBwdDataAlgorithm env cd handle d1 b1 d2 b2 d3 b3 requestAlgoCount (some cnt)
          (some results) exhaustiveSearch).outcome = Except.ok () ∧
        (FindConvBwdDataAlgorithm env cd handle d1 b1 d2 b2 d3 b3 requestAlgoCount (some cnt)
          (some results) exhaustiveSearch).returnedAlgoCount = some 1) ∧
    (∀ in_n in_c in_h in_w wei_n wei_c wei_h wei_w out_n out_c out_h out_w : Int,
      d2.lens = [in_n, in_c, in_h, in_w] → d3.lens = [wei_n, wei_c, wei_h, wei_w] →
      d1.lens = [out_n, out_c, out_h, out_w] →
      (bwdWeightsDirectGuard in_h in_w wei_h wei_w = true →
        1 ≤ (env.mloConstruct (bwdWeightsFindParams cd d1 d2 d3)).kernelsInfo.length) →
      ∃ (R : List PerfField) (h1 : Handle),
        FindConvBwdWeightsAlgorithm_candidates env cd
          (AutoEnableProfiling.ctor (handle.Create ((toSizeT d3.GetElementSize * sizeof_GetType) % 18446744073709551616)).2).2
          (some (handle.Create ((toSizeT d3.GetElementSize * sizeof_GetType) % 18446744073709551616)).1) d1 b1 d2 b2 d3 workSpace workSpaceSize
          = (Except.ok R, h1) ∧
        R.map PerfField.name = FindConvBwdWeightsAlgorithm_recorded env cd d1 d2 d3 workSpace workSpaceSize in_h in_w wei_h wei_w ∧
        (FindConvBwdWeightsAlgorithm_recorded env cd d1 d2 d3 workSpace workSpaceSize in_h in_w wei_h wei_w = [] →
          (FindConvBwdWeightsAlgorithm env cd handle d1 b1 d2 b2 d3 b3 requestAlgoCount
            (some cnt) (some results) workSpace workSpaceSize).outcome
            = Except.error (Abort.thrown
                ⟨none, "Bwd Weights Convolution cannot be executed due to incorrect params"⟩) ∧
          (FindConvBwdWeightsAlgorithm env cd handle d1 b1 d2 b2 d3 b3 requestAlgoCount
            (some cnt) (some results) workSpace workSpaceSize).handle
            = (AutoEnableProfiling.ctor (handle.Create ((toSizeT d3.GetElementSize * sizeof_GetType) % 18446744073709551616)).2).1.dtor h1) ∧
        (FindConvBwdWeightsAlgorithm_recorded env cd d1 d2 d3 workSpace workSpaceSize in_h in_w wei_h wei_w ≠ [] →
          ∀ (r0 : mlopenConvAlgoPerf_t) (rest : List mlopenConvAlgoPerf_t),
          results = r0 :: rest →
          FindConvBwdWeightsAlgorithm env cd handle d1 b1 d2 b2 d3 b3 requestAlgoCount
            (some cnt) (some results) workSpace workSpaceSize
            = ⟨Except.ok (), (AutoEnableProfiling.ctor (handle.Create ((toSizeT d3.GetElementSize * sizeof_GetType) % 18446744073709551616)).2).1.dtor h1,
                some (min requestAlgoCount ((FindConvBwdWeightsAlgorithm_recorded env cd d1 d2 d3 workSpace workSpaceSize in_h in_w wei_h wei_w).length : Int)),
                some ({ r0 with algo :=
                    if env.MLOPEN_USE_TINYGEMM then env.mlopenConvolutionBwdWeightsAlgoGEMM
                    else env.mlopenConvolutionBwdWeightsAlgoDirect } :: rest)⟩)) := by
  refine ⟨?_, ?_, ?_⟩
  · intro in_n in_c in_h in_w wei_n wei_c wei_h wei_w out_n out_c out_h out_w hxl hwl hyl hn
      hcap
    obtain ⟨R, h1, hR, hnames⟩ := FindConvFwdAlgorithm_candidates_names env cd
      (AutoEnableProfiling.ctor handle).2 d1 b1 d2 b2 d3 workSpace workSpaceSize
      exhaustiveSearch in_n in_c in_h in_w wei_n wei_c wei_h wei_w out_n out_c out_h out_w
      hxl hwl hyl hn
    have hlen : R.length = (FindConvFwdAlgorithm_recorded env cd d1 d2 d3 workSpace workSpaceSize wei_h wei_w).length := by
      rw [← hnames, List.length_map]
    have hpos : 1 ≤ (FindConvFwdAlgorithm_recorded env cd d1 d2 d3 workSpace workSpaceSize wei_h wei_w).length := by
      unfold FindConvFwdAlgorithm_recorded
      simp only [List.length_append, List.length_singleton]
      omega
    have hne : R ≠ [] := by
      intro h
      rw [h] at hlen
      simp at hlen
      omega
    refine ⟨hpos, R, h1, hR, hnames, ?_⟩
    rw [← hlen] at hcap ⊢
    exact FindConvFwdAlgorithm_ok env cd handle d1 b1 d2 b2 d3 b3 requestAlgoCount
      cnt results workSpace workSpaceSize exhaustiveSearch R h1 hb1 hb2 hb3 hreq hR hne hcap
  · intro hn hres
    obtain ⟨t, h1, hR⟩ := FindConvBwdDataAlgorithm_candidates_total env cd
      (AutoEnableProfiling.ctor (handle.Create ((toSizeT d3.GetElementSize * sizeof_GetType) % 18446744073709551616)).2).2
      (some (handle.Create ((toSizeT d3.GetElementSize * sizeof_GetType) % 18446744073709551616)).1) d1 b1 d2 b2 d3 exhaustiveSearch hn
    have hcap : (min requestAlgoCount
        (([(⟨"mlopenConvolutionBwdDataAlgoDirect", t, 0⟩ : PerfField)]).length : Int)).toNat
        ≤ results.length := by
      have : 1 ≤ results.length := List.length_pos.mpr hres
      simp only [List.length_singleton]
      omega
    have h := ((Find_outcome_of_records env cd handle d1 d2 d3 b1 b2 b3 requestAlgoCount cnt
      results workSpace workSpaceSize exhaustiveSearch hb1 hb2 hb3 hreq).2.1 _ h1 hR).2 hcap
    have hmin : min requestAlgoCount ((1 : Nat) : Int) = 1 := by omega
    simp only [List.length_singleton, hmin] at h
    exact ⟨t, h1, hR, h.1, h.2⟩
  · intro in_n in_c in_h in_w wei_n wei_c wei_h wei_w out_n out_c out_h out_w hxl hwl hyl hn
    obtain ⟨R, h1, hR, hnames⟩ := FindConvBwdWeightsAlgorithm_candidates_names env cd
      (AutoEnableProfiling.ctor (handle.Create ((toSizeT d3.GetElementSize * sizeof_GetType) % 18446744073709551616)).2).2
      (some (handle.Create ((toSizeT d3.GetElementSize * sizeof_GetType) % 18446744073709551616)).1) d1 b1 d2 b2 d3 workSpace workSpaceSize
      in_n in_c in_h in_w wei_n wei_c wei_h wei_w out_n out_c out_h out_w hxl hwl hyl hn
    have hlen : R.length = (FindConvBwdWeightsAlgorithm_recorded env cd d1 d2 d3 workSpace workSpaceSize in_h in_w wei_h wei_w).length := by
      rw [← hnames, List.length_map]
    refine ⟨R, h1, hR, hnames, ?_, ?_⟩
    · intro hnil
      have hRnil : R = [] := by
        rw [hnil] at hlen
        exact List.length_eq_zero.mp hlen
      exact ((Find_outcome_of_records env cd handle d1 d2 d3 b1 b2 b3 requestAlgoCount cnt
        results workSpace workSpaceSize exhaustiveSearch hb1 hb2 hb3 hreq).2.2 R h1 hR).1
        hRnil
    · intro hnn r0 rest hres
      have hne : R ≠ [] := by
        intro h
        rw [h] at hnames
        exact hnn hnames.symm
      rw [← hlen, hres]
      exact FindConvBwdWeightsAlgorithm_ok env cd handle d1 b1 d2 b2 d3 b3 requestAlgoCount
        cnt r0 rest workSpace workSpaceSize R h1 hb1 hb2 hb3 hreq hR hne

theorem sample_fwd_null_workspace (requestAlgoCount : Int) (hreq : 1 ≤ requestAlgoCount)
    (hcap : requestAlgoCount ≤ 2) :
    (FindConvFwdAlgorithm sampleEnv sampleConv sampleHandle sampleX (buf 0) sampleW (buf 1)
      sampleY (buf 2) requestAlgoCount (some 0) (some sampleResults) none 0 false).outcome
      = Except.ok () ∧
    (FindConvFwdAlgorithm sampleEnv sampleConv sampleHandle sampleX (buf 0) sampleW (buf 1)
      sampleY (buf 2) requestAlgoCount (some 0) (some sampleResults) none 0
      false).returnedAlgoCount = some 1 := by
  obtain ⟨R, h1, hR, hnames⟩ := FindConvFwdAlgorithm_candidates_names sampleEnv sampleConv
    (AutoEnableProfiling.ctor sampleHandle).2 sampleX (buf 0) sampleW (buf 1) sampleY none 0
    false 1 3 32 32 8 3 3 3 1 8 32 32 rfl rfl rfl (by simp [sampleEnv])
  have hlen : R.length = 1 := by
    rw [← List.length_map R PerfField.name, hnames]
    simp [FindConvFwdAlgorithm_recorded, sampleEnv, winogradFindParams]
  have hne : R ≠ [] := by
    intro h
    rw [h] at hlen
    simp at hlen
  have hmin : min requestAlgoCount ((1 : Nat) : Int) = 1 := by omega
  rw [FindConvFwdAlgorithm_ok sampleEnv sampleConv sampleHandle sampleX (buf 0) sampleW
    (buf 1) sampleY (buf 2) requestAlgoCount 0 sampleResults none 0 false R h1
    (by simp [buf]) (by simp [buf]) (by simp [buf]) hreq hR hne
    (by rw [hlen, hmin]; simp [sampleResults])]
  rw [hlen, hmin]
  exact ⟨rfl, rfl⟩

theorem sample_fwd_with_workspace_count :
    (FindConvFwdAlgorithm sampleEnv sampleConv sampleHandle sampleX (buf 0) sampleW (buf 1)
      sampleY (buf 2) 2 (some 0) (some sampleResults) (buf 3) 200 false).returnedAlgoCount
      = some 2 := by
  rw [FindConvFwdAlgorithm_ok sampleEnv sampleConv sampleHandle sampleX (buf 0) sampleW
    (buf 1) sampleY (buf 2) 2 0 sampleResults (buf 3) 200 false
    [⟨"mlopenConvolutionFwdAlgoGEMM", 6, 100⟩, ⟨"mlopenConvolutionFwdAlgoDirect", 6, 0⟩]
    _ (by simp [buf]) (by simp [buf]) (by simp [buf]) (by norm_num)
    (Prod.ext sample_fwd_candidates rfl) (by simp) (by simp [sampleResults])]
  simp

/-- C4 (counterexample): a build with the matrix multiply, the sample 3x3
problem, two records requested.  With a 200-byte workspace the search returns
two records, GEMM and Direct: both strategies apply to these shapes.  With a
null workspace the same search returns normally with *returnedAlgoCount = 1:
fewer than min(2, 2). -/
theorem FindConvFwdAlgorithm_null_workspace_returns_one_of_two :
    sampleEnv.MLOPEN_USE_TINYGEMM = true ∧
    (FindConvFwdAlgorithm sampleEnv sampleConv sampleHandle sampleX (buf 0) sampleW (buf 1)
      sampleY (buf 2) 2 (some 0) (some sampleResults) (buf 3) 200 false).returnedAlgoCount
      = some 2 ∧
    (FindConvFwdAlgorithm sampleEnv sampleConv sampleHandle sampleX (buf 0) sampleW (buf 1)
      sampleY (buf 2) 2 (some 0) (some sampleResults) none 0 false).outcome
      = Except.ok () ∧
    (FindConvFwdAlgorithm sampleEnv sampleConv sampleHandle sampleX (buf 0) sampleW (buf 1)
      sampleY (buf 2) 2 (some 0) (some sampleResults) none 0 false).returnedAlgoCount
      = some 1 :=
  ⟨rfl, sample_fwd_with_workspace_count,
    (sample_fwd_null_workspace 2 (by norm_num) (by norm_num)).1,
    (sample_fwd_null_workspace 2 (by norm_num) (by norm_num)).2⟩

/-- Witness for C4 (as amended): the sample forward search with a 200-byte
workspace and two records requested returns two (GEMM and Direct record); the
backward-weights search for a 3x1 filter without workspace has no strategy
that records and throws the message-only exception. -/
theorem Find_returns_min_of_request_and_recorded_witness :
    (FindConvFwdAlgorithm sampleEnv sampleConv sampleHandle sampleX (buf 0) sampleW (buf 1)
      sampleY (buf 2) 2 (some 0) (some sampleResults) (buf 3) 200 false).returnedAlgoCount
      = some (min 2 ((["mlopenConvolutionFwdAlgoGEMM",
          "mlopenConvolutionFwdAlgoDirect"].length : Nat) : Int)) ∧
    (FindConvBwdWeightsAlgorithm sampleEnv sampleConv sampleHandle sampleYTall (buf 0) sampleX
      (buf 1) sampleTallW (buf 2) 2 (some 0) (some sampleResults) none 0).outcome
      = Except.error (Abort.thrown
          ⟨none, "Bwd Weights Convolution cannot be executed due to incorrect params"⟩) := by
  constructor
  · obtain ⟨_, R, h1, _, _, hF⟩ := (Find_returns_min_of_request_and_recorded sampleEnv
      sampleConv sampleHandle sampleX sampleW sampleY (buf 0) (buf 1) (buf 2) 2 0
      sampleResults (buf 3) 200 false (by simp [buf]) (by simp [buf]) (by simp [buf])
      (by norm_num)).1 1 3 32 32 8 3 3 3 1 8 32 32 rfl rfl rfl (by simp [sampleEnv])
      (by simp [FindConvFwdAlgorithm_recorded, sampleEnv, winogradFindParams, buf,
        sampleResults])
    rw [hF]
    simp [FindConvFwdAlgorithm_recorded, sampleEnv, winogradFindParams, buf]
  · obtain ⟨R, h1, _, _, hfail, _⟩ := (Find_returns_min_of_request_and_recorded sampleEnv
      sampleConv sampleHandle sampleYTall sampleX sampleTallW (buf 0) (buf 1) (buf 2) 2 0
      sampleResults none 0 false (by simp [buf]) (by simp [buf]) (by simp [buf])
      (by norm_num)).2.2 1 3 32 32 8 3 3 1 1 8 32 34 rfl rfl rfl
      (by simp [bwdWeightsDirectGuard])
    exact (hfail (by simp [FindConvBwdWeightsAlgorithm_recorded, sampleEnv,
      bwdWeightsDirectGuard])).1

/-! ## The kernel-cache pair of ConvolutionBackwardBias -/

set_option maxRecDepth 100000 in
theorem sample_bias_params_4ch :
    bwdBiasParams 1 5 3 60 15 4 3 = samplePlan4ch.parms := by
  decide

set_option maxRecDepth 100000 in
theorem sample_bias_params_6x6 :
    bwdBiasParams 1 6 6 144 36 9 0 = samplePlan6x6.parms := by
  decide

theorem sample_bias_request (env : Env) (handle : Handle) :
    ConvolutionBackwardBias env handle sampleY5x3 (buf 0) sampleBias (buf 1)
      = (Except.ok (),
          (handle.GetKernel "mlopenConvolutionBwdBias" "" samplePlan5x3.program_name
            samplePlan5x3.kernel_name samplePlan5x3.vld samplePlan5x3.vgd
            samplePlan5x3.parms).2.Launch env
          (handle.GetKernel "mlopenConvolutionBwdBias" "" samplePlan5x3.program_name
            samplePlan5x3.kernel_name samplePlan5x3.vld samplePlan5x3.vgd
            samplePlan5x3.parms).1 [] [buf 0, buf 1]) := by
  have hA := ConvolutionBackwardBias_ok env handle sampleY5x3 (buf 0) sampleBias
    (buf 1) 1 8 5 3 120 15 3 1 1 [1, 1] rfl rfl rfl (by simp [buf]) (by simp [buf])
  have hwk : (toSizeT (imul 3 5) + 3) % 18446744073709551616 / 4 = 4 := by decide
  have hoff : toSizeT (imul 3 5) - toSizeT (imul 3 5) / 4 * 4 = 3 := by decide
  have h8 : toSizeT 8 = 8 := by decide
  rw [hwk, hoff, h8, sample_bias_params] at hA
  exact hA

theorem sample_bias_request_4ch (env : Env) (handle : Handle) (dy db : Data_t)
    (hdy : dy ≠ none) (hdb : db ≠ none) :
    ConvolutionBackwardBias env handle sampleY4ch dy sampleBias4 db
      = (Except.ok (),
          (handle.GetKernel "mlopenConvolutionBwdBias" "" samplePlan4ch.program_name
            samplePlan4ch.kernel_name samplePlan4ch.vld samplePlan4ch.vgd
            samplePlan4ch.parms).2.Launch env
          (handle.GetKernel "mlopenConvolutionBwdBias" "" samplePlan4ch.program_name
            samplePlan4ch.kernel_name samplePlan4ch.vld samplePlan4ch.vgd
            samplePlan4ch.parms).1 [] [dy, db]) := by
  have hA := ConvolutionBackwardBias_ok env handle sampleY4ch dy sampleBias4
    db 1 4 5 3 60 15 3 1 1 [1, 1] rfl rfl rfl hdy hdb
  have hwk : (toSizeT (imul 3 5) + 3) % 18446744073709551616 / 4 = 4 := by decide
  have hoff : toSizeT (imul 3 5) - toSizeT (imul 3 5) / 4 * 4 = 3 := by decide
  have h4 : toSizeT 4 = 4 := by decide
  rw [hwk, hoff, h4, sample_bias_params_4ch] at hA
  exact hA

theorem sample_bias_request_6x6 (env : Env) (handle : Handle) (dy db : Data_t)
    (hdy : dy ≠ none) (hdb : db ≠ none) :
    ConvolutionBackwardBias env handle sampleY6x6 dy sampleBias4 db
      = (Except.ok (),
          (handle.GetKernel "mlopenConvolutionBwdBias" "" samplePlan6x6.program_name
            samplePlan6x6.kernel_name samplePlan6x6.vld samplePlan6x6.vgd
            samplePlan6x6.parms).2.Launch env
          (handle.GetKernel "mlopenConvolutionBwdBias" "" samplePlan6x6.program_name
            samplePlan6x6.kernel_name samplePlan6x6.vld samplePlan6x6.vgd
            samplePlan6x6.parms).1 [] [dy, db]) := by
  have hA := ConvolutionBackwardBias_ok env handle sampleY6x6 dy sampleBias4
    db 1 4 6 6 144 36 6 1 1 [1, 1] rfl rfl rfl hdy hdb
  have hwk : (toSizeT (imul 6 6) + 3) % 18446744073709551616 / 4 = 9 := by decide
  have hoff : toSizeT (imul 6 6) - toSizeT (imul 6 6) / 4 * 4 = 0 := by decide
  have h4 : toSizeT 4 = 4 := by decide
  rw [hwk, hoff, h4, sample_bias_params_6x6] at hA
  exact hA

theorem sample_bias_first_call :
    ConvolutionBackwardBias sampleEnv sampleHandle sampleY5x3 (buf 0) sampleBias (buf 1)
      = (Except.ok (), sampleHandleWarm) := by
  rw [sample_bias_request]
  simp [Handle.GetKernel, Handle.find, sampleHandle, sampleHandleWarm, Handle.Launch,
    Handle.run]

/-- C14 (failing input): an 8-channel and a 4-channel problem request plans
with different global work sizes, (256,8,1) and (256,4,1), and different
compiler flags, yet each hands the kernel cache the same pair
("mlopenConvolutionBwdBias", ""): that is what each compiles under on a fresh
handle.  Run one after the other on the same handle, the 4-channel problem
compiles nothing and is launched with the 8-channel plan. -/
theorem ConvolutionBackwardBias_distinct_plans_share_pair :
    samplePlan5x3.vgd = [256, 8, 1] ∧ samplePlan4ch.vgd = [256, 4, 1] ∧
    samplePlan5x3 ≠ samplePlan4ch ∧
    (ConvolutionBackwardBias sampleEnv sampleHandle sampleY5x3 (buf 0) sampleBias
      (buf 1)).2.log
      = [Event.Compile "mlopenConvolutionBwdBias" "" samplePlan5x3,
         Event.Launch samplePlan5x3 [] [buf 0, buf 1]] ∧
    (ConvolutionBackwardBias sampleEnv sampleHandle sampleY4ch (buf 0) sampleBias4
      (buf 1)).2.log
      = [Event.Compile "mlopenConvolutionBwdBias" "" samplePlan4ch,
         Event.Launch samplePlan4ch [] [buf 0, buf 1]] ∧
    (ConvolutionBackwardBias sampleEnv
      (ConvolutionBackwardBias sampleEnv sampleHandle sampleY5x3 (buf 0) sampleBias
        (buf 1)).2
      sampleY4ch (buf 2) sampleBias4 (buf 3)).2.log
      = [Event.Compile "mlopenConvolutionBwdBias" "" samplePlan5x3,
         Event.Launch samplePlan5x3 [] [buf 0, buf 1],
         Event.Launch samplePlan5x3 [] [buf 2, buf 3]] := by
  refine ⟨rfl, rfl, ?_, ?_, ?_, ?_⟩
  · intro h
    have h2 := congrArg KernelInvoke.vgd h
    simp [samplePlan5x3, samplePlan4ch] at h2
  · rw [sample_bias_first_call]
    rfl
  · rw [sample_bias_request_4ch sampleEnv sampleHandle (buf 0) (buf 1) (by simp [buf])
      (by simp [buf])]
    simp [Handle.GetKernel, Handle.find, sampleHandle, Handle.Launch, Handle.run]
  · rw [sample_bias_first_call,
      sample_bias_request_4ch sampleEnv sampleHandleWarm (buf 2) (buf 3) (by simp [buf])
        (by simp [buf])]
    simp [Handle.GetKernel, Handle.find, sampleHandleWarm, Handle.Launch, Handle.run]

/-- C20 (failing input): a 4-channel problem with a 6x6 map (m = 36), run on
the handle an 8-channel problem with a 5x3 map has left.  On a fresh handle the
call compiles and launches the plan with global size (256,4,1),
MLO_WK_SIZE=9 and MLO_N_PIX_OFF=0; on the warm handle it compiles nothing and
launches the cached plan, with global size (256,8,1), MLO_WK_SIZE=4 and
MLO_N_PIX_OFF=3. -/
theorem ConvolutionBackwardBias_warm_handle_launches_cached_plan :
    ConvolutionBackwardBias sampleEnv sampleHandle sampleY5x3 (buf 0) sampleBias (buf 1)
      = (Except.ok (), sampleHandleWarm) ∧
    (ConvolutionBackwardBias sampleEnv sampleHandle sampleY6x6 (buf 2) sampleBias4
      (buf 3)).2.log
      = [Event.Compile "mlopenConvolutionBwdBias" "" samplePlan6x6,
         Event.Launch samplePlan6x6 [] [buf 2, buf 3]] ∧
    (ConvolutionBackwardBias sampleEnv sampleHandleWarm sampleY6x6 (buf 2) sampleBias4
      (buf 3)).1 = Except.ok () ∧
    (ConvolutionBackwardBias sampleEnv sampleHandleWarm sampleY6x6 (buf 2) sampleBias4
      (buf 3)).2.log
      = [Event.Compile "mlopenConvolutionBwdBias" "" samplePlan5x3,
         Event.Launch samplePlan5x3 [] [buf 0, buf 1],
         Event.Launch samplePlan5x3 [] [buf 2, buf 3]] ∧
    samplePlan5x3.vgd = [256, 8, 1] ∧ samplePlan6x6.vgd = [256, 4, 1] ∧
    samplePlan5x3.parms ≠ samplePlan6x6.parms := by
  refine ⟨sample_bias_first_call, ?_, ?_, ?_, rfl, rfl, ?_⟩
  · rw [sample_bias_request_6x6 sampleEnv sampleHandle (buf 2) (buf 3) (by simp [buf])
      (by simp [buf])]
    simp [Handle.GetKernel, Handle.find, sampleHandle, Handle.Launch, Handle.run]
  · rw [sample_bias_request_6x6 sampleEnv sampleHandleWarm (buf 2) (buf 3) (by simp [buf])
      (by simp [buf])]
  · rw [sample_bias_request_6x6 sampleEnv sampleHandleWarm (buf 2) (buf 3) (by simp [buf])
      (by simp [buf])]
    simp [Handle.GetKernel, Handle.find, sampleHandleWarm, Handle.Launch, Handle.run]
  · simp [samplePlan5x3, samplePlan6x6]

end mlopen
